import Mathlib

/-!
Verification of the GNU-diff-derived difference engine in this repository
(liboccoder/Diff/diffutils).  The definitions below are shallow embeddings
of the C sources: context.c (find_hunk, mark_ignorable, the number-range
printers), diff.c (whitespace-flag option processing) and io.c (lines_differ,
the per-line hashing loop of find_and_hash_each_line, prepare_text,
find_identical_ends, the prime_offset table and read_files' bucket count).
Machine integers `lin` (ptrdiff_t) are modelled as `Int`, bytes as `Nat`,
and the size_t hash accumulator as `Nat` reduced mod 2^64.
-/

set_option maxRecDepth 8000

namespace GDiff

/-- Kinds of changes a hunk contains (diff.h, enum changes). -/
inductive Changes
  | UNCHANGED
  | OLD
  | NEW
  | CHANGED
deriving DecidableEq

/-- Output styles (diff.h, enum output_style). -/
inductive OutputStyle
  | OUTPUT_UNSPECIFIED
  | OUTPUT_NORMAL
  | OUTPUT_CONTEXT
  | OUTPUT_UNIFIED
  | OUTPUT_ED
  | OUTPUT_FORWARD_ED
  | OUTPUT_RCS
  | OUTPUT_IFDEF
  | OUTPUT_SDIFF
deriving DecidableEq

/-- robust_output_style from diff.h: true for output styles that can handle
a file that ends in a non-newline. -/
def robust_output_style (s : OutputStyle) : Bool :=
  s != OutputStyle.OUTPUT_ED && s != OutputStyle.OUTPUT_FORWARD_ED

/-- An edit-script record (diff.h, struct change).  The `link` pointer is
modelled by keeping the records of a script in a `List` in forward order. -/
structure Change where
  inserted : Int
  deleted : Int
  line0 : Int
  line1 : Int
  ignore : Bool
deriving DecidableEq

/-- A default record, used only as the `List.getD` fallback. -/
def change0 : Change := { inserted := 0, deleted := 0, line0 := 0, line1 := 0, ignore := false }

/-- find_hunk from context.c: scan a forward-ordered edit script for the
first place where at least the threshold number of unchanged lines elapse
before the next change, and return the last change before those lines.
The C threshold for a non-ignorable next change is min (2*CONTEXT+1,
LIN_MAX); the LIN_MAX clamp matters only when 2*CONTEXT overflows `lin`,
which the unbounded `Int` model does not do. -/
def find_hunk (context : Int) : Change → List Change → Change
  | script, [] => script
  | script, next :: rest =>
    let top0 := script.line0 + script.deleted
    let thresh : Int := if next.ignore then context else 2 * context + 1
    if thresh ≤ next.line0 - top0 then script else find_hunk context next rest

/-- Number of unchanged lines between record j and record j+1 of a script
(next->line0 - (script->line0 + script->deleted) in find_hunk). -/
def gap_at (l : List Change) (j : Nat) : Int :=
  (l.getD (j + 1) change0).line0
    - ((l.getD j change0).line0 + (l.getD j change0).deleted)

/-- mark_ignorable from context.c.  analyze_hunk lives in util.c, which is
not among this repository's sources, so it is a parameter here; detaching a
record from the chain (nulling its link before the call, restoring it
after) corresponds to analyzing the one-record script `[c]`. -/
def mark_ignorable (analyze_hunk : List Change → Changes) (script : List Change) :
    List Change :=
  script.map fun c => { c with ignore := analyze_hunk [c] == Changes.UNCHANGED }

/-- print_context_number_range from context.c, modelled as the string
written to outfile; its arguments are the already-translated (real) line
numbers produced by translate_range. -/
def print_context_number_range (trans_a trans_b : Int) : String :=
  if trans_b ≤ trans_a then toString trans_b
  else toString trans_a ++ "," ++ toString trans_b

/-- print_unidiff_number_range from context.c, likewise over the
already-translated line numbers. -/
def print_unidiff_number_range (trans_a trans_b : Int) : String :=
  if trans_b ≤ trans_a then
    (if trans_b < trans_a then toString trans_b ++ ",0" else toString trans_b)
  else toString trans_a ++ "," ++ toString (trans_b - trans_a + 1)

/-- Numeric values of enum DIFF_white_space (diff.h). -/
def IGNORE_NO_WHITE_SPACE : Nat := 0

/-- IGNORE_TAB_EXPANSION (-E). -/
def IGNORE_TAB_EXPANSION : Nat := 1

/-- IGNORE_TRAILING_SPACE (-Z). -/
def IGNORE_TRAILING_SPACE : Nat := 2

/-- IGNORE_TAB_EXPANSION_AND_TRAILING_SPACE (-E plus -Z). -/
def IGNORE_TAB_EXPANSION_AND_TRAILING_SPACE : Nat := 3

/-- IGNORE_SPACE_CHANGE (-b). -/
def IGNORE_SPACE_CHANGE : Nat := 4

/-- IGNORE_ALL_SPACE (-w). -/
def IGNORE_ALL_SPACE : Nat := 5

/-- The four whitespace-related command-line flags handled by diff.c main. -/
inductive WsFlag
  | flagB
  | flagW
  | flagE
  | flagZ
deriving DecidableEq

/-- One step of option processing in diff.c main for -b, -w, -E, -Z
(the 'b', 'w', 'E', 'Z' cases of the getopt loop). -/
def ws_step (iws : Nat) : WsFlag → Nat
  | WsFlag.flagB => if iws < IGNORE_SPACE_CHANGE then IGNORE_SPACE_CHANGE else iws
  | WsFlag.flagZ => if iws < IGNORE_SPACE_CHANGE then iws ||| IGNORE_TRAILING_SPACE else iws
  | WsFlag.flagE => if iws < IGNORE_SPACE_CHANGE then iws ||| IGNORE_TAB_EXPANSION else iws
  | WsFlag.flagW => IGNORE_ALL_SPACE

/-- Final ignore_white_space after processing a command line's whitespace
flags in order, starting from the default IGNORE_NO_WHITE_SPACE. -/
def ws_of_flags (flags : List WsFlag) : Nat :=
  flags.foldl ws_step IGNORE_NO_WHITE_SPACE

/-- The combination the spec describes (strongest flag wins; -E and -Z
combine when neither -b nor -w is in force), stated from the spec's words
for comparison with ws_of_flags. -/
def ws_combined (flags : List WsFlag) : Nat :=
  if WsFlag.flagW ∈ flags then IGNORE_ALL_SPACE
  else if WsFlag.flagB ∈ flags then IGNORE_SPACE_CHANGE
  else (if WsFlag.flagE ∈ flags then IGNORE_TAB_EXPANSION else 0)
    ||| (if WsFlag.flagZ ∈ flags then IGNORE_TRAILING_SPACE else 0)

/-- Intermediate closed form for the fold from an arbitrary start state. -/
def ws_from (s : Nat) (flags : List WsFlag) : Nat :=
  if WsFlag.flagW ∈ flags then 5
  else if 4 ≤ s then s
  else if WsFlag.flagB ∈ flags then 4
  else (s ||| (if WsFlag.flagE ∈ flags then 1 else 0))
    ||| (if WsFlag.flagZ ∈ flags then 2 else 0)

theorem ws_step_le (s : Nat) (hs : s ≤ 5) (f : WsFlag) : ws_step s f ≤ 5 := by
  interval_cases s <;> cases f <;> decide

theorem ws_fold_eq (flags : List WsFlag) :
    ∀ s, s ≤ 5 → List.foldl ws_step s flags = ws_from s flags := by
  induction flags with
  | nil =>
    intro s hs
    simp only [List.foldl_nil, ws_from, List.not_mem_nil, if_false]
    interval_cases s <;> decide
  | cons f rest ih =>
    intro s hs
    have h2 := ih (ws_step s f) (ws_step_le s hs f)
    rw [List.foldl_cons, h2]
    interval_cases s <;> cases f <;>
      by_cases hW : WsFlag.flagW ∈ rest <;>
      by_cases hB : WsFlag.flagB ∈ rest <;>
      by_cases hE : WsFlag.flagE ∈ rest <;>
      by_cases hZ : WsFlag.flagZ ∈ rest <;>
      simp [ws_from, ws_step, hW, hB, hE, hZ] <;> decide

/-- isspace in the C locale, for unibyte input. -/
def isSpaceB (c : Nat) : Bool :=
  c = 32 || c = 9 || c = 10 || c = 11 || c = 12 || c = 13

/-- isprint in the C locale. -/
def isPrintB (c : Nat) : Bool := 32 ≤ c && c ≤ 126

/-- tolower in the C locale. -/
def lowerB (c : Nat) : Nat := if 65 ≤ c && c ≤ 90 then c + 32 else c

/-- Case fold applied when ignore_case is set. -/
def foldCase (ig : Bool) (c : Nat) : Nat := if ig then lowerB c else c

/-- Read the byte at offset i of a line.  Every line of the hashed region
is terminated by a newline in the buffer and none of the scanning loops
reads past the first newline, so out-of-range offsets read as newline. -/
def rd (s : List Nat) (i : Nat) : Nat := s.getD i 10

theorem rd_lt_of_ne_nl {s : List Nat} {i : Nat} (h : rd s i ≠ 10) : i < s.length := by
  by_contra hge
  exact h (by rw [rd, List.getD_eq_default _ _ (Nat.le_of_not_lt hge)])

/-- The comparison configuration: ignore_white_space, ignore_case and
tabsize (MB_CUR_MAX = 1, the unibyte paths of io.c). -/
structure HashCfg where
  iws : Nat
  igcase : Bool
  tabsize : Nat
deriving DecidableEq

/-- First offset at or after i whose byte is not ignorable -w white space
(lines_differ's "while (isspace (c1) && c1 != '\n') c1 = *t1++"). -/
def skipW (s : List Nat) (i : Nat) : Nat :=
  if isSpaceB (rd s i) ∧ rd s i ≠ 10 then skipW s (i + 1) else i
termination_by s.length - i
decreasing_by
  have := rd_lt_of_ne_nl (by tauto : rd s i ≠ 10)
  omega

/-- First offset at or after p holding a newline or a non-space byte (the
scan inside the -b normalization of lines_differ). -/
def findNS (s : List Nat) (p : Nat) : Nat :=
  if rd s p ≠ 10 ∧ isSpaceB (rd s p) then findNS s (p + 1) else p
termination_by s.length - p
decreasing_by
  have := rd_lt_of_ne_nl (by tauto : rd s p ≠ 10)
  omega

/-- The -b normalization of lines_differ applied to the character at offset
p: a white-space run becomes a single space, or the terminating newline if
the run reaches it; the returned offset is the C t-pointer after the
normalization. -/
def bnorm (s : List Nat) (p : Nat) : Nat × Nat :=
  let c := rd s p
  if ¬ isSpaceB c then (c, p + 1)
  else
    let j := findNS s p
    if rd s j = 10 then (10, j + 1) else (32, j)

/-- True when everything from offset p to the line's newline is white
space (the trailing-space scans of lines_differ and of the hashing loop). -/
def allSpToNl (s : List Nat) (p : Nat) : Bool :=
  if rd s p = 10 then true
  else if isSpaceB (rd s p) then allSpToNl s (p + 1) else false
termination_by s.length - p
decreasing_by
  have := rd_lt_of_ne_nl (by tauto : rd s p ≠ 10)
  omega

/-- The -E run consumer of lines_differ: starting at offset p with tab-stop
state (tab, col), consume tabs and spaces, returning the offset of the
first unconsumed character and the updated state. -/
def tabRunP (s : List Nat) (ts : Nat) (p tab col : Nat) : Nat × Nat × Nat :=
  if h9 : rd s p = 9 ∨ (rd s p = 32 ∧ col = ts - 1) then tabRunP s ts (p + 1) (tab + 1) 0
  else if h32 : rd s p = 32 then tabRunP s ts (p + 1) tab (col + 1)
  else (p, tab, col)
termination_by s.length - p
decreasing_by
  · have h10 : rd s p ≠ 10 := by rcases h9 with h | ⟨h, _⟩ <;> simp [h]
    have := rd_lt_of_ne_nl h10
    omega
  · have h10 : rd s p ≠ 10 := by simp [h32]
    have := rd_lt_of_ne_nl h10
    omega

/-- State update of the bottom switch of lines_differ (the column/tab
tracking applied to the surviving character c1). -/
def bState (ts c1 tab col : Nat) : Nat × Nat :=
  if c1 = 13 then (0, 0)
  else if c1 = 8 then
    (if 0 < col then (tab, col - 1)
     else if 0 < tab then (tab - 1, ts - 1) else (tab, col))
  else if c1 = 0 ∨ c1 = 7 ∨ c1 = 12 ∨ c1 = 11 then (tab, col)
  else if c1 = 9 then (tab + 1, 0)
  else
    let col2 := col + (if isPrintB c1 then 1 else 0)
    if col2 < ts then (tab, col2) else (tab + 1, 0)

/-- One fuelled run of the main loop of lines_differ (io.c, unibyte path),
on the line contents s1 and s2 from offsets i1 and i2 with tab-stop state
(tab, col).  Fuel exhaustion returns true; the wrapper supplies enough fuel
for every input, since each iteration advances i1 + i2. -/
def ldGo (cfg : HashCfg) (s1 s2 : List Nat) :
    Nat → Nat → Nat → Nat → Nat → Bool
  | 0, _, _, _, _ => true
  | fuel + 1, i1, i2, tab, col =>
    let c1 := rd s1 i1
    let c2 := rd s2 i2
    if c1 = c2 then
      if c1 = 10 then false
      else
        let st := bState cfg.tabsize c1 tab col
        ldGo cfg s1 s2 fuel (i1 + 1) (i2 + 1) st.1 st.2
    else if cfg.iws = IGNORE_ALL_SPACE then
      let j1 := skipW s1 i1
      let j2 := skipW s2 i2
      let c1a := rd s1 j1
      let c2a := rd s2 j2
      if foldCase cfg.igcase c1a ≠ foldCase cfg.igcase c2a then true
      else if c1a = 10 then false
      else
        let st := bState cfg.tabsize c1a tab col
        ldGo cfg s1 s2 fuel (j1 + 1) (j2 + 1) st.1 st.2
    else if cfg.iws = IGNORE_SPACE_CHANGE then
      let n1 := bnorm s1 i1
      let n2 := bnorm s2 i2
      if n1.1 ≠ n2.1 ∧ n2.1 = 32 ∧ n1.1 ≠ 10 ∧ 2 ≤ n1.2 ∧
          isSpaceB (rd s1 (n1.2 - 2)) then
        ldGo cfg s1 s2 fuel (n1.2 - 1) n2.2 tab col
      else if n1.1 ≠ n2.1 ∧ n1.1 = 32 ∧ n2.1 ≠ 10 ∧ 2 ≤ n2.2 ∧
          isSpaceB (rd s2 (n2.2 - 2)) then
        ldGo cfg s1 s2 fuel n1.2 (n2.2 - 1) tab col
      else if foldCase cfg.igcase n1.1 ≠ foldCase cfg.igcase n2.1 then true
      else if n1.1 = 10 then false
      else
        let st := bState cfg.tabsize n1.1 tab col
        ldGo cfg s1 s2 fuel n1.2 n2.2 st.1 st.2
    else if cfg.iws = IGNORE_TRAILING_SPACE ∨
        cfg.iws = IGNORE_TAB_EXPANSION_AND_TRAILING_SPACE then
      if isSpaceB c1 ∧ isSpaceB c2 then
        if (c1 = 10 ∨ allSpToNl s1 (i1 + 1)) ∧ (c2 = 10 ∨ allSpToNl s2 (i2 + 1)) then
          false
        else if foldCase cfg.igcase c1 ≠ foldCase cfg.igcase c2 then true
        else if c1 = 10 then false
        else
          let st := bState cfg.tabsize c1 tab col
          ldGo cfg s1 s2 fuel (i1 + 1) (i2 + 1) st.1 st.2
      else if cfg.iws = IGNORE_TRAILING_SPACE then
        if foldCase cfg.igcase c1 ≠ foldCase cfg.igcase c2 then true
        else if c1 = 10 then false
        else
          let st := bState cfg.tabsize c1 tab col
          ldGo cfg s1 s2 fuel (i1 + 1) (i2 + 1) st.1 st.2
      else if (c1 = 32 ∧ c2 = 9) ∨ (c1 = 9 ∧ c2 = 32) then
        let r1 := tabRunP s1 cfg.tabsize i1 tab col
        let r2 := tabRunP s2 cfg.tabsize i2 tab col
        if r1.2.1 ≠ r2.2.1 ∨ r1.2.2 ≠ r2.2.2 then true
        else
          let c1a := rd s1 r1.1
          let c2a := rd s2 r2.1
          if foldCase cfg.igcase c1a ≠ foldCase cfg.igcase c2a then true
          else if c1a = 10 then false
          else
            let st := bState cfg.tabsize c1a r1.2.1 r1.2.2
            ldGo cfg s1 s2 fuel (r1.1 + 1) (r2.1 + 1) st.1 st.2
      else if foldCase cfg.igcase c1 ≠ foldCase cfg.igcase c2 then true
      else if c1 = 10 then false
      else
        let st := bState cfg.tabsize c1 tab col
        ldGo cfg s1 s2 fuel (i1 + 1) (i2 + 1) st.1 st.2
    else if cfg.iws = IGNORE_TAB_EXPANSION then
      if (c1 = 32 ∧ c2 = 9) ∨ (c1 = 9 ∧ c2 = 32) then
        let r1 := tabRunP s1 cfg.tabsize i1 tab col
        let r2 := tabRunP s2 cfg.tabsize i2 tab col
        if r1.2.1 ≠ r2.2.1 ∨ r1.2.2 ≠ r2.2.2 then true
        else
          let c1a := rd s1 r1.1
          let c2a := rd s2 r2.1
          if foldCase cfg.igcase c1a ≠ foldCase cfg.igcase c2a then true
          else if c1a = 10 then false
          else
            let st := bState cfg.tabsize c1a r1.2.1 r1.2.2
            ldGo cfg s1 s2 fuel (r1.1 + 1) (r2.1 + 1) st.1 st.2
      else if foldCase cfg.igcase c1 ≠ foldCase cfg.igcase c2 then true
      else if c1 = 10 then false
      else
        let st := bState cfg.tabsize c1 tab col
        ldGo cfg s1 s2 fuel (i1 + 1) (i2 + 1) st.1 st.2
    else
      if foldCase cfg.igcase c1 ≠ foldCase cfg.igcase c2 then true
      else if c1 = 10 then false
      else
        let st := bState cfg.tabsize c1 tab col
        ldGo cfg s1 s2 fuel (i1 + 1) (i2 + 1) st.1 st.2

/-- lines_differ from io.c (unibyte path) on two line contents (the bytes of
each line without its trailing newline): true when the lines differ under
the configuration.  The fuel bounds the loop, which advances i1 + i2 on
every iteration except final ones, so this fuel is never exhausted. -/
def lines_differ (cfg : HashCfg) (s1 s2 : List Nat) : Bool :=
  ldGo cfg s1 s2 (s1.length + s2.length + 4) 0 0 0 0

/-- Scan used by the white-space branches of the hashing loop in
find_and_hash_each_line: from offset j, none when the white-space run
reaches the newline, otherwise the offset of the first non-space byte. -/
def scanNS (s : List Nat) (j : Nat) : Option Nat :=
  if rd s j = 10 then none
  else if isSpaceB (rd s j) then scanNS s (j + 1) else some j
termination_by s.length - j
decreasing_by
  have := rd_lt_of_ne_nl (by tauto : rd s j ≠ 10)
  omega

theorem scanNS_ge {s : List Nat} {j k : Nat} (h : scanNS s j = some k) : j ≤ k := by
  induction j using scanNS.induct s with
  | case1 j hj => rw [scanNS, if_pos hj] at h; exact absurd h (by simp)
  | case2 j hj hsp ih =>
    rw [scanNS, if_neg hj, if_pos hsp] at h
    exact Nat.le_of_succ_le (ih h)
  | case3 j hj hsp =>
    rw [scanNS, if_neg hj, if_neg hsp] at h
    cases h
    exact Nat.le_refl _

theorem scanNS_lt {s : List Nat} {j k : Nat} (h : scanNS s j = some k) :
    k < s.length := by
  induction j using scanNS.induct s with
  | case1 j hj => rw [scanNS, if_pos hj] at h; exact absurd h (by simp)
  | case2 j hj hsp ih =>
    rw [scanNS, if_neg hj, if_pos hsp] at h
    exact ih h
  | case3 j hj hsp =>
    rw [scanNS, if_neg hj, if_neg hsp] at h
    cases h
    exact rd_lt_of_ne_nl hj

/-- The per-line hashing loop of find_and_hash_each_line (io.c, unibyte
path), presented as the sequence of characters fed to the rolling hash; the
line's hash value is the fold of the hash step over this sequence.  i is
the offset in the line, (tab, col) the -E tab-stop state. -/
def hcGo (cfg : HashCfg) (s : List Nat) (i tab col : Nat) : List Nat :=
  let c := rd s i
  if hnl : rd s i = 10 then []
  else if cfg.iws = IGNORE_ALL_SPACE then
    if isSpaceB c then hcGo cfg s (i + 1) tab col
    else foldCase cfg.igcase c :: hcGo cfg s (i + 1) tab col
  else if cfg.iws = IGNORE_SPACE_CHANGE then
    if isSpaceB c then
      match hs : scanNS s (i + 1) with
      | none => []
      | some j => 32 :: foldCase cfg.igcase (rd s j) :: hcGo cfg s (j + 1) tab col
    else foldCase cfg.igcase c :: hcGo cfg s (i + 1) tab col
  else if cfg.iws = IGNORE_TAB_EXPANSION ∨ cfg.iws = IGNORE_TRAILING_SPACE ∨
      cfg.iws = IGNORE_TAB_EXPANSION_AND_TRAILING_SPACE then
    if cfg.iws &&& IGNORE_TRAILING_SPACE ≠ 0 ∧ isSpaceB c ∧
        (scanNS s (i + 1)).isNone then []
    else if cfg.iws &&& IGNORE_TAB_EXPANSION ≠ 0 then
      if c = 8 then
        foldCase cfg.igcase 8 ::
          (if 0 < col then hcGo cfg s (i + 1) tab (col - 1)
           else if 0 < tab then hcGo cfg s (i + 1) (tab - 1) (cfg.tabsize - 1)
           else hcGo cfg s (i + 1) tab col)
      else if c = 9 then
        List.replicate (cfg.tabsize - col % cfg.tabsize) (foldCase cfg.igcase 32) ++
          hcGo cfg s (i + 1) (tab + col / cfg.tabsize + 1) 0
      else if c = 13 then foldCase cfg.igcase 13 :: hcGo cfg s (i + 1) 0 0
      else if c = 0 ∨ c = 7 ∨ c = 12 ∨ c = 11 then
        foldCase cfg.igcase c :: hcGo cfg s (i + 1) tab col
      else foldCase cfg.igcase c :: hcGo cfg s (i + 1) tab (col + 1)
    else foldCase cfg.igcase c :: hcGo cfg s (i + 1) tab col
  else foldCase cfg.igcase c :: hcGo cfg s (i + 1) tab col
termination_by s.length - i
decreasing_by
  all_goals first
    | (have h1 := rd_lt_of_ne_nl hnl; omega)
    | (have h1 := rd_lt_of_ne_nl hnl
       have h2 := scanNS_ge hs
       have h3 := scanNS_lt hs
       omega)

/-- The normalized character sequence hashed for one line. -/
def hashedChars (cfg : HashCfg) (s : List Nat) : List Nat := hcGo cfg s 0 0 0

/-- 64-bit left rotation by 7 (rol (v, 7) in io.c) of a value below 2^64. -/
def rol7 (v : Nat) : Nat := (v * 2 ^ 7 + v / 2 ^ 57) % 2 ^ 64

/-- One hashing step, hash (h, c) = rol (h, 7) + c in size_t arithmetic. -/
def hash1 (h c : Nat) : Nat := (rol7 h + c) % 2 ^ 64

/-- The hash value computed for one line by find_and_hash_each_line. -/
def line_hash (cfg : HashCfg) (s : List Nat) : Nat :=
  (hashedChars cfg s).foldl hash1 0

/-- prepare_text's CR-stripping loop: each carriage return that immediately
precedes a newline is dropped; everything else is copied. -/
def stripCR : List Nat → List Nat
  | [] => []
  | 13 :: 10 :: rest => 10 :: stripCR rest
  | c :: rest => c :: stripCR rest

/-- Machine word size in bytes (sizeof (word)). -/
def wordSize : Nat := 8

/-- Result of prepare_text: the valid bytes, the missing_newline flag, and
the word of zero bytes that the final memset plants after the valid data. -/
structure PreparedText where
  text : List Nat
  missing_newline : Bool
  pad : List Nat
deriving DecidableEq

/-- prepare_text from io.c: strip CRs before LFs when requested, then, if
the buffer is nonempty and its final byte is not a newline, append one and
record missing_newline; finally zero one word beyond the valid bytes. -/
def prepare_text (strip_trailing_cr : Bool) (buffered : List Nat) : PreparedText :=
  let t := if strip_trailing_cr then stripCR buffered else buffered
  if t ≠ [] ∧ t.getLastD 0 ≠ 10 then
    { text := t ++ [10], missing_newline := true,
      pad := List.replicate wordSize 0 }
  else
    { text := t, missing_newline := false, pad := List.replicate wordSize 0 }

/-- Pointwise statement of the spec's CR stripping: byte i of the input is
dropped exactly when it is a carriage return immediately followed by a
newline (the C sentinel written at the end is '\r', so a final '\r' is
kept). -/
def stripCRSpec (l : List Nat) : List Nat :=
  (List.range l.length).filterMap fun i =>
    if l.getD i 0 = 13 ∧ l.getD (i + 1) 0 = 10 then none else some (l.getD i 0)

theorem stripCRSpec_cons (c : Nat) (rest : List Nat) :
    stripCRSpec (c :: rest) =
      (if c = 13 ∧ rest.getD 0 0 = 10 then [] else [c]) ++ stripCRSpec rest := by
  rw [stripCRSpec, stripCRSpec]
  rw [show (c :: rest).length = rest.length + 1 from rfl, List.range_succ_eq_map,
    List.filterMap_cons, List.filterMap_map]
  have harg :
      ((fun i => if (c :: rest).getD i 0 = 13 ∧ (c :: rest).getD (i + 1) 0 = 10
        then none else some ((c :: rest).getD i 0)) ∘ (fun i => i + 1))
      = (fun i => if rest.getD i 0 = 13 ∧ rest.getD (i + 1) 0 = 10
        then none else some (rest.getD i 0)) := by
    funext i
    simp [List.getD_cons_succ]
  rw [harg]
  by_cases hc : c = 13 ∧ rest.getD 0 0 = 10
  · have hc2 : (c :: rest).getD 0 0 = 13 ∧ (c :: rest).getD 1 0 = 10 := by
      simpa using hc
    rw [if_pos hc2, if_pos hc]
    rfl
  · have hc2 : ¬ ((c :: rest).getD 0 0 = 13 ∧ (c :: rest).getD 1 0 = 10) := by
      simpa using hc
    rw [if_neg hc2, if_neg hc]
    rfl

theorem stripCR_cons_ne (c : Nat) (rest : List Nat)
    (hne : ∀ (r : List Nat), c = 13 → rest = 10 :: r → False) :
    stripCR (c :: rest) = c :: stripCR rest := by
  rw [stripCR.eq_def]
  split
  · rename_i heq; exact absurd heq (by simp)
  · rename_i r heq
    injection heq with h1 h2
    exact absurd trivial (fun _ => hne r h1 h2)
  · rename_i c2 r2 _ heq
    injection heq with h1 h2
    rw [h1, h2]

theorem stripCR_eq_spec (l : List Nat) : stripCR l = stripCRSpec l := by
  induction l using stripCR.induct with
  | case1 => rfl
  | case2 rest ih =>
    rw [stripCR, stripCRSpec_cons, stripCRSpec_cons]
    simp [ih]
  | case3 c rest hne ih =>
    have hnot : ¬ (c = 13 ∧ rest.getD 0 0 = 10) := by
      rintro ⟨h1, h2⟩
      cases rest with
      | nil => simp at h2
      | cons b r =>
        simp only [List.getD_cons_zero] at h2
        exact hne r h1 (by rw [h2])
    rw [stripCR_cons_ne c rest hne, stripCRSpec_cons, if_neg hnot, ih]
    rfl

/-- Length of the longest common byte-prefix of two buffers (the forward
word-at-a-time plus byte-at-a-time scan of find_identical_ends; the flipped
sentinel guarantees the C loop stops by the shorter length). -/
def cpl : List Nat → List Nat → Nat
  | a :: as, b :: bs => if a = b then cpl as bs + 1 else 0
  | _, _ => 0

/-- The retreat loop of find_identical_ends: from offset q, skip back to
the last line beginning, then discard up to hor more lines ("while (p0 !=
buffer0 && (p0[-1] != '\n' || hor--)) p0--"). -/
def hzRetreat (b : List Nat) : Nat → Nat → Nat
  | 0, _ => 0
  | q + 1, hor =>
    if b.getD q 0 ≠ 10 then hzRetreat b q hor
    else if hor = 0 then q + 1
    else hzRetreat b q (hor - 1)

/-- Advance just past the next newline ("while (*p0++ != '\n') continue"),
stopping at the buffer end (a prepared buffer always ends in a newline). -/
def skipToNl (b : List Nat) (p : Nat) : Nat :=
  if h : p < b.length then
    (if b.getD p 0 = 10 then p + 1 else skipToNl b (p + 1))
  else p
termination_by b.length - p

/-- Discard i lines forward but never past endi ("while (i-- && p0 != end0)
while (*p0++ != '\n') continue"). -/
def skipLines (b : List Nat) (endi : Nat) : Nat → Nat → Nat
  | p, 0 => p
  | p, i + 1 => if p ≠ endi then skipLines b endi (skipToNl b p) i else p

/-- Result of find_identical_ends: the prefix end (the same offset into
both buffers) and the suffix beginning of each buffer. -/
structure FileEnds where
  pfx_end : Nat
  sfx_begin0 : Nat
  sfx_begin1 : Nat
deriving DecidableEq

/-- The adjusted forward-scan offset of find_identical_ends: the raw
common-prefix length, backed up one byte when the scan reached the appended
newline on exactly one side ("Don't mistakenly count missing newline as
part of prefix", applied only for robust output styles). -/
def pfxAdj (style : OutputStyle) (b0 b1 : List Nat) (m0 m1 : Bool) : Nat :=
  let q := cpl b0 b1
  let over0 : Bool := decide ((b0.length : Int) - (if m0 then 1 else 0) < (q : Int))
  let over1 : Bool := decide ((b1.length : Int) - (if m1 then 1 else 0) < (q : Int))
  if robust_output_style style && (over0 != over1) then q - 1 else q

/-- find_identical_ends from io.c for two distinct already-prepared buffers
b0, b1 with missing-newline flags m0, m1: find the identical prefix (with
the one-sided-newline backup), retreat to a line boundary keeping
horizon_lines lines; then find the identical suffix, push it past partial
lines plus horizon_lines lines, unless the output style is robust and
exactly one side is missing its final newline, in which case the suffix
scan is skipped and suffix_begin stays at the end of each buffer. -/
def find_identical_ends (style : OutputStyle) (horizon_lines : Nat)
    (b0 b1 : List Nat) (m0 m1 : Bool) : FileEnds :=
  let n0 := b0.length
  let n1 := b1.length
  let pe := hzRetreat b0 (pfxAdj style b0 b1 m0 m1) horizon_lines
  if !(robust_output_style style) || (m0 == m1) then
    let beg0 := pe + (if n0 < n1 then 0 else n0 - n1)
    let L := min (cpl b0.reverse b1.reverse) (n0 - beg0)
    let p0 := n0 - L
    let p1 := n1 - L
    let extra : Nat :=
      if (p0 = 0 ∨ b0.getD (p0 - 1) 0 = 10) ∧ (p1 = 0 ∨ b1.getD (p1 - 1) 0 = 10)
      then 0 else 1
    let p0f := skipLines b0 n0 p0 (horizon_lines + extra)
    { pfx_end := pe, sfx_begin0 := p0f, sfx_begin1 := p1 + (p0f - p0) }
  else
    { pfx_end := pe, sfx_begin0 := n0, sfx_begin1 := n1 }

/-- The hashed region of one file, as per-line byte contents (without the
trailing newlines) plus the buffer's missing_newline flag.  For a file
whose final newline is missing, find_identical_ends leaves the suffix empty
on that side under a robust style, so the region's last line is the file's
final (incomplete) line and reaches the buffer end. -/
structure HashedFile where
  lines : List (List Nat)
  missing_newline : Bool
deriving DecidableEq

/-- Bucket chosen by find_and_hash_each_line for line i of a file: the
line's hash modulo nbuckets, except that an incomplete final line goes to
the distinguished bucket -1 when the output style is robust and
ignore_white_space is below IGNORE_TRAILING_SPACE. -/
def bucket_for (cfg : HashCfg) (style : OutputStyle) (nbuckets : Nat)
    (f : HashedFile) (i : Nat) : Int :=
  if i + 1 = f.lines.length ∧ f.missing_newline = true ∧
      robust_output_style style = true ∧ cfg.iws < IGNORE_TRAILING_SPACE then
    -1
  else ((line_hash cfg (f.lines.getD i []) % nbuckets : Nat) : Int)

/-- One equivalence class (struct equivclass): the class hash and a line
that fits the class (its length, counting the newline, is the stored
line's length plus one). -/
structure EquivClass where
  hash : Nat
  line : List Nat
deriving DecidableEq

/-- diff_length_compare_anyway of find_and_hash_each_line, unibyte. -/
def diff_length_compare_anyway (cfg : HashCfg) : Bool :=
  cfg.iws ≠ IGNORE_NO_WHITE_SPACE

/-- same_length_diff_contents_compare_anyway of find_and_hash_each_line. -/
def same_length_compare_anyway (cfg : HashCfg) : Bool :=
  diff_length_compare_anyway cfg || cfg.igcase

/-- Collision resolution of find_and_hash_each_line for one chain entry:
equal hash, then the memcmp fast path for identical same-length lines, then
lines_differ, guarded by the compare_anyway flags. -/
def matchClass (cfg : HashCfg) (h : Nat) (s : List Nat) (e : EquivClass) : Bool :=
  h = e.hash &&
    (if e.line.length = s.length then
      (e.line == s) || (same_length_compare_anyway cfg && !(lines_differ cfg e.line s))
    else
      diff_length_compare_anyway cfg && !(lines_differ cfg e.line s))

/-- The mutable hashing state: the bucket chains (class ids, most recent
first; bucket -1 is the incomplete-line bucket) and the allocated classes
(class id i is eqs[i-1]; class 0 is reserved and never allocated). -/
structure HashState where
  chains : Int → List Nat
  eqs : List EquivClass

/-- Walk one bucket chain looking for a class the new line fits. -/
def findClass (cfg : HashCfg) (eqs : List EquivClass) (h : Nat) (s : List Nat) :
    List Nat → Option Nat
  | [] => none
  | i :: rest =>
    if matchClass cfg h s (eqs.getD (i - 1) ⟨0, []⟩) then some i
    else findClass cfg eqs h s rest

/-- Insert one line into the table: reuse a fitting class of its bucket's
chain or allocate a fresh class at the head of the chain. -/
def insertLine (cfg : HashCfg) (st : HashState) (b : Int) (h : Nat)
    (s : List Nat) : HashState × Nat :=
  match findClass cfg st.eqs h s (st.chains b) with
  | some i => (st, i)
  | none =>
    let i := st.eqs.length + 1
    ({ chains := fun b2 => if b2 = b then i :: st.chains b else st.chains b2,
       eqs := st.eqs ++ [⟨h, s⟩] }, i)

/-- Hash every line of one file in order, threading the table state and
collecting the equivalence class of each line (the cureqs array). -/
def assignGo (cfg : HashCfg) (style : OutputStyle) (nbuckets : Nat)
    (f : HashedFile) (i : Nat) (st : HashState) : HashState × List Nat :=
  if hlt : i < f.lines.length then
    let s := f.lines.getD i []
    let hv := line_hash cfg s
    let b := bucket_for cfg style nbuckets f i
    let r1 := insertLine cfg st b hv s
    let r2 := assignGo cfg style nbuckets f (i + 1) r1.1
    (r2.1, r1.2 :: r2.2)
  else (st, [])
termination_by f.lines.length - i

/-- The equivalence classes read_files assigns to the lines of the two
files: file 0 is hashed first, then file 1 into the same table. -/
def read_files_classes (cfg : HashCfg) (style : OutputStyle) (nbuckets : Nat)
    (f0 f1 : HashedFile) : List Nat × List Nat :=
  let st0 : HashState := { chains := fun _ => [], eqs := [] }
  let r0 := assignGo cfg style nbuckets f0 0 st0
  let r1 := assignGo cfg style nbuckets f1 0 r0.1
  (r0.2, r1.2)

theorem cpl_le_left : ∀ a b : List Nat, cpl a b ≤ a.length := by
  intro a
  induction a with
  | nil => intro b; rw [cpl.eq_def]; cases b <;> simp
  | cons x as ih =>
    intro b
    cases b with
    | nil => rw [cpl.eq_def]; simp
    | cons y bs =>
      rw [cpl]
      split
      · simpa using ih bs
      · simp

theorem cpl_le_right : ∀ a b : List Nat, cpl a b ≤ b.length := by
  intro a
  induction a with
  | nil => intro b; rw [cpl.eq_def]; cases b <;> simp
  | cons x as ih =>
    intro b
    cases b with
    | nil => rw [cpl.eq_def]; simp
    | cons y bs =>
      rw [cpl]
      split
      · simpa using ih bs
      · simp

theorem hzRetreat_le (b : List Nat) : ∀ q hor, hzRetreat b q hor ≤ q := by
  intro q
  induction q with
  | zero => intro hor; rw [hzRetreat]
  | succ q ih =>
    intro hor
    rw [hzRetreat]
    split
    · exact Nat.le_succ_of_le (ih hor)
    · split
      · exact Nat.le_refl _
      · exact Nat.le_succ_of_le (ih (hor - 1))

theorem pfxAdj_le (style : OutputStyle) (b0 b1 : List Nat) (m0 m1 : Bool)
    (hrob : robust_output_style style = true) (hm : m0 ≠ m1)
    (h0 : m0 = true → b0 ≠ []) (h1 : m1 = true → b1 ≠ []) :
    ((pfxAdj style b0 b1 m0 m1 : Nat) : Int)
      ≤ (b0.length : Int) - (if m0 then 1 else 0) ∧
    ((pfxAdj style b0 b1 m0 m1 : Nat) : Int)
      ≤ (b1.length : Int) - (if m1 then 1 else 0) := by
  have hq0 := cpl_le_left b0 b1
  have hq1 := cpl_le_right b0 b1
  rw [pfxAdj, hrob]
  cases m0 <;> cases m1
  · exact absurd rfl hm
  · have hn1 : 1 ≤ b1.length := List.length_pos.mpr (h1 rfl)
    norm_num
    constructor <;> split <;> omega
  · have hn0 : 1 ≤ b0.length := List.length_pos.mpr (h0 rfl)
    norm_num
    constructor <;> split <;> omega
  · exact absurd rfl hm

/-- C5 counterexample: two buffers prepared from "z\nab" (final newline
synthesized, missing_newline set) and "q\nab\n" (complete), compared under
the non-robust output style OUTPUT_ED with horizon 0.  Exactly one side has
missing_newline set, yet the suffix scan is NOT skipped: suffix_begin lands
at offset 2 of each buffer, not at the buffer ends, and the common suffix
so retained ("ab\n") includes the synthesized newline of side 0. -/
theorem C5_counterexample :
    (prepare_text false [122, 10, 97, 98]).text = [122, 10, 97, 98, 10] ∧
    (prepare_text false [122, 10, 97, 98]).missing_newline = true ∧
    (prepare_text false [113, 10, 97, 98, 10]).text = [113, 10, 97, 98, 10] ∧
    (prepare_text false [113, 10, 97, 98, 10]).missing_newline = false ∧
    (find_identical_ends OutputStyle.OUTPUT_ED 0
      [122, 10, 97, 98, 10] [113, 10, 97, 98, 10] true false).sfx_begin0 = 2 ∧
    [122, 10, 97, 98, 10].length = 5 ∧
    (find_identical_ends OutputStyle.OUTPUT_ED 0
      [122, 10, 97, 98, 10] [113, 10, 97, 98, 10] true false).sfx_begin1 = 2 := by
  refine ⟨by simp [prepare_text, stripCR], by simp [prepare_text, stripCR],
    by simp [prepare_text, stripCR], by simp [prepare_text, stripCR], ?_, rfl, ?_⟩ <;>
    simp [find_identical_ends, pfxAdj, cpl, hzRetreat, skipLines, skipToNl,
      robust_output_style]

/-- C5 amended: under a robust output style, when exactly one of the two
prepared buffers has its missing_newline flag set, find_identical_ends does
not count the synthesized newline as part of the common prefix (the scan
point stays short of each side's appended newline, backing up one byte when
the raw scan reached it on only one side), and the suffix scan is skipped
entirely, leaving suffix_begin at the end of each buffer. -/
theorem C5_one_sided_missing (style : OutputStyle) (hor : Nat)
    (b0 b1 : List Nat) (m0 m1 : Bool)
    (hrob : robust_output_style style = true) (hm : m0 ≠ m1)
    (h0 : m0 = true → b0 ≠ []) (h1 : m1 = true → b1 ≠ []) :
    ((find_identical_ends style hor b0 b1 m0 m1).pfx_end : Int)
      ≤ (b0.length : Int) - (if m0 then 1 else 0) ∧
    ((find_identical_ends style hor b0 b1 m0 m1).pfx_end : Int)
      ≤ (b1.length : Int) - (if m1 then 1 else 0) ∧
    (find_identical_ends style hor b0 b1 m0 m1).sfx_begin0 = b0.length ∧
    (find_identical_ends style hor b0 b1 m0 m1).sfx_begin1 = b1.length := by
  have hcond : (!(robust_output_style style) || (m0 == m1)) = false := by
    rw [hrob]
    cases m0 <;> cases m1 <;> simp_all
  have hfie : find_identical_ends style hor b0 b1 m0 m1 =
      { pfx_end := hzRetreat b0 (pfxAdj style b0 b1 m0 m1) hor,
        sfx_begin0 := b0.length, sfx_begin1 := b1.length } := by
    rw [find_identical_ends]
    simp only [hcond, Bool.false_eq_true, if_false]
  obtain ⟨ha, hb⟩ := pfxAdj_le style b0 b1 m0 m1 hrob hm h0 h1
  have hz := hzRetreat_le b0 (pfxAdj style b0 b1 m0 m1) hor
  rw [hfie]
  refine ⟨?_, ?_, rfl, rfl⟩ <;> simp only [] <;> omega

theorem C5_one_sided_missing_witness :
    ((find_identical_ends OutputStyle.OUTPUT_NORMAL 0
        [122, 10, 97, 98, 10] [113, 10, 97, 98, 10] true false).pfx_end : Int)
      ≤ (([122, 10, 97, 98, 10] : List Nat).length : Int) - (if true then 1 else 0) ∧
    ((find_identical_ends OutputStyle.OUTPUT_NORMAL 0
        [122, 10, 97, 98, 10] [113, 10, 97, 98, 10] true false).pfx_end : Int)
      ≤ (([113, 10, 97, 98, 10] : List Nat).length : Int) - (if false then 1 else 0) ∧
    (find_identical_ends OutputStyle.OUTPUT_NORMAL 0
        [122, 10, 97, 98, 10] [113, 10, 97, 98, 10] true false).sfx_begin0
      = ([122, 10, 97, 98, 10] : List Nat).length ∧
    (find_identical_ends OutputStyle.OUTPUT_NORMAL 0
        [122, 10, 97, 98, 10] [113, 10, 97, 98, 10] true false).sfx_begin1
      = ([113, 10, 97, 98, 10] : List Nat).length :=
  C5_one_sided_missing OutputStyle.OUTPUT_NORMAL 0
    [122, 10, 97, 98, 10] [113, 10, 97, 98, 10] true false rfl
    (by decide) (by decide) (by decide)

/-- Every class id found in some bucket chain has been allocated. -/
def idsBounded (st : HashState) : Prop :=
  ∀ b i, i ∈ st.chains b → i ≤ st.eqs.length

def chainsDisjoint (st : HashState) : Prop :=
  ∀ b b2 i, i ∈ st.chains b → i ∈ st.chains b2 → b = b2

theorem findClass_mem {cfg : HashCfg} {eqs : List EquivClass} {h : Nat}
    {s : List Nat} : ∀ {l : List Nat} {i : Nat},
    findClass cfg eqs h s l = some i → i ∈ l := by
  intro l
  induction l with
  | nil => intro i hi; rw [findClass] at hi; cases hi
  | cons a rest ih =>
    intro i hi
    rw [findClass] at hi
    split at hi
    · cases hi; exact List.mem_cons_self _ _
    · exact List.mem_cons_of_mem _ (ih hi)

theorem insertLine_mem (cfg : HashCfg) (st : HashState) (b : Int) (h : Nat)
    (s : List Nat) :
    (insertLine cfg st b h s).2 ∈ (insertLine cfg st b h s).1.chains b := by
  rw [insertLine]
  split
  · rename_i i hi
    exact findClass_mem hi
  · simp

theorem insertLine_mono (cfg : HashCfg) (st : HashState) (b : Int) (h : Nat)
    (s : List Nat) (b2 : Int) (j : Nat) (hj : j ∈ st.chains b2) :
    j ∈ (insertLine cfg st b h s).1.chains b2 := by
  rw [insertLine]
  split
  · exact hj
  · by_cases hb : b2 = b
    · subst hb; simp [hj]
    · simp [hb, hj]

theorem insertLine_bounded (cfg : HashCfg) (st : HashState) (b : Int) (h : Nat)
    (s : List Nat) (hst : idsBounded st) :
    idsBounded (insertLine cfg st b h s).1 := by
  rw [insertLine]
  split
  · exact hst
  · intro b2 i hi
    simp only [] at hi
    simp only [List.length_append, List.length_cons, List.length_nil]
    by_cases hbb : b2 = b
    · rw [if_pos hbb] at hi
      rcases List.mem_cons.mp hi with h1 | h1
      · omega
      · have := hst _ _ h1; omega
    · rw [if_neg hbb] at hi
      have := hst _ _ hi; omega

theorem insertLine_disjoint (cfg : HashCfg) (st : HashState) (b : Int) (h : Nat)
    (s : List Nat) (hb : idsBounded st) (hd : chainsDisjoint st) :
    chainsDisjoint (insertLine cfg st b h s).1 := by
  rw [insertLine]
  split
  · exact hd
  · intro b1 b2 i hi1 hi2
    simp only [] at hi1 hi2
    by_cases e1 : b1 = b <;> by_cases e2 : b2 = b
    · rw [e1, e2]
    · rw [if_pos e1] at hi1
      rw [if_neg e2] at hi2
      rcases List.mem_cons.mp hi1 with h1 | h1
      · subst h1
        have := hb _ _ hi2; omega
      · exact absurd (hd _ _ _ h1 hi2) fun hh => e2 hh.symm
    · rw [if_neg e1] at hi1
      rw [if_pos e2] at hi2
      rcases List.mem_cons.mp hi2 with h1 | h1
      · subst h1
        have := hb _ _ hi1; omega
      · exact absurd (hd _ _ _ hi1 h1) e1
    · rw [if_neg e1] at hi1
      rw [if_neg e2] at hi2
      exact hd _ _ _ hi1 hi2

theorem assignGo_len (cfg : HashCfg) (style : OutputStyle) (nb : Nat)
    (f : HashedFile) (i : Nat) (st : HashState) :
    (assignGo cfg style nb f i st).2.length = f.lines.length - i := by
  induction i, st using assignGo.induct cfg style nb f with
  | case1 i st hlt s hv b r1 ih =>
    rw [assignGo, dif_pos hlt]
    simp only [List.length_cons]
    rw [ih]
    omega
  | case2 i st hlt =>
    rw [assignGo, dif_neg hlt]
    simp only [List.length_nil]
    omega

theorem assignGo_inv (cfg : HashCfg) (style : OutputStyle) (nb : Nat)
    (f : HashedFile) (i : Nat) (st : HashState) :
    idsBounded st → chainsDisjoint st →
    idsBounded (assignGo cfg style nb f i st).1 ∧
    chainsDisjoint (assignGo cfg style nb f i st).1 ∧
    (∀ b j, j ∈ st.chains b → j ∈ (assignGo cfg style nb f i st).1.chains b) ∧
    (∀ k, k < (assignGo cfg style nb f i st).2.length →
      (assignGo cfg style nb f i st).2.getD k 0
        ∈ (assignGo cfg style nb f i st).1.chains
            (bucket_for cfg style nb f (i + k))) := by
  induction i, st using assignGo.induct cfg style nb f with
  | case1 i st hlt s hv b r1 ih =>
    intro hb hd
    have hb2 : idsBounded r1.1 := insertLine_bounded cfg st b hv s hb
    have hd2 : chainsDisjoint r1.1 := insertLine_disjoint cfg st b hv s hb hd
    obtain ⟨hB, hD, hM, hK⟩ := ih hb2 hd2
    rw [assignGo, dif_pos hlt]
    refine ⟨hB, hD, ?_, ?_⟩
    · intro b2 j hj
      exact hM b2 j (insertLine_mono cfg st b hv s b2 j hj)
    · intro k hk
      match k with
      | 0 =>
        simp only [List.getD_cons_zero, Nat.add_zero]
        exact hM b r1.2 (insertLine_mem cfg st b hv s)
      | k' + 1 =>
        simp only [List.getD_cons_succ]
        have hidx : i + (k' + 1) = (i + 1) + k' := by omega
        rw [hidx]
        refine hK k' ?_
        rw [assignGo_len]
        simp only [List.length_cons, assignGo_len] at hk
        omega
  | case2 i st hlt =>
    intro hb hd
    rw [assignGo, dif_neg hlt]
    exact ⟨hb, hd, fun b j hj => hj, fun k hk => absurd hk (by simp)⟩

theorem read_files_same_class_same_bucket (cfg : HashCfg) (style : OutputStyle)
    (nb : Nat) (f0 f1 : HashedFile) (j k : Nat)
    (hj : j < f0.lines.length) (hk : k < f1.lines.length)
    (heq : (read_files_classes cfg style nb f0 f1).1.getD j 0
      = (read_files_classes cfg style nb f0 f1).2.getD k 0) :
    bucket_for cfg style nb f0 j = bucket_for cfg style nb f1 k := by
  have hb0 : idsBounded { chains := fun _ => [], eqs := [] } :=
    fun b i hi => absurd hi (by simp)
  have hd0 : chainsDisjoint { chains := fun _ => [], eqs := [] } :=
    fun b b2 i hi _ => absurd hi (by simp)
  obtain ⟨hB1, hD1, hM1, hK1⟩ :=
    assignGo_inv cfg style nb f0 0 { chains := fun _ => [], eqs := [] } hb0 hd0
  obtain ⟨hB2, hD2, hM2, hK2⟩ :=
    assignGo_inv cfg style nb f1 0
      (assignGo cfg style nb f0 0 { chains := fun _ => [], eqs := [] }).1 hB1 hD1
  have hjlen : j < (assignGo cfg style nb f0 0
      { chains := fun _ => [], eqs := [] }).2.length := by
    rw [assignGo_len]; omega
  have hklen : k < (assignGo cfg style nb f1 0
      (assignGo cfg style nb f0 0 { chains := fun _ => [], eqs := [] }).1).2.length := by
    rw [assignGo_len]; omega
  have h1 := hM2 _ _ (hK1 j hjlen)
  have h2 := hK2 k hklen
  simp only [Nat.zero_add] at h1 h2
  have heq2 : (assignGo cfg style nb f0 0
        { chains := fun _ => [], eqs := [] }).2.getD j 0
      = (assignGo cfg style nb f1 0
        (assignGo cfg style nb f0 0 { chains := fun _ => [], eqs := [] }).1).2.getD k 0 :=
    heq
  rw [heq2] at h1
  exact hD2 _ _ _ h1 h2

theorem bucket_for_incomplete (cfg : HashCfg) (style : OutputStyle) (nb : Nat)
    (f : HashedFile) (hrob : robust_output_style style = true)
    (hiws : cfg.iws < IGNORE_TRAILING_SPACE) (hm : f.missing_newline = true)
    (hne : f.lines ≠ []) :
    bucket_for cfg style nb f (f.lines.length - 1) = -1 := by
  have hlen : 1 ≤ f.lines.length := List.length_pos.mpr hne
  rw [bucket_for, if_pos ⟨by omega, hm, hrob, hiws⟩]

theorem bucket_for_nonneg (cfg : HashCfg) (style : OutputStyle) (nb : Nat)
    (f : HashedFile) (i : Nat)
    (h : ¬ (i + 1 = f.lines.length ∧ f.missing_newline = true)) :
    0 ≤ bucket_for cfg style nb f i := by
  rw [bucket_for, if_neg (fun hc => h ⟨hc.1, hc.2.1⟩)]
  exact Int.natCast_nonneg _

theorem gap_at_cons (c : Change) (l : List Change) (j : Nat) :
    gap_at (c :: l) (j + 1) = gap_at l j := by
  simp [gap_at]

/-- C2: with no ignorable records, find_hunk returns the last record r such
that every consecutive pair of records up to r is separated by at most
2*context unchanged lines, while the record following r (if any) is
separated from r by more than 2*context unchanged lines; hence hunks
separated by at most 2*context unchanged lines are emitted together. -/
theorem C2_find_hunk_threshold (context : Int) (first : Change)
    (rest : List Change)
    (hig : ∀ c ∈ first :: rest, c.ignore = false)
    (hord : ∀ j, j + 1 < (first :: rest).length → 0 ≤ gap_at (first :: rest) j) :
    ∃ k ≤ rest.length,
      find_hunk context first rest = (first :: rest).getD k change0 ∧
      (∀ j < k, gap_at (first :: rest) j ≤ 2 * context) ∧
      (k < rest.length → 2 * context < gap_at (first :: rest) k) := by
  induction rest generalizing first with
  | nil =>
    exact ⟨0, Nat.le_refl 0, rfl, fun j hj => by omega, fun h => by simp at h⟩
  | cons next rest ih =>
    have hnig : next.ignore = false := hig next (by simp)
    have hgap0 : gap_at (first :: next :: rest) 0
        = next.line0 - (first.line0 + first.deleted) := by
      simp [gap_at]
    have hunf : find_hunk context first (next :: rest)
        = if 2 * context + 1 ≤ next.line0 - (first.line0 + first.deleted)
          then first else find_hunk context next rest := by
      simp [find_hunk, hnig]
    by_cases hthresh : 2 * context + 1 ≤ next.line0 - (first.line0 + first.deleted)
    · refine ⟨0, Nat.zero_le _, ?_, fun j hj => by omega, fun _ => ?_⟩
      · rw [hunf, if_pos hthresh]; rfl
      · rw [hgap0]; omega
    · obtain ⟨k, hk, heq, hbefore, hafter⟩ :=
        ih next (fun c hc => hig c (List.mem_cons_of_mem _ hc))
          (fun j hj => by
            have := hord (j + 1) (by simpa using hj)
            rwa [gap_at_cons] at this)
      refine ⟨k + 1, by simpa using Nat.succ_le_succ hk, ?_, ?_, ?_⟩
      · rw [hunf, if_neg hthresh, heq]; rfl
      · intro j hj
        match j with
        | 0 => rw [hgap0]; omega
        | j' + 1 =>
          rw [gap_at_cons]
          exact hbefore j' (by omega)
      · intro hlt
        rw [gap_at_cons]
        exact hafter (by simpa using Nat.lt_of_succ_lt_succ hlt)

/-- Records used for the C2 witness. -/
def c2w1 : Change := { inserted := 1, deleted := 1, line0 := 0, line1 := 0, ignore := false }

/-- Second record for the C2 witness, 9 unchanged lines after the first. -/
def c2w2 : Change := { inserted := 1, deleted := 1, line0 := 10, line1 := 10, ignore := false }

theorem C2_find_hunk_threshold_witness :
    ∃ k ≤ [c2w2].length,
      find_hunk 3 c2w1 [c2w2] = [c2w1, c2w2].getD k change0 ∧
      (∀ j < k, gap_at [c2w1, c2w2] j ≤ 2 * 3) ∧
      (k < [c2w2].length → 2 * 3 < gap_at [c2w1, c2w2] k) :=
  C2_find_hunk_threshold 3 c2w1 [c2w2] (by decide)
    (fun j hj => by
      have hj0 : j = 0 := by simp at hj; omega
      subst hj0; decide)

/-- First record of the C3 counterexample: an ignorable change. -/
def c3r1 : Change := { inserted := 1, deleted := 1, line0 := 0, line1 := 0, ignore := true }

/-- Second record of the C3 counterexample: a non-ignorable change 3
unchanged lines after the first. -/
def c3r2 : Change := { inserted := 1, deleted := 1, line0 := 4, line1 := 4, ignore := false }

/-- C3 counterexample: the first of the two adjacent records is ignorable,
the gap is 3 unchanged lines, and context is 3, so by the claim ("treated
as one hunk exactly when fewer than context unchanged lines separate them",
keyed on the FIRST record's ignore flag) find_hunk would stop at the first
record.  The code keys the reduced threshold on the SECOND record's ignore
flag instead, applies the 2*context+1 threshold here, and walks past the
first record. -/
theorem C3_counterexample :
    c3r1.ignore = true ∧ c3r2.ignore = false ∧
    gap_at [c3r1, c3r2] 0 = 3 ∧ ¬ (gap_at [c3r1, c3r2] 0 < 3) ∧
    find_hunk 3 c3r1 [c3r2] ≠ c3r1 := by decide

/-- C3 amended: in find_hunk's walk the reduced threshold `context` is used
when the SECOND of the two adjacent records is ignorable: the walk then
continues past the first record exactly when fewer than context unchanged
lines separate the two records. -/
theorem C3_second_ignorable_small_threshold (context : Int)
    (r1 r2 : Change) (rest : List Change) (h : r2.ignore = true) :
    find_hunk context r1 (r2 :: rest) =
      (if r2.line0 - (r1.line0 + r1.deleted) < context
       then find_hunk context r2 rest else r1) := by
  have hunf : find_hunk context r1 (r2 :: rest)
      = if context ≤ r2.line0 - (r1.line0 + r1.deleted)
        then r1 else find_hunk context r2 rest := by
    simp [find_hunk, h]
  rw [hunf]
  by_cases hc : context ≤ r2.line0 - (r1.line0 + r1.deleted)
  · rw [if_pos hc, if_neg (by omega)]
  · rw [if_neg hc, if_pos (by omega)]

theorem C3_second_ignorable_small_threshold_witness :
    find_hunk 3 c2w1 [c3r1] =
      (if c3r1.line0 - (c2w1.line0 + c2w1.deleted) < 3
       then find_hunk 3 c3r1 [] else c2w1) :=
  C3_second_ignorable_small_threshold 3 c2w1 c3r1 [] (by decide)

/-- C7: the context-format range printer emits the single number b whenever
b ≤ a and "a,b" otherwise; the unified-format printer emits "b,0" for an
empty range (b < a), the single number b for a one-line range (b = a), and
"a,(b-a+1)" (start and length) otherwise.  a and b are the translated
(user-visible) line numbers. -/
theorem C7_number_range_printers (a b : Int) :
    (b ≤ a → print_context_number_range a b = toString b) ∧
    (a < b → print_context_number_range a b
      = toString a ++ "," ++ toString b) ∧
    (b < a → print_unidiff_number_range a b = toString b ++ ",0") ∧
    (b = a → print_unidiff_number_range a b = toString b) ∧
    (a < b → print_unidiff_number_range a b
      = toString a ++ "," ++ toString (b - a + 1)) := by
  refine ⟨fun h => ?_, fun h => ?_, fun h => ?_, fun h => ?_, fun h => ?_⟩
  · rw [print_context_number_range, if_pos h]
  · rw [print_context_number_range, if_neg (by omega)]
  · rw [print_unidiff_number_range, if_pos (by omega), if_pos h]
  · subst h
    rw [print_unidiff_number_range, if_pos (by omega), if_neg (by omega)]
  · rw [print_unidiff_number_range, if_neg (by omega)]

theorem C7_number_range_printers_witness :
    print_context_number_range 5 2 = toString (2 : Int) ∧
    print_unidiff_number_range 3 2 = toString (2 : Int) ++ ",0" ∧
    print_unidiff_number_range 3 7 = toString (3 : Int) ++ "," ++ toString (7 - 3 + 1 : Int) :=
  ⟨(C7_number_range_printers 5 2).1 (by decide),
   (C7_number_range_printers 3 2).2.2.1 (by decide),
   (C7_number_range_printers 3 7).2.2.2.2 (by decide)⟩

/-- C10: mark_ignorable only sets each record's ignore field: the chain
keeps its length and order, every other field of every record is unchanged
(the link is nulled only temporarily and restored), and ignore becomes true
exactly when analyze_hunk applied to the record in isolation (the
one-record script) classifies it as containing no non-ignorable changes. -/
theorem C10_mark_ignorable_frame (analyze_hunk : List Change → Changes)
    (script : List Change) :
    (mark_ignorable analyze_hunk script).length = script.length ∧
    ∀ (i : Nat) (c : Change), script[i]? = some c →
      ∃ c2 : Change, (mark_ignorable analyze_hunk script)[i]? = some c2 ∧
        c2.line0 = c.line0 ∧ c2.line1 = c.line1 ∧
        c2.deleted = c.deleted ∧ c2.inserted = c.inserted ∧
        (c2.ignore = true ↔ analyze_hunk [c] = Changes.UNCHANGED) := by
  constructor
  · simp [mark_ignorable]
  · intro i c hc
    refine ⟨{ c with ignore := analyze_hunk [c] == Changes.UNCHANGED },
      ?_, rfl, rfl, rfl, rfl, ?_⟩
    · simp [mark_ignorable, List.getElem?_map, hc]
    · simp

theorem C10_mark_ignorable_frame_witness :
    ∃ c2 : Change, (mark_ignorable (fun _ => Changes.UNCHANGED) [change0])[0]? = some c2 ∧
      c2.line0 = change0.line0 ∧ c2.line1 = change0.line1 ∧
      c2.deleted = change0.deleted ∧ c2.inserted = change0.inserted ∧
      (c2.ignore = true ↔ (fun _ : List Change => Changes.UNCHANGED) [change0] = Changes.UNCHANGED) :=
  (C10_mark_ignorable_frame (fun _ => Changes.UNCHANGED) [change0]).2 0 change0 rfl

/-- C8: the final ignore_white_space honors the strongest whitespace flag
actually set, in any order and multiplicity: -w yields IGNORE_ALL_SPACE
over everything, otherwise -b yields IGNORE_SPACE_CHANGE over -E and -Z,
otherwise -E and -Z combine bitwise; and the result depends only on which
flags appear, not on their order. -/
theorem C8_strongest_ws_flag (l1 l2 : List WsFlag)
    (h : ∀ f, f ∈ l1 ↔ f ∈ l2) :
    ws_of_flags l1 = ws_combined l1 ∧ ws_of_flags l1 = ws_of_flags l2 := by
  have e1 := ws_fold_eq l1 0 (by omega)
  have e2 := ws_fold_eq l2 0 (by omega)
  have h0 : IGNORE_NO_WHITE_SPACE = 0 := rfl
  constructor
  · rw [ws_of_flags, h0, e1]
    simp only [ws_from, ws_combined, IGNORE_ALL_SPACE, IGNORE_SPACE_CHANGE,
      IGNORE_TAB_EXPANSION, IGNORE_TRAILING_SPACE, Nat.zero_or]
    norm_num
  · rw [ws_of_flags, ws_of_flags, h0, e1, e2]
    simp only [ws_from, h]

theorem C8_strongest_ws_flag_witness :
    ws_of_flags [WsFlag.flagE, WsFlag.flagZ, WsFlag.flagE]
      = ws_combined [WsFlag.flagE, WsFlag.flagZ, WsFlag.flagE] ∧
    ws_of_flags [WsFlag.flagE, WsFlag.flagZ, WsFlag.flagE]
      = ws_of_flags [WsFlag.flagZ, WsFlag.flagE] :=
  C8_strongest_ws_flag [WsFlag.flagE, WsFlag.flagZ, WsFlag.flagE]
    [WsFlag.flagZ, WsFlag.flagE] (fun f => by cases f <;> decide)

/-- C6: after prepare_text returns, a nonempty buffer's last valid byte is
a newline; missing_newline is set exactly when the (possibly CR-stripped)
content was nonempty and did not end in a newline, in which case exactly
one newline was appended; a machine word of zero bytes follows the valid
data; a zero-length input stays empty with missing_newline unset; and when
strip_trailing_cr is set, the stripping pass that runs first removes
exactly those carriage returns that immediately precede a newline. -/
theorem C6_prepare_text_post (strip : Bool) (buf : List Nat) :
    ((prepare_text strip buf).text ≠ [] →
      (prepare_text strip buf).text.getLastD 0 = 10) ∧
    ((prepare_text strip buf).missing_newline = true ↔
      ((if strip then stripCR buf else buf) ≠ [] ∧
        (if strip then stripCR buf else buf).getLastD 0 ≠ 10)) ∧
    ((prepare_text strip buf).missing_newline = true →
      (prepare_text strip buf).text
        = (if strip then stripCR buf else buf) ++ [10]) ∧
    ((prepare_text strip buf).missing_newline = false →
      (prepare_text strip buf).text = (if strip then stripCR buf else buf)) ∧
    (prepare_text strip buf).pad = List.replicate wordSize 0 ∧
    (buf = [] → (prepare_text strip buf).text = [] ∧
      (prepare_text strip buf).missing_newline = false) ∧
    (strip = true → stripCR buf = stripCRSpec buf) := by
  by_cases hcond : (if strip then stripCR buf else buf) ≠ [] ∧
      (if strip then stripCR buf else buf).getLastD 0 ≠ 10
  · have hpt : prepare_text strip buf =
        { text := (if strip then stripCR buf else buf) ++ [10],
          missing_newline := true, pad := List.replicate wordSize 0 } := by
      rw [prepare_text, if_pos hcond]
    rw [hpt]
    refine ⟨?_, ?_, ?_, ?_, ?_, ?_, ?_⟩
    · intro _
      exact List.getLastD_concat _ _ _
    · simpa using hcond
    · intro _
      rfl
    · intro hf
      simp at hf
    · rfl
    · intro hbuf
      subst hbuf
      refine absurd hcond ?_
      cases strip <;> simp [stripCR]
    · intro _
      exact stripCR_eq_spec buf
  · have hpt : prepare_text strip buf =
        { text := (if strip then stripCR buf else buf),
          missing_newline := false, pad := List.replicate wordSize 0 } := by
      rw [prepare_text, if_neg hcond]
    rw [hpt]
    push_neg at hcond
    refine ⟨?_, ?_, ?_, ?_, ?_, ?_, ?_⟩
    · intro hne
      exact hcond hne
    · simp only [show (false = true) = False from by simp, false_iff]
      intro hand
      exact hand.2 (hcond hand.1)
    · intro hf
      simp at hf
    · intro _
      rfl
    · rfl
    · intro hbuf
      subst hbuf
      cases strip <;> simp [stripCR]
    · intro _
      exact stripCR_eq_spec buf

theorem C6_prepare_text_post_witness :
    (prepare_text false [97]).text = (if false then stripCR [97] else [97]) ++ [10] ∧
    stripCR [97, 13, 10] = stripCRSpec [97, 13, 10] :=
  ⟨(C6_prepare_text_post false [97]).2.2.1 (by decide),
   (C6_prepare_text_post true [97, 13, 10]).2.2.2.2.2.2 rfl⟩

/-- C4 counterexample: a file whose final line is incomplete
(missing_newline set) does NOT always land in buckets[-1].  With
ignore_white_space = IGNORE_SPACE_CHANGE (so not below
IGNORE_TRAILING_SPACE) under a robust style, and likewise with the default
whitespace setting under the non-robust OUTPUT_ED style, the incomplete
final line is placed in its ordinary hash bucket, which is never -1. -/
theorem C4_counterexample :
    bucket_for { iws := 4, igcase := false, tabsize := 8 }
      OutputStyle.OUTPUT_NORMAL 509 { lines := [[97]], missing_newline := true } 0 ≠ -1 ∧
    bucket_for { iws := 0, igcase := false, tabsize := 8 }
      OutputStyle.OUTPUT_ED 509 { lines := [[97]], missing_newline := true } 0 ≠ -1 := by
  constructor <;>
    · rw [bucket_for, if_neg (by simp [IGNORE_TRAILING_SPACE, robust_output_style])]
      omega

/-- C4 amended: when the output style is robust and ignore_white_space is
below IGNORE_TRAILING_SPACE, the hashing pass places a file's incomplete
final line in the distinguished bucket -1 while every other line gets a
non-negative bucket; since equivalence classes are created and looked up
within a single bucket's chain, two lines only share a class when they
share a bucket, so the incomplete final line can share its class only with
the other file's incomplete final line and never with a complete line. -/
theorem C4_incomplete_final_line (cfg : HashCfg) (style : OutputStyle)
    (nb : Nat) (f0 f1 : HashedFile)
    (hrob : robust_output_style style = true)
    (hiws : cfg.iws < IGNORE_TRAILING_SPACE) :
    (f0.missing_newline = true → f0.lines ≠ [] →
      bucket_for cfg style nb f0 (f0.lines.length - 1) = -1) ∧
    (∀ i, ¬ (i + 1 = f0.lines.length ∧ f0.missing_newline = true) →
      0 ≤ bucket_for cfg style nb f0 i) ∧
    (∀ j k, j < f0.lines.length → k < f1.lines.length →
      (read_files_classes cfg style nb f0 f1).1.getD j 0
        = (read_files_classes cfg style nb f0 f1).2.getD k 0 →
      bucket_for cfg style nb f0 j = bucket_for cfg style nb f1 k) ∧
    (∀ k, f0.missing_newline = true → f0.lines ≠ [] → k < f1.lines.length →
      ¬ (k + 1 = f1.lines.length ∧ f1.missing_newline = true) →
      (read_files_classes cfg style nb f0 f1).1.getD (f0.lines.length - 1) 0
        ≠ (read_files_classes cfg style nb f0 f1).2.getD k 0) := by
  refine ⟨fun hm hne => bucket_for_incomplete cfg style nb f0 hrob hiws hm hne,
    fun i hi => bucket_for_nonneg cfg style nb f0 i hi,
    fun j k hj hk heq =>
      read_files_same_class_same_bucket cfg style nb f0 f1 j k hj hk heq, ?_⟩
  intro k hm hne hk hkc heq
  have hlen : 1 ≤ f0.lines.length := List.length_pos.mpr hne
  have hbeq := read_files_same_class_same_bucket cfg style nb f0 f1
    (f0.lines.length - 1) k (by omega) hk heq
  rw [bucket_for_incomplete cfg style nb f0 hrob hiws hm hne] at hbeq
  have hpos := bucket_for_nonneg cfg style nb f1 k hkc
  omega

theorem C4_incomplete_final_line_witness :
    ((({ lines := [[97]], missing_newline := true } : HashedFile).missing_newline = true) →
      ({ lines := [[97]], missing_newline := true } : HashedFile).lines ≠ [] →
      bucket_for { iws := 0, igcase := false, tabsize := 8 }
        OutputStyle.OUTPUT_NORMAL 509 { lines := [[97]], missing_newline := true }
        (({ lines := [[97]], missing_newline := true } : HashedFile).lines.length - 1) = -1) ∧
    (∀ i, ¬ (i + 1 = ({ lines := [[97]], missing_newline := true } : HashedFile).lines.length ∧
        ({ lines := [[97]], missing_newline := true } : HashedFile).missing_newline = true) →
      0 ≤ bucket_for { iws := 0, igcase := false, tabsize := 8 }
        OutputStyle.OUTPUT_NORMAL 509 { lines := [[97]], missing_newline := true } i) ∧
    (∀ j k, j < ({ lines := [[97]], missing_newline := true } : HashedFile).lines.length →
      k < ({ lines := [[97], [98]], missing_newline := false } : HashedFile).lines.length →
      (read_files_classes { iws := 0, igcase := false, tabsize := 8 }
        OutputStyle.OUTPUT_NORMAL 509 { lines := [[97]], missing_newline := true }
        { lines := [[97], [98]], missing_newline := false }).1.getD j 0
        = (read_files_classes { iws := 0, igcase := false, tabsize := 8 }
          OutputStyle.OUTPUT_NORMAL 509 { lines := [[97]], missing_newline := true }
          { lines := [[97], [98]], missing_newline := false }).2.getD k 0 →
      bucket_for { iws := 0, igcase := false, tabsize := 8 }
        OutputStyle.OUTPUT_NORMAL 509 { lines := [[97]], missing_newline := true } j
        = bucket_for { iws := 0, igcase := false, tabsize := 8 }
          OutputStyle.OUTPUT_NORMAL 509 { lines := [[97], [98]], missing_newline := false } k) ∧
    (∀ k, ({ lines := [[97]], missing_newline := true } : HashedFile).missing_newline = true →
      ({ lines := [[97]], missing_newline := true } : HashedFile).lines ≠ [] →
      k < ({ lines := [[97], [98]], missing_newline := false } : HashedFile).lines.length →
      ¬ (k + 1 = ({ lines := [[97], [98]], missing_newline := false } : HashedFile).lines.length ∧
        ({ lines := [[97], [98]], missing_newline := false } : HashedFile).missing_newline = true) →
      (read_files_classes { iws := 0, igcase := false, tabsize := 8 }
        OutputStyle.OUTPUT_NORMAL 509 { lines := [[97]], missing_newline := true }
        { lines := [[97], [98]], missing_newline := false }).1.getD
          (({ lines := [[97]], missing_newline := true } : HashedFile).lines.length - 1) 0
        ≠ (read_files_classes { iws := 0, igcase := false, tabsize := 8 }
          OutputStyle.OUTPUT_NORMAL 509 { lines := [[97]], missing_newline := true }
          { lines := [[97], [98]], missing_newline := false }).2.getD k 0) :=
  C4_incomplete_final_line { iws := 0, igcase := false, tabsize := 8 }
    OutputStyle.OUTPUT_NORMAL 509 { lines := [[97]], missing_newline := true }
    { lines := [[97], [98]], missing_newline := false } rfl (by decide)


/-! ### C1: lines_differ versus the per-line hash of find_and_hash_each_line -/

theorem lowerB_hi {c : Nat} (h : 65 ≤ c ∧ c ≤ 90) : lowerB c = c + 32 := by
  rw [lowerB, if_pos]
  simp only [Bool.and_eq_true, decide_eq_true_eq]
  exact h

theorem lowerB_lo {c : Nat} (h : ¬ (65 ≤ c ∧ c ≤ 90)) : lowerB c = c := by
  rw [lowerB, if_neg]
  simp only [Bool.and_eq_true, decide_eq_true_eq]
  exact h

theorem isSpaceB_iff {c : Nat} : isSpaceB c = true ↔
    (c = 32 ∨ c = 9 ∨ c = 10 ∨ c = 11 ∨ c = 12 ∨ c = 13) := by
  simp only [isSpaceB, Bool.or_eq_true, decide_eq_true_eq]
  tauto

/-- foldCase leaves white-space characters unchanged. -/
theorem foldCase_space {c : Nat} (ig : Bool) (h : isSpaceB c = true) :
    foldCase ig c = c := by
  have hc := isSpaceB_iff.mp h
  cases ig
  · rfl
  · show lowerB c = c
    exact lowerB_lo (by omega)

/-- foldCase preserves white-spaceness. -/
theorem isSpaceB_foldCase (ig : Bool) (c : Nat) :
    isSpaceB (foldCase ig c) = isSpaceB c := by
  cases ig
  · rfl
  · show isSpaceB (lowerB c) = isSpaceB c
    by_cases h : 65 ≤ c ∧ c ≤ 90
    · rw [lowerB_hi h]
      have e1 : isSpaceB (c + 32) = false := by
        rw [Bool.eq_false_iff]
        intro hx
        have := isSpaceB_iff.mp hx
        omega
      have e2 : isSpaceB c = false := by
        rw [Bool.eq_false_iff]
        intro hx
        have := isSpaceB_iff.mp hx
        omega
      rw [e1, e2]
    · rw [lowerB_lo h]

theorem foldCase_eq_ten {c : Nat} {ig : Bool} (h : foldCase ig c = 10) : c = 10 := by
  cases ig
  · exact h
  · have h' : lowerB c = 10 := h
    by_cases hr : 65 ≤ c ∧ c ≤ 90
    · rw [lowerB_hi hr] at h'; omega
    · rwa [lowerB_lo hr] at h'

theorem foldCase_eq_32 {c : Nat} {ig : Bool} (h : foldCase ig c = 32) : c = 32 := by
  cases ig
  · exact h
  · have h' : lowerB c = 32 := h
    by_cases hr : 65 ≤ c ∧ c ≤ 90
    · rw [lowerB_hi hr] at h'; omega
    · rwa [lowerB_lo hr] at h'

/-- Two distinct characters with the same case fold are an upper/lower pair. -/
theorem foldCase_ne_pair {c1 c2 : Nat} {ig : Bool}
    (h : foldCase ig c1 = foldCase ig c2) (hne : c1 ≠ c2) :
    65 ≤ c1 ∧ c1 ≤ 122 ∧ 65 ≤ c2 ∧ c2 ≤ 122 := by
  cases ig
  · exact absurd h hne
  · have h' : lowerB c1 = lowerB c2 := h
    by_cases h1 : 65 ≤ c1 ∧ c1 ≤ 90 <;> by_cases h2 : 65 ≤ c2 ∧ c2 ≤ 90
    · rw [lowerB_hi h1, lowerB_hi h2] at h'; omega
    · rw [lowerB_hi h1, lowerB_lo h2] at h'; omega
    · rw [lowerB_lo h1, lowerB_hi h2] at h'; omega
    · rw [lowerB_lo h1, lowerB_lo h2] at h'; omega

theorem scanNS_nonspace {s : List Nat} {j k : Nat} (h : scanNS s j = some k) :
    isSpaceB (rd s k) = false := by
  induction j using scanNS.induct s with
  | case1 j hj => rw [scanNS, if_pos hj] at h; exact absurd h (by simp)
  | case2 j hj hsp ih =>
    rw [scanNS, if_neg hj, if_pos hsp] at h
    exact ih h
  | case3 j hj hsp =>
    rw [scanNS, if_neg hj, if_neg hsp] at h
    cases h
    exact Bool.not_eq_true _ ▸ hsp

/-- allSpToNl holds exactly when the white-space scan reaches the newline. -/
theorem allSp_iff_scanNS (s : List Nat) (p : Nat) :
    allSpToNl s p = true ↔ scanNS s p = none := by
  induction p using scanNS.induct s with
  | case1 p hp => rw [allSpToNl, if_pos hp, scanNS, if_pos hp]; simp
  | case2 p hp hsp ih =>
    rw [allSpToNl, if_neg hp, if_pos hsp, scanNS, if_neg hp, if_pos hsp]
    exact ih
  | case3 p hp hsp =>
    rw [allSpToNl, if_neg hp, if_neg hsp, scanNS, if_neg hp, if_neg hsp]
    simp

/-- One white-space step of scanNS. -/
theorem scanNS_step {s : List Nat} {p : Nat} (hsp : isSpaceB (rd s p) = true)
    (hnl : rd s p ≠ 10) : scanNS s p = scanNS s (p + 1) := by
  rw [scanNS, if_neg hnl, if_pos hsp]

/-- One white-space step of findNS. -/
theorem findNS_step {s : List Nat} {p : Nat} (hnl : rd s p ≠ 10)
    (hsp : isSpaceB (rd s p) = true) : findNS s p = findNS s (p + 1) := by
  rw [findNS, if_pos ⟨hnl, hsp⟩]

/-- scanNS in terms of findNS. -/
theorem scanNS_eq_findNS (s : List Nat) (p : Nat) :
    scanNS s p = if rd s (findNS s p) = 10 then none else some (findNS s p) := by
  induction p using findNS.induct s with
  | case1 p hp ih =>
    rw [scanNS_step hp.2 hp.1, findNS_step hp.1 hp.2]
    exact ih
  | case2 p hp =>
    rw [findNS, if_neg hp]
    by_cases h10 : rd s p = 10
    · rw [scanNS, if_pos h10, if_pos h10]
    · have hsp : ¬ isSpaceB (rd s p) = true := fun hs => hp ⟨h10, hs⟩
      rw [scanNS, if_neg h10, if_neg hsp, if_neg h10]

/-- findNS stops at a non-space or newline. -/
theorem findNS_stop (s : List Nat) (p : Nat) :
    rd s (findNS s p) = 10 ∨ isSpaceB (rd s (findNS s p)) = false := by
  induction p using findNS.induct s with
  | case1 p hp ih => rw [findNS_step hp.1 hp.2]; exact ih
  | case2 p hp =>
    rw [findNS, if_neg hp]
    by_cases h10 : rd s p = 10
    · exact Or.inl h10
    · exact Or.inr (Bool.eq_false_iff.mpr fun hs => hp ⟨h10, hs⟩)

/-- The hashing loop stops at the newline. -/
theorem hc_nl {cfg : HashCfg} {s : List Nat} {i : Nat} (t col : Nat)
    (h : rd s i = 10) : hcGo cfg s i t col = [] := by
  rw [hcGo, dif_pos h]

/-- -w hashing skips white space. -/
theorem hc5_space {cfg : HashCfg} {s : List Nat} {i : Nat} (t col : Nat)
    (h5 : cfg.iws = IGNORE_ALL_SPACE) (h10 : rd s i ≠ 10)
    (hsp : isSpaceB (rd s i) = true) :
    hcGo cfg s i t col = hcGo cfg s (i + 1) t col := by
  rw [hcGo, dif_neg h10, h5, if_pos rfl, if_pos hsp]

/-- -w hashing emits the folded character at a non-space. -/
theorem hc5_nonspace {cfg : HashCfg} {s : List Nat} {i : Nat} (t col : Nat)
    (h5 : cfg.iws = IGNORE_ALL_SPACE) (hns : isSpaceB (rd s i) = false) :
    hcGo cfg s i t col = foldCase cfg.igcase (rd s i) :: hcGo cfg s (i + 1) t col := by
  have h10 : rd s i ≠ 10 := by
    intro h
    rw [h] at hns
    exact absurd hns (by decide)
  rw [hcGo, dif_neg h10, h5, if_pos rfl, if_neg (by rw [hns]; exact Bool.false_ne_true)]

/-- -w hashing is invariant under the white-space skip of lines_differ. -/
theorem hc5_skipW {cfg : HashCfg} {s : List Nat} (t col : Nat)
    (h5 : cfg.iws = IGNORE_ALL_SPACE) :
    ∀ i, hcGo cfg s i t col = hcGo cfg s (skipW s i) t col := by
  intro i
  induction i using skipW.induct s with
  | case1 i hi ih =>
    rw [hc5_space t col h5 hi.2 hi.1, skipW, if_pos hi, ih]
  | case2 i hi =>
    rw [skipW, if_neg hi]

/-- skipW stops at a newline or non-space. -/
theorem skipW_stop (s : List Nat) (i : Nat) :
    rd s (skipW s i) = 10 ∨ isSpaceB (rd s (skipW s i)) = false := by
  induction i using skipW.induct s with
  | case1 i hi ih =>
    rw [skipW, if_pos hi]
    exact ih
  | case2 i hi =>
    rw [skipW, if_neg hi]
    by_cases h10 : rd s i = 10
    · exact Or.inl h10
    · exact Or.inr (Bool.eq_false_iff.mpr fun hs => hi ⟨hs, h10⟩)

/-- Default-mode hashing emits every folded character up to the newline. -/
theorem hc0_step {cfg : HashCfg} {s : List Nat} {i : Nat} (t col : Nat)
    (hn5 : cfg.iws ≠ IGNORE_ALL_SPACE) (hn4 : cfg.iws ≠ IGNORE_SPACE_CHANGE)
    (hn123 : ¬ (cfg.iws = IGNORE_TAB_EXPANSION ∨ cfg.iws = IGNORE_TRAILING_SPACE ∨
      cfg.iws = IGNORE_TAB_EXPANSION_AND_TRAILING_SPACE))
    (h10 : rd s i ≠ 10) :
    hcGo cfg s i t col = foldCase cfg.igcase (rd s i) :: hcGo cfg s (i + 1) t col := by
  rw [hcGo, dif_neg h10, if_neg hn5, if_neg hn4, if_neg hn123]

/-- foldCase of a newline is a newline. -/
theorem foldCase_ten (ig : Bool) : foldCase ig 10 = 10 :=
  foldCase_space ig (by decide)

/-- Mode -w: lines_differ false implies equal hash streams. -/
theorem ld5_main (cfg : HashCfg) (s1 s2 : List Nat) (h5 : cfg.iws = IGNORE_ALL_SPACE) :
    ∀ fuel i1 i2 t col, ldGo cfg s1 s2 fuel i1 i2 t col = false →
      hcGo cfg s1 i1 0 0 = hcGo cfg s2 i2 0 0 := by
  intro fuel
  induction fuel with
  | zero =>
    intro i1 i2 t col h
    rw [ldGo] at h
    exact Bool.noConfusion h
  | succ fuel ih =>
    intro i1 i2 t col h
    rw [ldGo] at h
    by_cases hcc : rd s1 i1 = rd s2 i2
    · rw [if_pos hcc] at h
      by_cases h10 : rd s1 i1 = 10
      · rw [hc_nl 0 0 h10, hc_nl 0 0 (hcc ▸ h10)]
      · rw [if_neg h10] at h
        have h' := ih _ _ _ _ h
        rcases Bool.eq_false_or_eq_true (isSpaceB (rd s1 i1)) with hsp | hsp
        · have hsp2 : isSpaceB (rd s2 i2) = true := hcc ▸ hsp
          have h102 : rd s2 i2 ≠ 10 := hcc ▸ h10
          rw [hc5_space 0 0 h5 h10 hsp, hc5_space 0 0 h5 h102 hsp2, h']
        · have hsp2 : isSpaceB (rd s2 i2) = false := hcc ▸ hsp
          rw [hc5_nonspace 0 0 h5 hsp, hc5_nonspace 0 0 h5 hsp2, hcc, h']
    · rw [if_neg hcc, h5, if_pos rfl] at h
      rw [hc5_skipW 0 0 h5 i1, hc5_skipW 0 0 h5 i2]
      by_cases hf : foldCase cfg.igcase (rd s1 (skipW s1 i1)) ≠
          foldCase cfg.igcase (rd s2 (skipW s2 i2))
      · rw [if_pos hf] at h
        cases h
      · rw [if_neg hf] at h
        push_neg at hf
        by_cases ha : rd s1 (skipW s1 i1) = 10
        · have hb : rd s2 (skipW s2 i2) = 10 :=
            foldCase_eq_ten (by rw [← hf, ha, foldCase_ten])
          rw [hc_nl 0 0 ha, hc_nl 0 0 hb]
        · rw [if_neg ha] at h
          have h' := ih _ _ _ _ h
          have hans : isSpaceB (rd s1 (skipW s1 i1)) = false :=
            (skipW_stop s1 i1).resolve_left ha
          have hb : rd s2 (skipW s2 i2) ≠ 10 := by
            intro hb10
            exact ha (foldCase_eq_ten (by rw [hf, hb10, foldCase_ten]))
          have hbns : isSpaceB (rd s2 (skipW s2 i2)) = false :=
            (skipW_stop s2 i2).resolve_left hb
          rw [hc5_nonspace 0 0 h5 hans, hc5_nonspace 0 0 h5 hbns, hf, h']

/-- Default mode: lines_differ false implies equal hash streams. -/
theorem ld0_main (cfg : HashCfg) (s1 s2 : List Nat)
    (hn5 : cfg.iws ≠ IGNORE_ALL_SPACE) (hn4 : cfg.iws ≠ IGNORE_SPACE_CHANGE)
    (hn23 : ¬ (cfg.iws = IGNORE_TRAILING_SPACE ∨
      cfg.iws = IGNORE_TAB_EXPANSION_AND_TRAILING_SPACE))
    (hn1 : cfg.iws ≠ IGNORE_TAB_EXPANSION) :
    ∀ fuel i1 i2 t col, ldGo cfg s1 s2 fuel i1 i2 t col = false →
      hcGo cfg s1 i1 0 0 = hcGo cfg s2 i2 0 0 := by
  have hn123 : ¬ (cfg.iws = IGNORE_TAB_EXPANSION ∨ cfg.iws = IGNORE_TRAILING_SPACE ∨
      cfg.iws = IGNORE_TAB_EXPANSION_AND_TRAILING_SPACE) := by
    rintro (h | h | h)
    · exact hn1 h
    · exact hn23 (Or.inl h)
    · exact hn23 (Or.inr h)
  intro fuel
  induction fuel with
  | zero =>
    intro i1 i2 t col h
    rw [ldGo] at h
    exact Bool.noConfusion h
  | succ fuel ih =>
    intro i1 i2 t col h
    rw [ldGo] at h
    by_cases hcc : rd s1 i1 = rd s2 i2
    · rw [if_pos hcc] at h
      by_cases h10 : rd s1 i1 = 10
      · rw [hc_nl 0 0 h10, hc_nl 0 0 (hcc ▸ h10)]
      · rw [if_neg h10] at h
        have h' := ih _ _ _ _ h
        have h102 : rd s2 i2 ≠ 10 := hcc ▸ h10
        rw [hc0_step 0 0 hn5 hn4 hn123 h10, hc0_step 0 0 hn5 hn4 hn123 h102, hcc, h']
    · rw [if_neg hcc, if_neg hn5, if_neg hn4, if_neg hn23, if_neg hn1] at h
      by_cases hf : foldCase cfg.igcase (rd s1 i1) ≠ foldCase cfg.igcase (rd s2 i2)
      · rw [if_pos hf] at h
        cases h
      · rw [if_neg hf] at h
        push_neg at hf
        by_cases h10 : rd s1 i1 = 10
        · have hb : rd s2 i2 = 10 := foldCase_eq_ten (by rw [← hf, h10, foldCase_ten])
          rw [hc_nl 0 0 h10, hc_nl 0 0 hb]
        · rw [if_neg h10] at h
          have h' := ih _ _ _ _ h
          have hb : rd s2 i2 ≠ 10 := by
            intro hb10
            exact h10 (foldCase_eq_ten (by rw [hf, hb10, foldCase_ten]))
          rw [hc0_step 0 0 hn5 hn4 hn123 h10, hc0_step 0 0 hn5 hn4 hn123 hb, hf, h']

/-- Case folds of two white-space characters are equal only if the characters are. -/
theorem sp_fold_eq {c1 c2 : Nat} {ig : Bool} (h : foldCase ig c1 = foldCase ig c2) :
    isSpaceB c1 = isSpaceB c2 := by
  rw [← isSpaceB_foldCase ig c1, ← isSpaceB_foldCase ig c2, h]

theorem fold_ne_of_sp_ne {c1 c2 : Nat} (ig : Bool) (hsp1 : isSpaceB c1 = true)
    (hsp2 : isSpaceB c2 = true) (hne : c1 ≠ c2) :
    foldCase ig c1 ≠ foldCase ig c2 := by
  rw [foldCase_space _ hsp1, foldCase_space _ hsp2]
  exact hne

theorem fold_ne_of_sp_mix {c1 c2 : Nat} (ig : Bool) (hsp1 : isSpaceB c1 = true)
    (hsp2 : isSpaceB c2 = false) : foldCase ig c1 ≠ foldCase ig c2 := by
  intro hf
  have hx := sp_fold_eq hf
  rw [hsp1, hsp2] at hx
  exact Bool.noConfusion hx

theorem allSp_true_elim {s : List Nat} {p : Nat} (h : allSpToNl s p = true) :
    rd s p = 10 ∨ (rd s p ≠ 10 ∧ isSpaceB (rd s p) = true ∧ allSpToNl s (p + 1) = true) := by
  by_cases h10 : rd s p = 10
  · exact Or.inl h10
  · rw [allSpToNl, if_neg h10] at h
    by_cases hsp : isSpaceB (rd s p) = true
    · rw [if_pos hsp] at h
      exact Or.inr ⟨h10, hsp, h⟩
    · rw [if_neg hsp] at h
      exact Bool.noConfusion h

theorem allSp_false_elim {s : List Nat} {p : Nat} (h : allSpToNl s p = false) :
    rd s p ≠ 10 ∧ (isSpaceB (rd s p) = false ∨ allSpToNl s (p + 1) = false) := by
  by_cases h10 : rd s p = 10
  · rw [allSpToNl, if_pos h10] at h
    exact Bool.noConfusion h
  · refine ⟨h10, ?_⟩
    rw [allSpToNl, if_neg h10] at h
    by_cases hsp : isSpaceB (rd s p) = true
    · rw [if_pos hsp] at h
      exact Or.inr h
    · exact Or.inl (Bool.eq_false_iff.mpr hsp)

/-- -Z hashing drops a trailing white-space run. -/
theorem hc2_trailing {cfg : HashCfg} {s : List Nat} {i : Nat} (t col : Nat)
    (h2 : cfg.iws = IGNORE_TRAILING_SPACE) (h10 : rd s i ≠ 10)
    (hsp : isSpaceB (rd s i) = true) (hscan : scanNS s (i + 1) = none) :
    hcGo cfg s i t col = [] := by
  rw [hcGo, dif_neg h10, h2, if_neg (by decide), if_neg (by decide),
    if_pos (by decide), if_pos ⟨by decide, hsp, by rw [hscan]; rfl⟩]

/-- -Z hashing emits the folded character outside a trailing run. -/
theorem hc2_step {cfg : HashCfg} {s : List Nat} {i : Nat} (t col : Nat)
    (h2 : cfg.iws = IGNORE_TRAILING_SPACE) (h10 : rd s i ≠ 10)
    (hnotr : ¬ (isSpaceB (rd s i) = true ∧ (scanNS s (i + 1)).isNone = true)) :
    hcGo cfg s i t col = foldCase cfg.igcase (rd s i) :: hcGo cfg s (i + 1) t col := by
  rw [hcGo, dif_neg h10, h2, if_neg (by decide), if_neg (by decide),
    if_pos (by decide), if_neg (fun hx => hnotr ⟨hx.2.1, hx.2.2⟩), if_neg (by decide)]

/-- -E -Z hashing drops a trailing white-space run. -/
theorem hc3_trailing {cfg : HashCfg} {s : List Nat} {i : Nat} (t col : Nat)
    (h3 : cfg.iws = IGNORE_TAB_EXPANSION_AND_TRAILING_SPACE) (h10 : rd s i ≠ 10)
    (hsp : isSpaceB (rd s i) = true) (hscan : scanNS s (i + 1) = none) :
    hcGo cfg s i t col = [] := by
  rw [hcGo, dif_neg h10, h3, if_neg (by decide), if_neg (by decide),
    if_pos (by decide), if_pos ⟨by decide, hsp, by rw [hscan]; rfl⟩]

/-- -E -Z hashing outside a trailing run: the tab-expansion dispatch. -/
theorem hc3_unfold {cfg : HashCfg} {s : List Nat} {i : Nat} (t col : Nat)
    (h3 : cfg.iws = IGNORE_TAB_EXPANSION_AND_TRAILING_SPACE) (h10 : rd s i ≠ 10)
    (hnotr : ¬ (isSpaceB (rd s i) = true ∧ (scanNS s (i + 1)).isNone = true)) :
    hcGo cfg s i t col =
      (if rd s i = 8 then
        foldCase cfg.igcase 8 ::
          (if 0 < col then hcGo cfg s (i + 1) t (col - 1)
           else if 0 < t then hcGo cfg s (i + 1) (t - 1) (cfg.tabsize - 1)
           else hcGo cfg s (i + 1) t col)
      else if rd s i = 9 then
        List.replicate (cfg.tabsize - col % cfg.tabsize) (foldCase cfg.igcase 32) ++
          hcGo cfg s (i + 1) (t + col / cfg.tabsize + 1) 0
      else if rd s i = 13 then foldCase cfg.igcase 13 :: hcGo cfg s (i + 1) 0 0
      else if rd s i = 0 ∨ rd s i = 7 ∨ rd s i = 12 ∨ rd s i = 11 then
        foldCase cfg.igcase (rd s i) :: hcGo cfg s (i + 1) t col
      else foldCase cfg.igcase (rd s i) :: hcGo cfg s (i + 1) t (col + 1)) := by
  rw [hcGo, dif_neg h10, h3, if_neg (by decide), if_neg (by decide),
    if_pos (by decide), if_neg (fun hx => hnotr ⟨hx.2.1, hx.2.2⟩), if_pos (by decide)]

/-- If exactly one side is inside a run of white space reaching the newline,
lines_differ reports a difference in the -Z and -E -Z modes. -/
theorem ld23_tr (cfg : HashCfg) (s1 s2 : List Nat)
    (h23 : cfg.iws = IGNORE_TRAILING_SPACE ∨
      cfg.iws = IGNORE_TAB_EXPANSION_AND_TRAILING_SPACE) :
    ∀ fuel i1 i2 t col,
      ((allSpToNl s1 i1 = true ∧ allSpToNl s2 i2 = false) ∨
       (allSpToNl s1 i1 = false ∧ allSpToNl s2 i2 = true)) →
      ldGo cfg s1 s2 fuel i1 i2 t col = true := by
  have hne5 : cfg.iws ≠ IGNORE_ALL_SPACE := by
    rcases h23 with h | h <;> rw [h] <;> decide
  have hne4 : cfg.iws ≠ IGNORE_SPACE_CHANGE := by
    rcases h23 with h | h <;> rw [h] <;> decide
  intro fuel
  induction fuel with
  | zero =>
    intro i1 i2 t col hdir
    rw [ldGo]
  | succ fuel ih =>
    intro i1 i2 t col hdir
    rw [ldGo]
    by_cases hcc : rd s1 i1 = rd s2 i2
    · rw [if_pos hcc]
      rcases hdir with ⟨ha1, ha2⟩ | ⟨ha1, ha2⟩
      · have h10 : rd s1 i1 ≠ 10 := fun hx => (allSp_false_elim ha2).1 (hcc ▸ hx)
        rw [if_neg h10]
        rcases allSp_true_elim ha1 with hx | ⟨-, hsp1, hrec1⟩
        · exact absurd hx h10
        · have hrec2 : allSpToNl s2 (i2 + 1) = false := by
            rcases (allSp_false_elim ha2).2 with hx | hx
            · rw [← hcc, hsp1] at hx
              exact Bool.noConfusion hx
            · exact hx
          exact ih _ _ _ _ (Or.inl ⟨hrec1, hrec2⟩)
      · have h10 : rd s1 i1 ≠ 10 := (allSp_false_elim ha1).1
        rw [if_neg h10]
        rcases allSp_true_elim ha2 with hx | ⟨-, hsp2, hrec2⟩
        · exact absurd (hcc.trans hx) h10
        · have hrec1 : allSpToNl s1 (i1 + 1) = false := by
            rcases (allSp_false_elim ha1).2 with hx | hx
            · rw [hcc, hsp2] at hx
              exact Bool.noConfusion hx
            · exact hx
          exact ih _ _ _ _ (Or.inr ⟨hrec1, hrec2⟩)
    · rw [if_neg hcc, if_neg hne5, if_neg hne4, if_pos h23]
      rcases hdir with ⟨ha1, ha2⟩ | ⟨ha1, ha2⟩
      · -- side 1 trailing, side 2 not
        have h102 : rd s2 i2 ≠ 10 := (allSp_false_elim ha2).1
        have hsp1 : isSpaceB (rd s1 i1) = true := by
          rcases allSp_true_elim ha1 with hx | ⟨-, hx, -⟩
          · rw [hx]; decide
          · exact hx
        by_cases hsp2 : isSpaceB (rd s2 i2) = true
        · have hrec2 : allSpToNl s2 (i2 + 1) = false := by
            rcases (allSp_false_elim ha2).2 with hx | hx
            · rw [hsp2] at hx
              exact Bool.noConfusion hx
            · exact hx
          have hnbt : ¬ ((rd s1 i1 = 10 ∨ allSpToNl s1 (i1 + 1) = true) ∧
              (rd s2 i2 = 10 ∨ allSpToNl s2 (i2 + 1) = true)) := by
            rintro ⟨-, hx | hx⟩
            · exact h102 hx
            · rw [hrec2] at hx
              exact Bool.noConfusion hx
          rw [if_pos ⟨hsp1, hsp2⟩, if_neg hnbt,
            if_pos (fold_ne_of_sp_ne cfg.igcase hsp1 hsp2 hcc)]
        · have hsp2f : isSpaceB (rd s2 i2) = false := Bool.eq_false_iff.mpr hsp2
          rw [if_neg (fun hx => hsp2 hx.2)]
          rcases h23 with h2 | h3
          · rw [if_pos h2, if_pos (fold_ne_of_sp_mix cfg.igcase hsp1 hsp2f)]
          · have hntab : ¬ ((rd s1 i1 = 32 ∧ rd s2 i2 = 9) ∨
                (rd s1 i1 = 9 ∧ rd s2 i2 = 32)) := by
              rintro (⟨-, hb⟩ | ⟨-, hb⟩) <;> rw [hb] at hsp2f <;> exact Bool.noConfusion hsp2f
            rw [if_neg (by rw [h3]; decide), if_neg hntab,
              if_pos (fold_ne_of_sp_mix cfg.igcase hsp1 hsp2f)]
      · -- side 2 trailing, side 1 not
        have h101 : rd s1 i1 ≠ 10 := (allSp_false_elim ha1).1
        have hsp2 : isSpaceB (rd s2 i2) = true := by
          rcases allSp_true_elim ha2 with hx | ⟨-, hx, -⟩
          · rw [hx]; decide
          · exact hx
        by_cases hsp1 : isSpaceB (rd s1 i1) = true
        · have hrec1 : allSpToNl s1 (i1 + 1) = false := by
            rcases (allSp_false_elim ha1).2 with hx | hx
            · rw [hsp1] at hx
              exact Bool.noConfusion hx
            · exact hx
          have hnbt : ¬ ((rd s1 i1 = 10 ∨ allSpToNl s1 (i1 + 1) = true) ∧
              (rd s2 i2 = 10 ∨ allSpToNl s2 (i2 + 1) = true)) := by
            rintro ⟨hx | hx, -⟩
            · exact h101 hx
            · rw [hrec1] at hx
              exact Bool.noConfusion hx
          rw [if_pos ⟨hsp1, hsp2⟩, if_neg hnbt,
            if_pos (fold_ne_of_sp_ne cfg.igcase hsp1 hsp2 hcc)]
        · have hsp1f : isSpaceB (rd s1 i1) = false := Bool.eq_false_iff.mpr hsp1
          rw [if_neg (fun hx => hsp1 hx.1)]
          rcases h23 with h2 | h3
          · rw [if_pos h2, if_pos (Ne.symm (fold_ne_of_sp_mix cfg.igcase hsp2 hsp1f))]
          · have hntab : ¬ ((rd s1 i1 = 32 ∧ rd s2 i2 = 9) ∨
                (rd s1 i1 = 9 ∧ rd s2 i2 = 32)) := by
              rintro (⟨ha, -⟩ | ⟨ha, -⟩) <;> rw [ha] at hsp1f <;> exact Bool.noConfusion hsp1f
            rw [if_neg (by rw [h3]; decide), if_neg hntab,
              if_pos (Ne.symm (fold_ne_of_sp_mix cfg.igcase hsp2 hsp1f))]

/-- Mode -Z: lines_differ false implies equal hash streams. -/
theorem ld2_main (cfg : HashCfg) (s1 s2 : List Nat)
    (h2 : cfg.iws = IGNORE_TRAILING_SPACE) :
    ∀ fuel i1 i2 t col, ldGo cfg s1 s2 fuel i1 i2 t col = false →
      ∀ tb cb, hcGo cfg s1 i1 tb cb = hcGo cfg s2 i2 tb cb := by
  have hne5 : cfg.iws ≠ IGNORE_ALL_SPACE := by rw [h2]; decide
  have hne4 : cfg.iws ≠ IGNORE_SPACE_CHANGE := by rw [h2]; decide
  intro fuel
  induction fuel with
  | zero =>
    intro i1 i2 t col h
    rw [ldGo] at h
    exact Bool.noConfusion h
  | succ fuel ih =>
    intro i1 i2 t col h
    rw [ldGo] at h
    by_cases hcc : rd s1 i1 = rd s2 i2
    · rw [if_pos hcc] at h
      by_cases h10 : rd s1 i1 = 10
      · intro tb cb
        rw [hc_nl tb cb h10, hc_nl tb cb (hcc ▸ h10)]
      · rw [if_neg h10] at h
        have hre : ldGo cfg s1 s2 fuel (i1 + 1) (i2 + 1)
            (bState cfg.tabsize (rd s1 i1) t col).1
            (bState cfg.tabsize (rd s1 i1) t col).2 = false := h
        have h' := ih _ _ _ _ hre
        have h102 : rd s2 i2 ≠ 10 := hcc ▸ h10
        by_cases hsp : isSpaceB (rd s1 i1) = true
        · by_cases htr1 : scanNS s1 (i1 + 1) = none <;>
            by_cases htr2 : scanNS s2 (i2 + 1) = none
          · intro tb cb
            rw [hc2_trailing tb cb h2 h10 hsp htr1,
              hc2_trailing tb cb h2 h102 (hcc ▸ hsp) htr2]
          · have t1 : allSpToNl s1 (i1 + 1) = true := (allSp_iff_scanNS _ _).mpr htr1
            have t2 : allSpToNl s2 (i2 + 1) = false :=
              Bool.eq_false_iff.mpr (fun hx => htr2 ((allSp_iff_scanNS _ _).mp hx))
            have htr := ld23_tr cfg s1 s2 (Or.inl h2) fuel (i1 + 1) (i2 + 1)
              (bState cfg.tabsize (rd s1 i1) t col).1
              (bState cfg.tabsize (rd s1 i1) t col).2 (Or.inl ⟨t1, t2⟩)
            exact Bool.noConfusion (hre.symm.trans htr)
          · have t1 : allSpToNl s1 (i1 + 1) = false :=
              Bool.eq_false_iff.mpr (fun hx => htr1 ((allSp_iff_scanNS _ _).mp hx))
            have t2 : allSpToNl s2 (i2 + 1) = true := (allSp_iff_scanNS _ _).mpr htr2
            have htr := ld23_tr cfg s1 s2 (Or.inl h2) fuel (i1 + 1) (i2 + 1)
              (bState cfg.tabsize (rd s1 i1) t col).1
              (bState cfg.tabsize (rd s1 i1) t col).2 (Or.inr ⟨t1, t2⟩)
            exact Bool.noConfusion (hre.symm.trans htr)
          · intro tb cb
            rw [hc2_step tb cb h2 h10 (fun hx => htr1 (Option.isNone_iff_eq_none.mp hx.2)),
              hc2_step tb cb h2 h102 (fun hx => htr2 (Option.isNone_iff_eq_none.mp hx.2)),
              hcc, h' tb cb]
        · have hsp1f : isSpaceB (rd s1 i1) = false := Bool.eq_false_iff.mpr hsp
          have hsp2f : isSpaceB (rd s2 i2) = false := hcc ▸ hsp1f
          intro tb cb
          rw [hc2_step tb cb h2 h10 (fun hx => Bool.noConfusion (hsp1f ▸ hx.1)),
            hc2_step tb cb h2 h102 (fun hx => Bool.noConfusion (hsp2f ▸ hx.1)),
            hcc, h' tb cb]
    · rw [if_neg hcc, if_neg hne5, if_neg hne4, if_pos (Or.inl h2)] at h
      by_cases hbs : isSpaceB (rd s1 i1) = true ∧ isSpaceB (rd s2 i2) = true
      · rw [if_pos hbs] at h
        by_cases hbt : (rd s1 i1 = 10 ∨ allSpToNl s1 (i1 + 1) = true) ∧
            (rd s2 i2 = 10 ∨ allSpToNl s2 (i2 + 1) = true)
        · intro tb cb
          have e1 : hcGo cfg s1 i1 tb cb = [] := by
            by_cases h10 : rd s1 i1 = 10
            · exact hc_nl tb cb h10
            · exact hc2_trailing tb cb h2 h10 hbs.1
                ((allSp_iff_scanNS _ _).mp (hbt.1.resolve_left h10))
          have e2 : hcGo cfg s2 i2 tb cb = [] := by
            by_cases h10 : rd s2 i2 = 10
            · exact hc_nl tb cb h10
            · exact hc2_trailing tb cb h2 h10 hbs.2
                ((allSp_iff_scanNS _ _).mp (hbt.2.resolve_left h10))
          rw [e1, e2]
        · rw [if_neg hbt, if_pos (fold_ne_of_sp_ne cfg.igcase hbs.1 hbs.2 hcc)] at h
          exact Bool.noConfusion h
      · rw [if_neg hbs, if_pos h2] at h
        by_cases hf : foldCase cfg.igcase (rd s1 i1) ≠ foldCase cfg.igcase (rd s2 i2)
        · rw [if_pos hf] at h
          exact Bool.noConfusion h
        · rw [if_neg hf] at h
          push_neg at hf
          by_cases h10 : rd s1 i1 = 10
          · have hb : rd s2 i2 = 10 := foldCase_eq_ten (by rw [← hf, h10, foldCase_ten])
            intro tb cb
            rw [hc_nl tb cb h10, hc_nl tb cb hb]
          · rw [if_neg h10] at h
            have hre : ldGo cfg s1 s2 fuel (i1 + 1) (i2 + 1)
                (bState cfg.tabsize (rd s1 i1) t col).1
                (bState cfg.tabsize (rd s1 i1) t col).2 = false := h
            have h' := ih _ _ _ _ hre
            have h102 : rd s2 i2 ≠ 10 :=
              fun hx => h10 (foldCase_eq_ten (by rw [hf, hx, foldCase_ten]))
            have hspe := sp_fold_eq hf
            have hsp1f : isSpaceB (rd s1 i1) = false := by
              rcases Bool.eq_false_or_eq_true (isSpaceB (rd s1 i1)) with hx | hx
              · exact absurd ⟨hx, hspe ▸ hx⟩ hbs
              · exact hx
            have hsp2f : isSpaceB (rd s2 i2) = false := hspe ▸ hsp1f
            intro tb cb
            rw [hc2_step tb cb h2 h10 (fun hx => Bool.noConfusion (hsp1f ▸ hx.1)),
              hc2_step tb cb h2 h102 (fun hx => Bool.noConfusion (hsp2f ▸ hx.1)),
              hf, h' tb cb]

/-- Mode -E -Z: lines_differ false implies equal hash streams. -/
theorem ld3_main (cfg : HashCfg) (s1 s2 : List Nat)
    (h3 : cfg.iws = IGNORE_TAB_EXPANSION_AND_TRAILING_SPACE) :
    ∀ fuel i1 i2 t col, ldGo cfg s1 s2 fuel i1 i2 t col = false →
      ∀ tb cb, hcGo cfg s1 i1 tb cb = hcGo cfg s2 i2 tb cb := by
  have hne5 : cfg.iws ≠ IGNORE_ALL_SPACE := by rw [h3]; decide
  have hne4 : cfg.iws ≠ IGNORE_SPACE_CHANGE := by rw [h3]; decide
  intro fuel
  induction fuel with
  | zero =>
    intro i1 i2 t col h
    rw [ldGo] at h
    exact Bool.noConfusion h
  | succ fuel ih =>
    intro i1 i2 t col h
    rw [ldGo] at h
    by_cases hcc : rd s1 i1 = rd s2 i2
    · rw [if_pos hcc] at h
      by_cases h10 : rd s1 i1 = 10
      · intro tb cb
        rw [hc_nl tb cb h10, hc_nl tb cb (hcc ▸ h10)]
      · rw [if_neg h10] at h
        have hre : ldGo cfg s1 s2 fuel (i1 + 1) (i2 + 1)
            (bState cfg.tabsize (rd s1 i1) t col).1
            (bState cfg.tabsize (rd s1 i1) t col).2 = false := h
        have h' := ih _ _ _ _ hre
        have h102 : rd s2 i2 ≠ 10 := hcc ▸ h10
        have charbash : (¬ (isSpaceB (rd s1 i1) = true ∧ (scanNS s1 (i1 + 1)).isNone = true)) →
            (¬ (isSpaceB (rd s2 i2) = true ∧ (scanNS s2 (i2 + 1)).isNone = true)) →
            ∀ tb cb, hcGo cfg s1 i1 tb cb = hcGo cfg s2 i2 tb cb := by
          intro hn1 hn2 tb cb
          rw [hc3_unfold tb cb h3 h10 hn1, hc3_unfold tb cb h3 h102 hn2, hcc]
          by_cases h8 : rd s2 i2 = 8
          · rw [if_pos h8, if_pos h8]
            congr 1
            by_cases hc0 : 0 < cb
            · rw [if_pos hc0, if_pos hc0]
              exact h' tb (cb - 1)
            · rw [if_neg hc0, if_neg hc0]
              by_cases ht0 : 0 < tb
              · rw [if_pos ht0, if_pos ht0]
                exact h' (tb - 1) (cfg.tabsize - 1)
              · rw [if_neg ht0, if_neg ht0]
                exact h' tb cb
          · by_cases h9 : rd s2 i2 = 9
            · rw [if_neg h8, if_neg h8, if_pos h9, if_pos h9,
                h' (tb + cb / cfg.tabsize + 1) 0]
            · by_cases h13 : rd s2 i2 = 13
              · rw [if_neg h8, if_neg h8, if_neg h9, if_neg h9, if_pos h13, if_pos h13,
                  h' 0 0]
              · by_cases hsc : rd s2 i2 = 0 ∨ rd s2 i2 = 7 ∨ rd s2 i2 = 12 ∨ rd s2 i2 = 11
                · rw [if_neg h8, if_neg h8, if_neg h9, if_neg h9, if_neg h13, if_neg h13,
                    if_pos hsc, if_pos hsc, h' tb cb]
                · rw [if_neg h8, if_neg h8, if_neg h9, if_neg h9, if_neg h13, if_neg h13,
                    if_neg hsc, if_neg hsc, h' tb (cb + 1)]
        by_cases hsp : isSpaceB (rd s1 i1) = true
        · by_cases htr1 : scanNS s1 (i1 + 1) = none <;>
            by_cases htr2 : scanNS s2 (i2 + 1) = none
          · intro tb cb
            rw [hc3_trailing tb cb h3 h10 hsp htr1,
              hc3_trailing tb cb h3 h102 (hcc ▸ hsp) htr2]
          · have t1 : allSpToNl s1 (i1 + 1) = true := (allSp_iff_scanNS _ _).mpr htr1
            have t2 : allSpToNl s2 (i2 + 1) = false :=
              Bool.eq_false_iff.mpr (fun hx => htr2 ((allSp_iff_scanNS _ _).mp hx))
            have htr := ld23_tr cfg s1 s2 (Or.inr h3) fuel (i1 + 1) (i2 + 1)
              (bState cfg.tabsize (rd s1 i1) t col).1
              (bState cfg.tabsize (rd s1 i1) t col).2 (Or.inl ⟨t1, t2⟩)
            exact Bool.noConfusion (hre.symm.trans htr)
          · have t1 : allSpToNl s1 (i1 + 1) = false :=
              Bool.eq_false_iff.mpr (fun hx => htr1 ((allSp_iff_scanNS _ _).mp hx))
            have t2 : allSpToNl s2 (i2 + 1) = true := (allSp_iff_scanNS _ _).mpr htr2
            have htr := ld23_tr cfg s1 s2 (Or.inr h3) fuel (i1 + 1) (i2 + 1)
              (bState cfg.tabsize (rd s1 i1) t col).1
              (bState cfg.tabsize (rd s1 i1) t col).2 (Or.inr ⟨t1, t2⟩)
            exact Bool.noConfusion (hre.symm.trans htr)
          · exact charbash (fun hx => htr1 (Option.isNone_iff_eq_none.mp hx.2))
              (fun hx => htr2 (Option.isNone_iff_eq_none.mp hx.2))
        · have hsp1f : isSpaceB (rd s1 i1) = false := Bool.eq_false_iff.mpr hsp
          have hsp2f : isSpaceB (rd s2 i2) = false := hcc ▸ hsp1f
          exact charbash (fun hx => Bool.noConfusion (hsp1f ▸ hx.1))
            (fun hx => Bool.noConfusion (hsp2f ▸ hx.1))
    · rw [if_neg hcc, if_neg hne5, if_neg hne4, if_pos (Or.inr h3)] at h
      by_cases hbs : isSpaceB (rd s1 i1) = true ∧ isSpaceB (rd s2 i2) = true
      · rw [if_pos hbs] at h
        by_cases hbt : (rd s1 i1 = 10 ∨ allSpToNl s1 (i1 + 1) = true) ∧
            (rd s2 i2 = 10 ∨ allSpToNl s2 (i2 + 1) = true)
        · intro tb cb
          have e1 : hcGo cfg s1 i1 tb cb = [] := by
            by_cases h10 : rd s1 i1 = 10
            · exact hc_nl tb cb h10
            · exact hc3_trailing tb cb h3 h10 hbs.1
                ((allSp_iff_scanNS _ _).mp (hbt.1.resolve_left h10))
          have e2 : hcGo cfg s2 i2 tb cb = [] := by
            by_cases h10 : rd s2 i2 = 10
            · exact hc_nl tb cb h10
            · exact hc3_trailing tb cb h3 h10 hbs.2
                ((allSp_iff_scanNS _ _).mp (hbt.2.resolve_left h10))
          rw [e1, e2]
        · rw [if_neg hbt, if_pos (fold_ne_of_sp_ne cfg.igcase hbs.1 hbs.2 hcc)] at h
          exact Bool.noConfusion h
      · rw [if_neg hbs, if_neg (by rw [h3]; decide)] at h
        have hntab : ¬ ((rd s1 i1 = 32 ∧ rd s2 i2 = 9) ∨
            (rd s1 i1 = 9 ∧ rd s2 i2 = 32)) := by
          rintro (⟨ha, hb⟩ | ⟨ha, hb⟩) <;>
            exact hbs ⟨by rw [ha]; decide, by rw [hb]; decide⟩
        rw [if_neg hntab] at h
        by_cases hf : foldCase cfg.igcase (rd s1 i1) ≠ foldCase cfg.igcase (rd s2 i2)
        · rw [if_pos hf] at h
          exact Bool.noConfusion h
        · rw [if_neg hf] at h
          push_neg at hf
          by_cases h10 : rd s1 i1 = 10
          · have hb : rd s2 i2 = 10 := foldCase_eq_ten (by rw [← hf, h10, foldCase_ten])
            intro tb cb
            rw [hc_nl tb cb h10, hc_nl tb cb hb]
          · rw [if_neg h10] at h
            have hre : ldGo cfg s1 s2 fuel (i1 + 1) (i2 + 1)
                (bState cfg.tabsize (rd s1 i1) t col).1
                (bState cfg.tabsize (rd s1 i1) t col).2 = false := h
            have h' := ih _ _ _ _ hre
            have h102 : rd s2 i2 ≠ 10 :=
              fun hx => h10 (foldCase_eq_ten (by rw [hf, hx, foldCase_ten]))
            obtain ⟨hb1, hb2, hb3, hb4⟩ := foldCase_ne_pair hf hcc
            have hsp1f : isSpaceB (rd s1 i1) = false := by
              rw [Bool.eq_false_iff]
              intro hx
              have := isSpaceB_iff.mp hx
              omega
            have hsp2f : isSpaceB (rd s2 i2) = false := by
              rw [Bool.eq_false_iff]
              intro hx
              have := isSpaceB_iff.mp hx
              omega
            intro tb cb
            rw [hc3_unfold tb cb h3 h10 (fun hx => Bool.noConfusion (hsp1f ▸ hx.1)),
              hc3_unfold tb cb h3 h102 (fun hx => Bool.noConfusion (hsp2f ▸ hx.1)),
              if_neg (show ¬ rd s1 i1 = 8 by omega),
              if_neg (show ¬ rd s1 i1 = 9 by omega),
              if_neg (show ¬ rd s1 i1 = 13 by omega),
              if_neg (show ¬ (rd s1 i1 = 0 ∨ rd s1 i1 = 7 ∨ rd s1 i1 = 12 ∨ rd s1 i1 = 11)
                by omega),
              if_neg (show ¬ rd s2 i2 = 8 by omega),
              if_neg (show ¬ rd s2 i2 = 9 by omega),
              if_neg (show ¬ rd s2 i2 = 13 by omega),
              if_neg (show ¬ (rd s2 i2 = 0 ∨ rd s2 i2 = 7 ∨ rd s2 i2 = 12 ∨ rd s2 i2 = 11)
                by omega),
              hf, h' tb (cb + 1)]

/-- -b hashing emits the folded character at a non-space. -/
theorem hc4_nonspace {cfg : HashCfg} {s : List Nat} {i : Nat} (t col : Nat)
    (h4 : cfg.iws = IGNORE_SPACE_CHANGE) (hns : isSpaceB (rd s i) = false) :
    hcGo cfg s i t col = foldCase cfg.igcase (rd s i) :: hcGo cfg s (i + 1) t col := by
  have h10 : rd s i ≠ 10 := fun hx => by rw [hx] at hns; exact Bool.noConfusion hns
  rw [hcGo, dif_neg h10, h4, if_neg (by decide), if_pos rfl,
    if_neg (by rw [hns]; exact Bool.false_ne_true)]

/-- -b hashing drops a white-space run that reaches the newline. -/
theorem hc4_space_none {cfg : HashCfg} {s : List Nat} {i : Nat} (t col : Nat)
    (h4 : cfg.iws = IGNORE_SPACE_CHANGE) (h10 : rd s i ≠ 10)
    (hsp : isSpaceB (rd s i) = true) (hscan : scanNS s (i + 1) = none) :
    hcGo cfg s i t col = [] := by
  rw [hcGo, dif_neg h10, h4, if_neg (by decide), if_pos rfl, if_pos hsp]
  split
  · rfl
  · next j hj =>
    rw [hscan] at hj
    exact Option.noConfusion hj

/-- -b hashing turns an interior white-space run into one space. -/
theorem hc4_space_some {cfg : HashCfg} {s : List Nat} {i : Nat} (t col : Nat)
    (h4 : cfg.iws = IGNORE_SPACE_CHANGE) (h10 : rd s i ≠ 10)
    (hsp : isSpaceB (rd s i) = true) {j : Nat} (hscan : scanNS s (i + 1) = some j) :
    hcGo cfg s i t col =
      32 :: foldCase cfg.igcase (rd s j) :: hcGo cfg s (j + 1) t col := by
  rw [hcGo, dif_neg h10, h4, if_neg (by decide), if_pos rfl, if_pos hsp]
  split
  · next hj =>
    rw [hscan] at hj
    exact Option.noConfusion hj
  · next j2 hj =>
    rw [hscan] at hj
    injection hj with he
    subst he
    rfl

/-- Inside a white-space run the -b stream is unchanged by one step. -/
theorem hc4_space_nextsp {cfg : HashCfg} {s : List Nat} {i : Nat} (t col : Nat)
    (h4 : cfg.iws = IGNORE_SPACE_CHANGE) (h10 : rd s i ≠ 10)
    (hsp : isSpaceB (rd s i) = true) (hnx : isSpaceB (rd s (i + 1)) = true) :
    hcGo cfg s i t col = hcGo cfg s (i + 1) t col := by
  by_cases h10x : rd s (i + 1) = 10
  · rw [hc4_space_none t col h4 h10 hsp (by rw [scanNS, if_pos h10x]), hc_nl t col h10x]
  · have hstep := scanNS_step hnx h10x
    cases hsc : scanNS s (i + 1 + 1) with
    | none =>
      rw [hc4_space_none t col h4 h10 hsp (hstep.trans hsc),
        hc4_space_none t col h4 h10x hnx hsc]
    | some j =>
      rw [hc4_space_some t col h4 h10 hsp (hstep.trans hsc),
        hc4_space_some t col h4 h10x hnx hsc]

/-- At the end of a white-space run the -b stream gains its single space. -/
theorem hc4_space_nextns {cfg : HashCfg} {s : List Nat} {i : Nat} (t col : Nat)
    (h4 : cfg.iws = IGNORE_SPACE_CHANGE) (h10 : rd s i ≠ 10)
    (hsp : isSpaceB (rd s i) = true) (hnx : isSpaceB (rd s (i + 1)) = false) :
    hcGo cfg s i t col = 32 :: hcGo cfg s (i + 1) t col := by
  have h10x : rd s (i + 1) ≠ 10 := fun hx => by rw [hx] at hnx; exact Bool.noConfusion hnx
  have hscan : scanNS s (i + 1) = some (i + 1) := by
    rw [scanNS, if_neg h10x, if_neg (by rw [hnx]; exact Bool.false_ne_true)]
  rw [hc4_space_some t col h4 h10 hsp hscan, hc4_nonspace t col h4 hnx]

/-- Shape of the -b stream at a non-space: nonempty with a non-space head. -/
theorem hc4_ns_shape {cfg : HashCfg} {s : List Nat} {i : Nat} (t col : Nat)
    (h4 : cfg.iws = IGNORE_SPACE_CHANGE) (hns : isSpaceB (rd s i) = false) :
    ∃ x tl, hcGo cfg s i t col = x :: tl ∧ isSpaceB x = false :=
  ⟨foldCase cfg.igcase (rd s i), hcGo cfg s (i + 1) t col, hc4_nonspace t col h4 hns,
    by rw [isSpaceB_foldCase]; exact hns⟩

/-- Shape of the -b stream at a white-space character: empty, or a single
space followed by a non-space. -/
theorem hc4_sp_shape {cfg : HashCfg} {s : List Nat} {i : Nat} (t col : Nat)
    (h4 : cfg.iws = IGNORE_SPACE_CHANGE) (hsp : isSpaceB (rd s i) = true) :
    hcGo cfg s i t col = [] ∨
      ∃ x tl, hcGo cfg s i t col = 32 :: x :: tl ∧ isSpaceB x = false := by
  by_cases h10 : rd s i = 10
  · exact Or.inl (hc_nl t col h10)
  · cases hsc : scanNS s (i + 1) with
    | none => exact Or.inl (hc4_space_none t col h4 h10 hsp hsc)
    | some j =>
      exact Or.inr ⟨foldCase cfg.igcase (rd s j), hcGo cfg s (j + 1) t col,
        hc4_space_some t col h4 h10 hsp hsc,
        by rw [isSpaceB_foldCase]; exact scanNS_nonspace hsc⟩

/-- bnorm at a non-space character. -/
theorem bnorm_ns {s : List Nat} {i : Nat} (hns : isSpaceB (rd s i) = false) :
    bnorm s i = (rd s i, i + 1) := by
  rw [bnorm, if_pos (by rw [hns]; exact Bool.false_ne_true)]

/-- bnorm at a white-space run that reaches the newline. -/
theorem bnorm_sp10 {s : List Nat} {i : Nat} (hsp : isSpaceB (rd s i) = true)
    (hj : rd s (findNS s i) = 10) : bnorm s i = (10, findNS s i + 1) := by
  rw [bnorm, if_neg (fun hx => hx hsp), if_pos hj]

/-- bnorm at a white-space run that stops at a non-space. -/
theorem bnorm_sp32 {s : List Nat} {i : Nat} (hsp : isSpaceB (rd s i) = true)
    (hj : rd s (findNS s i) ≠ 10) : bnorm s i = (32, findNS s i) := by
  rw [bnorm, if_neg (fun hx => hx hsp), if_neg hj]

/-- findNS stays put at a newline or non-space. -/
theorem findNS_id {s : List Nat} {i : Nat} (h : rd s i = 10 ∨ isSpaceB (rd s i) = false) :
    findNS s i = i := by
  rcases h with h | h
  · rw [findNS, if_neg (fun hx => hx.1 h)]
  · rw [findNS, if_neg (fun hx => by rw [h] at hx; exact Bool.noConfusion hx.2)]

/-- Mode -b: lines_differ false implies the two hash streams agree up to a
one-sided leading space whose run was already partly consumed. -/
theorem ld4_main (cfg : HashCfg) (s1 s2 : List Nat)
    (h4 : cfg.iws = IGNORE_SPACE_CHANGE) :
    ∀ fuel i1 i2 t col, ldGo cfg s1 s2 fuel i1 i2 t col = false →
      (hcGo cfg s1 i1 0 0 = hcGo cfg s2 i2 0 0 ∨
       (1 ≤ i1 ∧ isSpaceB (rd s1 (i1 - 1)) = true ∧
         hcGo cfg s2 i2 0 0 = 32 :: hcGo cfg s1 i1 0 0) ∨
       (1 ≤ i2 ∧ isSpaceB (rd s2 (i2 - 1)) = true ∧
         hcGo cfg s1 i1 0 0 = 32 :: hcGo cfg s2 i2 0 0)) := by
  have hne5 : cfg.iws ≠ IGNORE_ALL_SPACE := by rw [h4]; decide
  intro fuel
  induction fuel with
  | zero =>
    intro i1 i2 t col h
    rw [ldGo] at h
    exact Bool.noConfusion h
  | succ fuel ih =>
    intro i1 i2 t col h
    rw [ldGo] at h
    by_cases hcc : rd s1 i1 = rd s2 i2
    · rw [if_pos hcc] at h
      by_cases h10 : rd s1 i1 = 10
      · exact Or.inl (by rw [hc_nl 0 0 h10, hc_nl 0 0 (hcc ▸ h10)])
      · rw [if_neg h10] at h
        have hre : ldGo cfg s1 s2 fuel (i1 + 1) (i2 + 1)
            (bState cfg.tabsize (rd s1 i1) t col).1
            (bState cfg.tabsize (rd s1 i1) t col).2 = false := h
        have hQ := ih _ _ _ _ hre
        have h102 : rd s2 i2 ≠ 10 := hcc ▸ h10
        by_cases hsp : isSpaceB (rd s1 i1) = true
        · -- both sides at the same white-space character
          have hsp2 : isSpaceB (rd s2 i2) = true := hcc ▸ hsp
          by_cases hx1 : isSpaceB (rd s1 (i1 + 1)) = true <;>
            by_cases hx2 : isSpaceB (rd s2 (i2 + 1)) = true
          · -- next characters both white space
            have e1 := hc4_space_nextsp 0 0 h4 h10 hsp hx1
            have e2 := hc4_space_nextsp 0 0 h4 h102 hsp2 hx2
            rcases hQ with hq | ⟨hg, hsx, heq⟩ | ⟨hg, hsx, heq⟩
            · exact Or.inl (by rw [e1, e2, hq])
            · exfalso
              rcases hc4_sp_shape 0 0 h4 hx1 with hs1 | ⟨x, tl, hs1, hxns⟩ <;>
                rcases hc4_sp_shape 0 0 h4 hx2 with hs2 | ⟨y, tl2, hs2, hyns⟩
              · rw [hs1, hs2] at heq
                exact List.noConfusion heq
              · rw [hs1, hs2] at heq
                injection heq with hh1 hh2
                exact List.noConfusion hh2
              · rw [hs1, hs2] at heq
                exact List.noConfusion heq
              · rw [hs1, hs2] at heq
                injection heq with hh1 hh2
                injection hh2 with hh3 hh4
                rw [hh3] at hyns
                exact absurd hyns (by decide)
            · exfalso
              rcases hc4_sp_shape 0 0 h4 hx2 with hs2 | ⟨y, tl2, hs2, hyns⟩ <;>
                rcases hc4_sp_shape 0 0 h4 hx1 with hs1 | ⟨x, tl, hs1, hxns⟩
              · rw [hs1, hs2] at heq
                exact List.noConfusion heq
              · rw [hs1, hs2] at heq
                injection heq with hh1 hh2
                exact List.noConfusion hh2
              · rw [hs1, hs2] at heq
                exact List.noConfusion heq
              · rw [hs1, hs2] at heq
                injection heq with hh1 hh2
                injection hh2 with hh3 hh4
                rw [hh3] at hxns
                exact absurd hxns (by decide)
          · -- side 1 still in the run, side 2 at its end
            have hx2f : isSpaceB (rd s2 (i2 + 1)) = false := Bool.eq_false_iff.mpr hx2
            have e1 := hc4_space_nextsp 0 0 h4 h10 hsp hx1
            have e2 := hc4_space_nextns 0 0 h4 h102 hsp2 hx2f
            rcases hQ with hq | ⟨hg, hsx, heq⟩ | ⟨hg, hsx, heq⟩
            · exfalso
              obtain ⟨x, tl, hs2, hxns⟩ := hc4_ns_shape 0 0 h4 hx2f
              rcases hc4_sp_shape 0 0 h4 hx1 with hs1 | ⟨y, tl2, hs1, hyns⟩
              · rw [hs1, hs2] at hq
                exact List.noConfusion hq
              · rw [hs1, hs2] at hq
                injection hq with hh1 hh2
                rw [← hh1] at hxns
                exact absurd hxns (by decide)
            · exfalso
              obtain ⟨x, tl, hs2, hxns⟩ := hc4_ns_shape 0 0 h4 hx2f
              rw [hs2] at heq
              injection heq with hh1 hh2
              rw [hh1] at hxns
              exact absurd hxns (by decide)
            · exact Or.inl (by rw [e1, e2, heq])
          · -- side 1 at the end of the run, side 2 still in it
            have hx1f : isSpaceB (rd s1 (i1 + 1)) = false := Bool.eq_false_iff.mpr hx1
            have e1 := hc4_space_nextns 0 0 h4 h10 hsp hx1f
            have e2 := hc4_space_nextsp 0 0 h4 h102 hsp2 hx2
            rcases hQ with hq | ⟨hg, hsx, heq⟩ | ⟨hg, hsx, heq⟩
            · exfalso
              obtain ⟨x, tl, hs1, hxns⟩ := hc4_ns_shape 0 0 h4 hx1f
              rcases hc4_sp_shape 0 0 h4 hx2 with hs2 | ⟨y, tl2, hs2, hyns⟩
              · rw [hs1, hs2] at hq
                exact List.noConfusion hq
              · rw [hs1, hs2] at hq
                injection hq with hh1 hh2
                rw [hh1] at hxns
                exact absurd hxns (by decide)
            · exact Or.inl (by rw [e1, e2, heq])
            · exfalso
              obtain ⟨x, tl, hs1, hxns⟩ := hc4_ns_shape 0 0 h4 hx1f
              rw [hs1] at heq
              injection heq with hh1 hh2
              rw [hh1] at hxns
              exact absurd hxns (by decide)
          · -- next characters both non-space
            have hx1f : isSpaceB (rd s1 (i1 + 1)) = false := Bool.eq_false_iff.mpr hx1
            have hx2f : isSpaceB (rd s2 (i2 + 1)) = false := Bool.eq_false_iff.mpr hx2
            have e1 := hc4_space_nextns 0 0 h4 h10 hsp hx1f
            have e2 := hc4_space_nextns 0 0 h4 h102 hsp2 hx2f
            rcases hQ with hq | ⟨hg, hsx, heq⟩ | ⟨hg, hsx, heq⟩
            · exact Or.inl (by rw [e1, e2, hq])
            · exfalso
              obtain ⟨x, tl, hs2, hxns⟩ := hc4_ns_shape 0 0 h4 hx2f
              rw [hs2] at heq
              injection heq with hh1 hh2
              rw [hh1] at hxns
              exact absurd hxns (by decide)
            · exfalso
              obtain ⟨x, tl, hs1, hxns⟩ := hc4_ns_shape 0 0 h4 hx1f
              rw [hs1] at heq
              injection heq with hh1 hh2
              rw [hh1] at hxns
              exact absurd hxns (by decide)
        · -- both sides at the same non-space character
          have hsp1f : isSpaceB (rd s1 i1) = false := Bool.eq_false_iff.mpr hsp
          have hsp2f : isSpaceB (rd s2 i2) = false := hcc ▸ hsp1f
          rcases hQ with hq | ⟨hg, hsx, heq⟩ | ⟨hg, hsx, heq⟩
          · exact Or.inl
              (by rw [hc4_nonspace 0 0 h4 hsp1f, hc4_nonspace 0 0 h4 hsp2f, hcc, hq])
          · exfalso
            rw [Nat.add_sub_cancel] at hsx
            exact Bool.noConfusion (hsp1f ▸ hsx)
          · exfalso
            rw [Nat.add_sub_cancel] at hsx
            exact Bool.noConfusion (hsp2f ▸ hsx)
    · -- the characters differ: the -b normalization branch
      rw [if_neg hcc, if_neg hne5, if_pos h4] at h
      by_cases hsp1 : isSpaceB (rd s1 i1) = true <;>
        by_cases hsp2 : isSpaceB (rd s2 i2) = true
      · -- both white space
        by_cases hj1 : rd s1 (findNS s1 i1) = 10 <;>
          by_cases hj2 : rd s2 (findNS s2 i2) = 10
        · -- both runs reach the newline: both streams empty
          have e1 := bnorm_sp10 hsp1 hj1
          have e2 := bnorm_sp10 hsp2 hj2
          simp only [e1, e2] at h
          have e1' : hcGo cfg s1 i1 0 0 = [] := by
            by_cases h10c : rd s1 i1 = 10
            · exact hc_nl 0 0 h10c
            · exact hc4_space_none 0 0 h4 h10c hsp1
                ((scanNS_step hsp1 h10c).symm.trans
                  ((scanNS_eq_findNS s1 i1).trans (if_pos hj1)))
          have e2' : hcGo cfg s2 i2 0 0 = [] := by
            by_cases h10c : rd s2 i2 = 10
            · exact hc_nl 0 0 h10c
            · exact hc4_space_none 0 0 h4 h10c hsp2
                ((scanNS_step hsp2 h10c).symm.trans
                  ((scanNS_eq_findNS s2 i2).trans (if_pos hj2)))
          exact Or.inl (by rw [e1', e2'])
        · -- run 1 reaches the newline, run 2 does not: lines differ
          have e1 := bnorm_sp10 hsp1 hj1
          have e2 := bnorm_sp32 hsp2 hj2
          simp only [e1, e2] at h
          split at h
          · next hA => exfalso; simp at hA
          · split at h
            · next hB => exfalso; simp at hB
            · split at h
              · exact Bool.noConfusion h
              · next hC =>
                exfalso
                exact hC (by rw [foldCase_ten, foldCase_space _ (by decide)]; decide)
        · -- run 2 reaches the newline, run 1 does not: lines differ
          have e1 := bnorm_sp32 hsp1 hj1
          have e2 := bnorm_sp10 hsp2 hj2
          simp only [e1, e2] at h
          split at h
          · next hA => exfalso; simp at hA
          · split at h
            · next hB => exfalso; simp at hB
            · split at h
              · exact Bool.noConfusion h
              · next hC =>
                exfalso
                exact hC (by rw [foldCase_ten, foldCase_space _ (by decide)]; decide)
        · -- both runs end at a non-space: both streams gain one space
          have e1 := bnorm_sp32 hsp1 hj1
          have e2 := bnorm_sp32 hsp2 hj2
          simp only [e1, e2] at h
          have h10c1 : rd s1 i1 ≠ 10 := fun hx => hj1 (by rw [findNS_id (Or.inl hx)]; exact hx)
          have h10c2 : rd s2 i2 ≠ 10 := fun hx => hj2 (by rw [findNS_id (Or.inl hx)]; exact hx)
          have hj1ns : isSpaceB (rd s1 (findNS s1 i1)) = false :=
            (findNS_stop s1 i1).resolve_left hj1
          have hj2ns : isSpaceB (rd s2 (findNS s2 i2)) = false :=
            (findNS_stop s2 i2).resolve_left hj2
          have e1' : hcGo cfg s1 i1 0 0 = 32 :: hcGo cfg s1 (findNS s1 i1) 0 0 := by
            rw [hc4_space_some 0 0 h4 h10c1 hsp1
                ((scanNS_step hsp1 h10c1).symm.trans
                  ((scanNS_eq_findNS s1 i1).trans (if_neg hj1))),
              hc4_nonspace 0 0 h4 hj1ns]
          have e2' : hcGo cfg s2 i2 0 0 = 32 :: hcGo cfg s2 (findNS s2 i2) 0 0 := by
            rw [hc4_space_some 0 0 h4 h10c2 hsp2
                ((scanNS_step hsp2 h10c2).symm.trans
                  ((scanNS_eq_findNS s2 i2).trans (if_neg hj2))),
              hc4_nonspace 0 0 h4 hj2ns]
          split at h
          · next hA => exfalso; simp at hA
          · split at h
            · next hB => exfalso; simp at hB
            · split at h
              · exact Bool.noConfusion h
              · split at h
                · next hD => exact absurd hD (by decide)
                · have hQ := ih _ _ _ _ h
                  rcases hQ with hq | ⟨hg, hsx, heq⟩ | ⟨hg, hsx, heq⟩
                  · exact Or.inl (by rw [e1', e2', hq])
                  · exfalso
                    obtain ⟨x, tl, hs, hxns⟩ := hc4_ns_shape 0 0 h4 hj2ns
                    rw [hs] at heq
                    injection heq with hh1 hh2
                    rw [hh1] at hxns
                    exact absurd hxns (by decide)
                  · exfalso
                    obtain ⟨x, tl, hs, hxns⟩ := hc4_ns_shape 0 0 h4 hj1ns
                    rw [hs] at heq
                    injection heq with hh1 hh2
                    rw [hh1] at hxns
                    exact absurd hxns (by decide)
      · -- side 1 white space, side 2 not
        have hsp2f : isSpaceB (rd s2 i2) = false := Bool.eq_false_iff.mpr hsp2
        have hc232 : rd s2 i2 ≠ 32 :=
          fun hx => by rw [hx] at hsp2f; exact absurd hsp2f (by decide)
        have e2 := bnorm_ns hsp2f
        by_cases hj1 : rd s1 (findNS s1 i1) = 10
        · -- run 1 reaches the newline: lines differ
          have e1 := bnorm_sp10 hsp1 hj1
          simp only [e1, e2] at h
          split at h
          · next hA => exact absurd hA.2.1 hc232
          · split at h
            · next hB => exfalso; simp at hB
            · split at h
              · exact Bool.noConfusion h
              · next hC =>
                exfalso
                have hfe := not_ne_iff.mp hC
                rw [foldCase_ten] at hfe
                have hc210 : rd s2 i2 = 10 := foldCase_eq_ten hfe.symm
                rw [hc210] at hsp2f
                exact absurd hsp2f (by decide)
        · -- run 1 ends at a non-space: the backtrack that realigns side 2
          have e1 := bnorm_sp32 hsp1 hj1
          simp only [e1, e2] at h
          have h10c1 : rd s1 i1 ≠ 10 := fun hx => hj1 (by rw [findNS_id (Or.inl hx)]; exact hx)
          have hj1ns : isSpaceB (rd s1 (findNS s1 i1)) = false :=
            (findNS_stop s1 i1).resolve_left hj1
          have e1' : hcGo cfg s1 i1 0 0 = 32 :: hcGo cfg s1 (findNS s1 i1) 0 0 := by
            rw [hc4_space_some 0 0 h4 h10c1 hsp1
                ((scanNS_step hsp1 h10c1).symm.trans
                  ((scanNS_eq_findNS s1 i1).trans (if_neg hj1))),
              hc4_nonspace 0 0 h4 hj1ns]
          split at h
          · next hA => exact absurd hA.2.1 hc232
          · split at h
            · next hB =>
              -- backtrack B: side 2 rereads its character against the run
              have h' : ldGo cfg s1 s2 fuel (findNS s1 i1) i2 t col = false := h
              have hQ := ih _ _ _ _ h'
              rcases hQ with hq | ⟨hg, hsx, heq⟩ | ⟨hg, hsx, heq⟩
              · refine Or.inr (Or.inr ⟨?_, ?_, ?_⟩)
                · have := hB.2.2.2.1
                  omega
                · exact hB.2.2.2.2
                · rw [e1', hq]
              · exfalso
                obtain ⟨x, tl, hs, hxns⟩ := hc4_ns_shape 0 0 h4 hsp2f
                rw [hs] at heq
                injection heq with hh1 hh2
                rw [hh1] at hxns
                exact absurd hxns (by decide)
              · exfalso
                obtain ⟨x, tl, hs, hxns⟩ := hc4_ns_shape 0 0 h4 hj1ns
                rw [hs] at heq
                injection heq with hh1 hh2
                rw [hh1] at hxns
                exact absurd hxns (by decide)
            · split at h
              · exact Bool.noConfusion h
              · next hC =>
                exfalso
                have hfe := not_ne_iff.mp hC
                rw [foldCase_space _ (by decide : isSpaceB 32 = true)] at hfe
                exact hc232 (foldCase_eq_32 hfe.symm)
      · -- side 1 non-space, side 2 white space
        have hsp1f : isSpaceB (rd s1 i1) = false := Bool.eq_false_iff.mpr hsp1
        have hc132 : rd s1 i1 ≠ 32 :=
          fun hx => by rw [hx] at hsp1f; exact absurd hsp1f (by decide)
        have h10c1 : rd s1 i1 ≠ 10 :=
          fun hx => by rw [hx] at hsp1f; exact absurd hsp1f (by decide)
        have e1 := bnorm_ns hsp1f
        by_cases hj2 : rd s2 (findNS s2 i2) = 10
        · -- run 2 reaches the newline: lines differ
          have e2 := bnorm_sp10 hsp2 hj2
          simp only [e1, e2] at h
          split at h
          · next hA => exfalso; simp at hA
          · split at h
            · next hB => exfalso; simp at hB
            · split at h
              · exact Bool.noConfusion h
              · next hC =>
                exfalso
                have hfe := not_ne_iff.mp hC
                rw [foldCase_ten] at hfe
                exact h10c1 (foldCase_eq_ten hfe)
        · -- run 2 ends at a non-space: the backtrack that realigns side 1
          have e2 := bnorm_sp32 hsp2 hj2
          simp only [e1, e2] at h
          have h10c2 : rd s2 i2 ≠ 10 := fun hx => hj2 (by rw [findNS_id (Or.inl hx)]; exact hx)
          have hj2ns : isSpaceB (rd s2 (findNS s2 i2)) = false :=
            (findNS_stop s2 i2).resolve_left hj2
          have e2' : hcGo cfg s2 i2 0 0 = 32 :: hcGo cfg s2 (findNS s2 i2) 0 0 := by
            rw [hc4_space_some 0 0 h4 h10c2 hsp2
                ((scanNS_step hsp2 h10c2).symm.trans
                  ((scanNS_eq_findNS s2 i2).trans (if_neg hj2))),
              hc4_nonspace 0 0 h4 hj2ns]
          split at h
          · next hA =>
            -- backtrack A: side 1 rereads its character against the run
            have h' : ldGo cfg s1 s2 fuel i1 (findNS s2 i2) t col = false := h
            have hQ := ih _ _ _ _ h'
            rcases hQ with hq | ⟨hg, hsx, heq⟩ | ⟨hg, hsx, heq⟩
            · refine Or.inr (Or.inl ⟨?_, ?_, ?_⟩)
              · have := hA.2.2.2.1
                omega
              · exact hA.2.2.2.2
              · rw [e2', hq]
            · exfalso
              obtain ⟨x, tl, hs, hxns⟩ := hc4_ns_shape 0 0 h4 hj2ns
              rw [hs] at heq
              injection heq with hh1 hh2
              rw [hh1] at hxns
              exact absurd hxns (by decide)
            · exfalso
              obtain ⟨x, tl, hs, hxns⟩ := hc4_ns_shape 0 0 h4 hsp1f
              rw [hs] at heq
              injection heq with hh1 hh2
              rw [hh1] at hxns
              exact absurd hxns (by decide)
          · split at h
            · next hB => exact absurd hB.2.1 hc132
            · split at h
              · exact Bool.noConfusion h
              · next hC =>
                exfalso
                have hfe := not_ne_iff.mp hC
                rw [foldCase_space _ (by decide : isSpaceB 32 = true)] at hfe
                exact hc132 (foldCase_eq_32 hfe)
      · -- both non-space
        have hsp1f : isSpaceB (rd s1 i1) = false := Bool.eq_false_iff.mpr hsp1
        have hsp2f : isSpaceB (rd s2 i2) = false := Bool.eq_false_iff.mpr hsp2
        have h10c1 : rd s1 i1 ≠ 10 :=
          fun hx => by rw [hx] at hsp1f; exact absurd hsp1f (by decide)
        have hc232 : rd s2 i2 ≠ 32 :=
          fun hx => by rw [hx] at hsp2f; exact absurd hsp2f (by decide)
        have hc132 : rd s1 i1 ≠ 32 :=
          fun hx => by rw [hx] at hsp1f; exact absurd hsp1f (by decide)
        have e1 := bnorm_ns hsp1f
        have e2 := bnorm_ns hsp2f
        simp only [e1, e2] at h
        split at h
        · next hA => exact absurd hA.2.1 hc232
        · split at h
          · next hB => exact absurd hB.2.1 hc132
          · split at h
            · exact Bool.noConfusion h
            · next hC =>
              have hfe := not_ne_iff.mp hC
              have hre : ldGo cfg s1 s2 fuel (i1 + 1) (i2 + 1)
                  (bState cfg.tabsize (rd s1 i1) t col).1
                  (bState cfg.tabsize (rd s1 i1) t col).2 = false := h
              have hQ := ih _ _ _ _ hre
              rcases hQ with hq | ⟨hg, hsx, heq⟩ | ⟨hg, hsx, heq⟩
              · exact Or.inl (by
                  rw [hc4_nonspace 0 0 h4 hsp1f, hc4_nonspace 0 0 h4 hsp2f, hfe, hq])
              · exfalso
                rw [Nat.add_sub_cancel] at hsx
                exact Bool.noConfusion (hsp1f ▸ hsx)
              · exfalso
                rw [Nat.add_sub_cancel] at hsx
                exact Bool.noConfusion (hsp2f ▸ hsx)

/-- C1 counterexample: with ignore_white_space = IGNORE_TAB_EXPANSION (-E alone),
tabsize 8, the lines "\x01\t z" and "\x01<8 spaces>z" are declared equal by
lines_differ, yet their hash values differ. -/
theorem C1_counterexample :
    lines_differ { iws := IGNORE_TAB_EXPANSION, igcase := false, tabsize := 8 }
      [1, 9, 122] [1, 32, 32, 32, 32, 32, 32, 32, 32, 122] = false ∧
    line_hash { iws := IGNORE_TAB_EXPANSION, igcase := false, tabsize := 8 }
      [1, 9, 122] ≠
    line_hash { iws := IGNORE_TAB_EXPANSION, igcase := false, tabsize := 8 }
      [1, 32, 32, 32, 32, 32, 32, 32, 32, 122] := by
  constructor
  · simp [lines_differ, ldGo, rd, bState, tabRunP, isSpaceB, isPrintB, foldCase,
      lowerB, bnorm, skipW, findNS, allSpToNl, scanNS, IGNORE_TAB_EXPANSION,
      IGNORE_ALL_SPACE, IGNORE_SPACE_CHANGE, IGNORE_TRAILING_SPACE,
      IGNORE_TAB_EXPANSION_AND_TRAILING_SPACE]
  · simp [line_hash, hashedChars, hcGo, scanNS, rd, foldCase, lowerB, isSpaceB,
      hash1, rol7, IGNORE_TAB_EXPANSION, IGNORE_ALL_SPACE, IGNORE_SPACE_CHANGE,
      IGNORE_TRAILING_SPACE, IGNORE_TAB_EXPANSION_AND_TRAILING_SPACE]

/-- C1 (amended): for every configuration whose ignore_white_space is a valid
mode other than IGNORE_TAB_EXPANSION, two lines that lines_differ declares
equal feed identical character sequences to the rolling hash, hence get the
same hash value and the same bucket for any bucket count. -/
theorem C1_equiv_lines_same_hash (cfg : HashCfg) (s1 s2 : List Nat)
    (hle : cfg.iws ≤ 5) (hnot : cfg.iws ≠ IGNORE_TAB_EXPANSION)
    (h : lines_differ cfg s1 s2 = false) :
    hashedChars cfg s1 = hashedChars cfg s2 ∧
    line_hash cfg s1 = line_hash cfg s2 ∧
    ∀ nbuckets : Nat, line_hash cfg s1 % nbuckets = line_hash cfg s2 % nbuckets := by
  have hstream : hashedChars cfg s1 = hashedChars cfg s2 := by
    rw [lines_differ] at h
    have hn1 : cfg.iws ≠ 1 := hnot
    have hcase : cfg.iws = 0 ∨ cfg.iws = 2 ∨ cfg.iws = 3 ∨ cfg.iws = 4 ∨
        cfg.iws = 5 := by omega
    rw [hashedChars, hashedChars]
    rcases hcase with h0 | h2 | h3 | h4 | h5
    · exact ld0_main cfg s1 s2 (by rw [h0]; decide) (by rw [h0]; decide)
        (by rw [h0]; decide) (by rw [h0]; decide) _ _ _ _ _ h
    · exact ld2_main cfg s1 s2 h2 _ _ _ _ _ h 0 0
    · exact ld3_main cfg s1 s2 h3 _ _ _ _ _ h 0 0
    · rcases ld4_main cfg s1 s2 h4 _ _ _ _ _ h with hq | ⟨hg, -, -⟩ | ⟨hg, -, -⟩
      · exact hq
      · exact absurd hg (by decide)
      · exact absurd hg (by decide)
    · exact ld5_main cfg s1 s2 h5 _ _ _ _ _ h
  have hl : line_hash cfg s1 = line_hash cfg s2 := by
    rw [line_hash, line_hash, hstream]
  exact ⟨hstream, hl, fun nb => by rw [hl]⟩

theorem C1_equiv_lines_same_hash_witness :
    (({ iws := IGNORE_SPACE_CHANGE, igcase := false, tabsize := 8 } : HashCfg).iws ≤ 5 ∧
     ({ iws := IGNORE_SPACE_CHANGE, igcase := false, tabsize := 8 } : HashCfg).iws ≠
       IGNORE_TAB_EXPANSION ∧
     lines_differ { iws := IGNORE_SPACE_CHANGE, igcase := false, tabsize := 8 }
       [97, 32, 32, 98] [97, 32, 98] = false) ∧
    line_hash { iws := IGNORE_SPACE_CHANGE, igcase := false, tabsize := 8 }
      [97, 32, 32, 98] =
    line_hash { iws := IGNORE_SPACE_CHANGE, igcase := false, tabsize := 8 }
      [97, 32, 98] :=
  ⟨⟨by decide, by decide, by
      simp [lines_differ, ldGo, rd, bState, tabRunP, isSpaceB, isPrintB, foldCase,
        lowerB, bnorm, skipW, findNS, allSpToNl, scanNS, IGNORE_TAB_EXPANSION,
        IGNORE_ALL_SPACE, IGNORE_SPACE_CHANGE, IGNORE_TRAILING_SPACE,
        IGNORE_TAB_EXPANSION_AND_TRAILING_SPACE]⟩,
   (C1_equiv_lines_same_hash
      { iws := IGNORE_SPACE_CHANGE, igcase := false, tabsize := 8 }
      [97, 32, 32, 98] [97, 32, 98] (by decide) (by decide) (by
      simp [lines_differ, ldGo, rd, bState, tabRunP, isSpaceB, isPrintB, foldCase,
        lowerB, bnorm, skipW, findNS, allSpToNl, scanNS, IGNORE_TAB_EXPANSION,
        IGNORE_ALL_SPACE, IGNORE_SPACE_CHANGE, IGNORE_TRAILING_SPACE,
        IGNORE_TAB_EXPANSION_AND_TRAILING_SPACE])).2.1⟩

set_option maxRecDepth 40000

/-! ### C9: the prime_offset table and the bucket count in read_files (io.c:1311-1317, 1357-1363) -/

/-- Fueled binary modular exponentiation, used only inside primality certificates. -/
def powModF : Nat → Nat → Nat → Nat → Nat
  | 0, _, _, n => 1 % n
  | fuel + 1, a, b, n =>
    if b = 0 then 1 % n
    else
      let r := powModF fuel a (b / 2) n
      if b % 2 = 0 then r * r % n else r * r % n * a % n

def powMod (a b n : Nat) : Nat := powModF (b + 1) a b n

theorem powModF_eq : ∀ fuel b, b < fuel → ∀ a n, powModF fuel a b n = a ^ b % n := by
  intro fuel
  induction fuel with
  | zero => intro b hb; omega
  | succ fuel ih =>
    intro b hb a n
    rw [powModF]
    by_cases hb0 : b = 0
    · rw [if_pos hb0, hb0, pow_zero]
    · rw [if_neg hb0]
      have hdiv : b / 2 < fuel := by omega
      have hr := ih (b / 2) hdiv a n
      by_cases hpar : b % 2 = 0
      · rw [if_pos hpar, hr]
        have hbe : a ^ b = a ^ (b / 2) * a ^ (b / 2) := by
          rw [← pow_add]
          congr 1
          omega
        rw [hbe]
        exact (Nat.mul_mod _ _ _).symm
      · rw [if_neg hpar, hr]
        have hbe : a ^ b = a ^ (b / 2) * a ^ (b / 2) * a := by
          rw [← pow_add, ← pow_succ]
          congr 1
          omega
        rw [hbe]
        conv_rhs => rw [Nat.mul_mod, Nat.mul_mod (a ^ (b / 2))]
        simp [Nat.mod_mod]

theorem powMod_eq (a b n : Nat) : powMod a b n = a ^ b % n :=
  powModF_eq (b + 1) b (Nat.lt_succ_self b) a n

/-- Pratt/Lucas certificate checker: a witness of order p-1 proves p prime. -/
theorem pratt_cert (p a : Nat) (fs : List Nat)
    (hfp : ∀ f ∈ fs, Nat.Prime f)
    (hprod : fs.prod = p - 1)
    (hpow : powMod a (p - 1) p = 1 % p)
    (hne : ∀ f ∈ fs, powMod a ((p - 1) / f) p ≠ 1 % p) : Nat.Prime p := by
  apply lucas_primality p (a : ZMod p)
  · have h1 : ((a ^ (p - 1) % p : Nat) : ZMod p) = ((1 % p : Nat) : ZMod p) := by
      rw [← powMod_eq, hpow]
    rw [ZMod.natCast_mod, ZMod.natCast_mod, Nat.cast_pow, Nat.cast_one] at h1
    exact h1
  · intro q hq hqd
    have hqf : q ∈ fs := by
      have hdvd : q ∣ fs.prod := by rw [hprod]; exact hqd
      obtain ⟨x, hx, hqx⟩ := (Nat.Prime.prime hq).dvd_prod_iff.mp hdvd
      have hxq : q = x := (Nat.prime_dvd_prime_iff_eq hq (hfp x hx)).mp hqx
      rwa [hxq]
    intro hone
    apply hne q hqf
    rw [powMod_eq]
    have h1 : ((a ^ ((p - 1) / q) % p : Nat) : ZMod p) = ((1 % p : Nat) : ZMod p) := by
      rw [ZMod.natCast_mod, ZMod.natCast_mod, Nat.cast_pow, Nat.cast_one]
      exact hone
    have h2 := (ZMod.natCast_eq_natCast_iff' _ _ _).mp h1
    rwa [Nat.mod_mod, Nat.mod_mod] at h2

/-- Checks that each of m, m+1, ..., m+fs.length-1 has the listed nontrivial factor. -/
def cwOK : Nat → List Nat → Bool
  | _, [] => true
  | m, f :: rest => (decide (2 ≤ f) && decide (f < m) && decide (m % f = 0)) && cwOK (m + 1) rest

theorem cwOK_spec : ∀ (fs : List Nat) (m : Nat), cwOK m fs = true →
    ∀ q, m ≤ q → q < m + fs.length → ¬ Nat.Prime q := by
  intro fs
  induction fs with
  | nil => intro m _ q h1 h2 _; simp at h2; omega
  | cons f rest ih =>
    intro m h q h1 h2 hq
    rw [cwOK] at h
    simp only [Bool.and_eq_true, decide_eq_true_eq] at h
    obtain ⟨⟨⟨hf2, hfm⟩, hdvd⟩, hrest⟩ := h
    by_cases hqm : q = m
    · subst hqm
      have hdv : f ∣ q := Nat.dvd_of_mod_eq_zero hdvd
      rcases hq.eq_one_or_self_of_dvd f hdv with he | he <;> omega
    · refine ih (m + 1) hrest q (by omega) ?_ hq
      simp only [List.length_cons] at h2
      omega

theorem isPrime_3 : Nat.Prime 3 := by norm_num

theorem isPrime_7 : Nat.Prime 7 := by norm_num

theorem isPrime_13 : Nat.Prime 13 := by norm_num

theorem isPrime_31 : Nat.Prime 31 := by norm_num

theorem isPrime_61 : Nat.Prime 61 := by norm_num

theorem isPrime_127 : Nat.Prime 127 := by norm_num

theorem isPrime_251 : Nat.Prime 251 := by norm_num

theorem isPrime_509 : Nat.Prime 509 := by norm_num

theorem isPrime_1021 : Nat.Prime 1021 := by norm_num

theorem isPrime_2039 : Nat.Prime 2039 := by norm_num

theorem isPrime_4093 : Nat.Prime 4093 := by norm_num

theorem isPrime_8191 : Nat.Prime 8191 := by norm_num

theorem isPrime_16381 : Nat.Prime 16381 := by norm_num

theorem isPrime_32749 : Nat.Prime 32749 := by norm_num

theorem isPrime_65521 : Nat.Prime 65521 := by norm_num

theorem isPrime_131071 : Nat.Prime 131071 := by norm_num

theorem isPrime_262139 : Nat.Prime 262139 := by norm_num

theorem isPrime_524287 : Nat.Prime 524287 := by norm_num

theorem isPrime_1048573 : Nat.Prime 1048573 := by norm_num

theorem isPrime_2097143 : Nat.Prime 2097143 := by norm_num

theorem isPrime_4194301 : Nat.Prime 4194301 := by norm_num

theorem isPrime_8388593 : Nat.Prime 8388593 := by norm_num

theorem isPrime_2 : Nat.Prime 2 := by norm_num

theorem isPrime_23 : Nat.Prime 23 := by norm_num

theorem isPrime_89 : Nat.Prime 89 := by norm_num

theorem isPrime_683 : Nat.Prime 683 := by norm_num

theorem isPrime_16777213 : Nat.Prime 16777213 := by
  refine pratt_cert 16777213 5 [2, 2, 3, 23, 89, 683] ?_ (by norm_num [List.prod_cons, List.prod_nil]) (by decide) (by decide)
  intro f hf
  fin_cases hf <;> first | exact isPrime_2 | exact isPrime_3 | exact isPrime_23 | exact isPrime_89 | exact isPrime_683

theorem isPrime_29 : Nat.Prime 29 := by norm_num

theorem isPrime_2371 : Nat.Prime 2371 := by norm_num

theorem isPrime_33554393 : Nat.Prime 33554393 := by
  refine pratt_cert 33554393 3 [2, 2, 2, 29, 61, 2371] ?_ (by norm_num [List.prod_cons, List.prod_nil]) (by decide) (by decide)
  intro f hf
  fin_cases hf <;> first | exact isPrime_2 | exact isPrime_29 | exact isPrime_61 | exact isPrime_2371

theorem isPrime_479 : Nat.Prime 479 := by norm_num

theorem isPrime_70051 : Nat.Prime 70051 := by norm_num

theorem isPrime_67108859 : Nat.Prime 67108859 := by
  refine pratt_cert 67108859 2 [2, 479, 70051] ?_ (by norm_num [List.prod_cons, List.prod_nil]) (by decide) (by decide)
  intro f hf
  fin_cases hf <;> first | exact isPrime_2 | exact isPrime_479 | exact isPrime_70051

theorem isPrime_11 : Nat.Prime 11 := by norm_num

theorem isPrime_101 : Nat.Prime 101 := by norm_num

theorem isPrime_15101 : Nat.Prime 15101 := by norm_num

theorem isPrime_134217689 : Nat.Prime 134217689 := by
  refine pratt_cert 134217689 3 [2, 2, 2, 11, 101, 15101] ?_ (by norm_num [List.prod_cons, List.prod_nil]) (by decide) (by decide)
  intro f hf
  fin_cases hf <;> first | exact isPrime_2 | exact isPrime_11 | exact isPrime_101 | exact isPrime_15101

theorem isPrime_581029 : Nat.Prime 581029 := by norm_num

theorem isPrime_268435399 : Nat.Prime 268435399 := by
  refine pratt_cert 268435399 3 [2, 3, 7, 11, 581029] ?_ (by norm_num [List.prod_cons, List.prod_nil]) (by decide) (by decide)
  intro f hf
  fin_cases hf <;> first | exact isPrime_2 | exact isPrime_3 | exact isPrime_7 | exact isPrime_11 | exact isPrime_581029

theorem isPrime_73 : Nat.Prime 73 := by norm_num

theorem isPrime_262657 : Nat.Prime 262657 := by norm_num

theorem isPrime_536870909 : Nat.Prime 536870909 := by
  refine pratt_cert 536870909 2 [2, 2, 7, 73, 262657] ?_ (by norm_num [List.prod_cons, List.prod_nil]) (by decide) (by decide)
  intro f hf
  fin_cases hf <;> first | exact isPrime_2 | exact isPrime_7 | exact isPrime_73 | exact isPrime_262657

theorem isPrime_2341 : Nat.Prime 2341 := by norm_num

theorem isPrime_1073741789 : Nat.Prime 1073741789 := by
  refine pratt_cert 1073741789 2 [2, 2, 7, 2341, 16381] ?_ (by norm_num [List.prod_cons, List.prod_nil]) (by decide) (by decide)
  intro f hf
  fin_cases hf <;> first | exact isPrime_2 | exact isPrime_7 | exact isPrime_2341 | exact isPrime_16381

theorem isPrime_151 : Nat.Prime 151 := by norm_num

theorem isPrime_331 : Nat.Prime 331 := by norm_num

theorem isPrime_2147483647 : Nat.Prime 2147483647 := by
  refine pratt_cert 2147483647 7 [2, 3, 3, 7, 11, 31, 151, 331] ?_ (by norm_num [List.prod_cons, List.prod_nil]) (by decide) (by decide)
  intro f hf
  fin_cases hf <;> first | exact isPrime_2 | exact isPrime_3 | exact isPrime_7 | exact isPrime_11 | exact isPrime_31 | exact isPrime_151 | exact isPrime_331

theorem isPrime_5 : Nat.Prime 5 := by norm_num

theorem isPrime_19 : Nat.Prime 19 := by norm_num

theorem isPrime_181 : Nat.Prime 181 := by norm_num

theorem isPrime_22605091 : Nat.Prime 22605091 := by
  refine pratt_cert 22605091 11 [2, 3, 5, 23, 181, 181] ?_ (by norm_num [List.prod_cons, List.prod_nil]) (by decide) (by decide)
  intro f hf
  fin_cases hf <;> first | exact isPrime_2 | exact isPrime_3 | exact isPrime_5 | exact isPrime_23 | exact isPrime_181

theorem isPrime_4294967291 : Nat.Prime 4294967291 := by
  refine pratt_cert 4294967291 2 [2, 5, 19, 22605091] ?_ (by norm_num [List.prod_cons, List.prod_nil]) (by decide) (by decide)
  intro f hf
  fin_cases hf <;> first | exact isPrime_2 | exact isPrime_5 | exact isPrime_19 | exact isPrime_22605091

theorem isPrime_8589934583 : Nat.Prime 8589934583 := by
  refine pratt_cert 8589934583 5 [2, 4294967291] ?_ (by norm_num [List.prod_cons, List.prod_nil]) (by decide) (by decide)
  intro f hf
  fin_cases hf <;> first | exact isPrime_2 | exact isPrime_4294967291

theorem isPrime_79 : Nat.Prime 79 := by norm_num

theorem isPrime_967 : Nat.Prime 967 := by norm_num

theorem isPrime_28111 : Nat.Prime 28111 := by norm_num

theorem isPrime_108733349 : Nat.Prime 108733349 := by
  refine pratt_cert 108733349 2 [2, 2, 967, 28111] ?_ (by norm_num [List.prod_cons, List.prod_nil]) (by decide) (by decide)
  intro f hf
  fin_cases hf <;> first | exact isPrime_2 | exact isPrime_967 | exact isPrime_28111

theorem isPrime_17179869143 : Nat.Prime 17179869143 := by
  refine pratt_cert 17179869143 5 [2, 79, 108733349] ?_ (by norm_num [List.prod_cons, List.prod_nil]) (by decide) (by decide)
  intro f hf
  fin_cases hf <;> first | exact isPrime_2 | exact isPrime_79 | exact isPrime_108733349

theorem isPrime_34359738337 : Nat.Prime 34359738337 := by
  refine pratt_cert 34359738337 5 [2, 2, 2, 2, 2, 3, 3, 7, 11, 31, 151, 331] ?_ (by norm_num [List.prod_cons, List.prod_nil]) (by decide) (by decide)
  intro f hf
  fin_cases hf <;> first | exact isPrime_2 | exact isPrime_3 | exact isPrime_7 | exact isPrime_11 | exact isPrime_31 | exact isPrime_151 | exact isPrime_331

theorem isPrime_17 : Nat.Prime 17 := by norm_num

theorem isPrime_257 : Nat.Prime 257 := by norm_num

theorem isPrime_65537 : Nat.Prime 65537 := by norm_num

theorem isPrime_6871947673 : Nat.Prime 6871947673 := by
  refine pratt_cert 6871947673 5 [2, 2, 2, 3, 17, 257, 65537] ?_ (by norm_num [List.prod_cons, List.prod_nil]) (by decide) (by decide)
  intro f hf
  fin_cases hf <;> first | exact isPrime_2 | exact isPrime_3 | exact isPrime_17 | exact isPrime_257 | exact isPrime_65537

theorem isPrime_68719476731 : Nat.Prime 68719476731 := by
  refine pratt_cert 68719476731 2 [2, 5, 6871947673] ?_ (by norm_num [List.prod_cons, List.prod_nil]) (by decide) (by decide)
  intro f hf
  fin_cases hf <;> first | exact isPrime_2 | exact isPrime_5 | exact isPrime_6871947673

theorem isPrime_15473 : Nat.Prime 15473 := by norm_num

theorem isPrime_1480417 : Nat.Prime 1480417 := by norm_num

theorem isPrime_137438953447 : Nat.Prime 137438953447 := by
  refine pratt_cert 137438953447 5 [2, 3, 15473, 1480417] ?_ (by norm_num [List.prod_cons, List.prod_nil]) (by decide) (by decide)
  intro f hf
  fin_cases hf <;> first | exact isPrime_2 | exact isPrime_3 | exact isPrime_15473 | exact isPrime_1480417

theorem isPrime_233 : Nat.Prime 233 := by norm_num

theorem isPrime_409 : Nat.Prime 409 := by norm_num

theorem isPrime_9811 : Nat.Prime 9811 := by norm_num

theorem isPrime_274877906899 : Nat.Prime 274877906899 := by
  refine pratt_cert 274877906899 2 [2, 3, 7, 7, 233, 409, 9811] ?_ (by norm_num [List.prod_cons, List.prod_nil]) (by decide) (by decide)
  intro f hf
  fin_cases hf <;> first | exact isPrime_2 | exact isPrime_3 | exact isPrime_7 | exact isPrime_233 | exact isPrime_409 | exact isPrime_9811

theorem isPrime_37 : Nat.Prime 37 := by norm_num

theorem isPrime_109 : Nat.Prime 109 := by norm_num

theorem isPrime_549755813881 : Nat.Prime 549755813881 := by
  refine pratt_cert 549755813881 11 [2, 2, 2, 3, 3, 3, 5, 7, 13, 19, 37, 73, 109] ?_ (by norm_num [List.prod_cons, List.prod_nil]) (by decide) (by decide)
  intro f hf
  fin_cases hf <;> first | exact isPrime_2 | exact isPrime_3 | exact isPrime_5 | exact isPrime_7 | exact isPrime_13 | exact isPrime_19 | exact isPrime_37 | exact isPrime_73 | exact isPrime_109

theorem isPrime_1487 : Nat.Prime 1487 := by norm_num

theorem isPrime_113 : Nat.Prime 113 := by norm_num

theorem isPrime_10269667 : Nat.Prime 10269667 := by
  refine pratt_cert 10269667 3 [2, 3, 3, 3, 3, 3, 11, 17, 113] ?_ (by norm_num [List.prod_cons, List.prod_nil]) (by decide) (by decide)
  intro f hf
  fin_cases hf <;> first | exact isPrime_2 | exact isPrime_3 | exact isPrime_11 | exact isPrime_17 | exact isPrime_113

theorem isPrime_1099511627689 : Nat.Prime 1099511627689 := by
  refine pratt_cert 1099511627689 13 [2, 2, 2, 3, 3, 1487, 10269667] ?_ (by norm_num [List.prod_cons, List.prod_nil]) (by decide) (by decide)
  intro f hf
  fin_cases hf <;> first | exact isPrime_2 | exact isPrime_3 | exact isPrime_1487 | exact isPrime_10269667

theorem isPrime_43 : Nat.Prime 43 := by norm_num

theorem isPrime_5939 : Nat.Prime 5939 := by norm_num

theorem isPrime_861089 : Nat.Prime 861089 := by norm_num

theorem isPrime_2199023255531 : Nat.Prime 2199023255531 := by
  refine pratt_cert 2199023255531 2 [2, 5, 43, 5939, 861089] ?_ (by norm_num [List.prod_cons, List.prod_nil]) (by decide) (by decide)
  intro f hf
  fin_cases hf <;> first | exact isPrime_2 | exact isPrime_5 | exact isPrime_43 | exact isPrime_5939 | exact isPrime_861089

theorem isPrime_84577817521 : Nat.Prime 84577817521 := by
  refine pratt_cert 84577817521 44 [2, 2, 2, 2, 3, 3, 3, 5, 7, 19, 37, 73, 109] ?_ (by norm_num [List.prod_cons, List.prod_nil]) (by decide) (by decide)
  intro f hf
  fin_cases hf <;> first | exact isPrime_2 | exact isPrime_3 | exact isPrime_5 | exact isPrime_7 | exact isPrime_19 | exact isPrime_37 | exact isPrime_73 | exact isPrime_109

theorem isPrime_4398046511093 : Nat.Prime 4398046511093 := by
  refine pratt_cert 4398046511093 2 [2, 2, 13, 84577817521] ?_ (by norm_num [List.prod_cons, List.prod_nil]) (by decide) (by decide)
  intro f hf
  fin_cases hf <;> first | exact isPrime_2 | exact isPrime_13 | exact isPrime_84577817521

theorem isPrime_9584933 : Nat.Prime 9584933 := by norm_num

theorem isPrime_1092682363 : Nat.Prime 1092682363 := by
  refine pratt_cert 1092682363 2 [2, 3, 19, 9584933] ?_ (by norm_num [List.prod_cons, List.prod_nil]) (by decide) (by decide)
  intro f hf
  fin_cases hf <;> first | exact isPrime_2 | exact isPrime_3 | exact isPrime_19 | exact isPrime_9584933

theorem isPrime_8796093022151 : Nat.Prime 8796093022151 := by
  refine pratt_cert 8796093022151 7 [2, 5, 5, 7, 23, 1092682363] ?_ (by norm_num [List.prod_cons, List.prod_nil]) (by decide) (by decide)
  intro f hf
  fin_cases hf <;> first | exact isPrime_2 | exact isPrime_5 | exact isPrime_7 | exact isPrime_23 | exact isPrime_1092682363

theorem isPrime_4583 : Nat.Prime 4583 := by norm_num

theorem isPrime_7993 : Nat.Prime 7993 := by norm_num

theorem isPrime_34303 : Nat.Prime 34303 := by norm_num

theorem isPrime_17592186044399 : Nat.Prime 17592186044399 := by
  refine pratt_cert 17592186044399 7 [2, 7, 4583, 7993, 34303] ?_ (by norm_num [List.prod_cons, List.prod_nil]) (by decide) (by decide)
  intro f hf
  fin_cases hf <;> first | exact isPrime_2 | exact isPrime_7 | exact isPrime_4583 | exact isPrime_7993 | exact isPrime_34303

theorem isPrime_77158710721 : Nat.Prime 77158710721 := by
  refine pratt_cert 77158710721 41 [2, 2, 2, 2, 2, 2, 3, 3, 5, 7, 13, 37, 73, 109] ?_ (by norm_num [List.prod_cons, List.prod_nil]) (by decide) (by decide)
  intro f hf
  fin_cases hf <;> first | exact isPrime_2 | exact isPrime_3 | exact isPrime_5 | exact isPrime_7 | exact isPrime_13 | exact isPrime_37 | exact isPrime_73 | exact isPrime_109

theorem isPrime_35184372088777 : Nat.Prime 35184372088777 := by
  refine pratt_cert 35184372088777 10 [2, 2, 2, 3, 19, 77158710721] ?_ (by norm_num [List.prod_cons, List.prod_nil]) (by decide) (by decide)
  intro f hf
  fin_cases hf <;> first | exact isPrime_2 | exact isPrime_3 | exact isPrime_19 | exact isPrime_77158710721

theorem isPrime_263 : Nat.Prime 263 := by norm_num

theorem isPrime_443 : Nat.Prime 443 := by norm_num

theorem isPrime_1048571 : Nat.Prime 1048571 := by norm_num

theorem isPrime_44593627489 : Nat.Prime 44593627489 := by
  refine pratt_cert 44593627489 13 [2, 2, 2, 2, 2, 3, 443, 1048571] ?_ (by norm_num [List.prod_cons, List.prod_nil]) (by decide) (by decide)
  intro f hf
  fin_cases hf <;> first | exact isPrime_2 | exact isPrime_3 | exact isPrime_443 | exact isPrime_1048571

theorem isPrime_70368744177643 : Nat.Prime 70368744177643 := by
  refine pratt_cert 70368744177643 2 [2, 3, 263, 44593627489] ?_ (by norm_num [List.prod_cons, List.prod_nil]) (by decide) (by decide)
  intro f hf
  fin_cases hf <;> first | exact isPrime_2 | exact isPrime_3 | exact isPrime_263 | exact isPrime_44593627489

theorem isPrime_199729 : Nat.Prime 199729 := by norm_num

theorem isPrime_1675446289943 : Nat.Prime 1675446289943 := by
  refine pratt_cert 1675446289943 5 [2, 29, 61, 2371, 199729] ?_ (by norm_num [List.prod_cons, List.prod_nil]) (by decide) (by decide)
  intro f hf
  fin_cases hf <;> first | exact isPrime_2 | exact isPrime_29 | exact isPrime_61 | exact isPrime_2371 | exact isPrime_199729

theorem isPrime_140737488355213 : Nat.Prime 140737488355213 := by
  refine pratt_cert 140737488355213 5 [2, 2, 3, 7, 1675446289943] ?_ (by norm_num [List.prod_cons, List.prod_nil]) (by decide) (by decide)
  intro f hf
  fin_cases hf <;> first | exact isPrime_2 | exact isPrime_3 | exact isPrime_7 | exact isPrime_1675446289943

theorem isPrime_797 : Nat.Prime 797 := by norm_num

theorem isPrime_2459 : Nat.Prime 2459 := by norm_num

theorem isPrime_153443 : Nat.Prime 153443 := by norm_num

theorem isPrime_35905663 : Nat.Prime 35905663 := by
  refine pratt_cert 35905663 3 [2, 3, 3, 13, 153443] ?_ (by norm_num [List.prod_cons, List.prod_nil]) (by decide) (by decide)
  intro f hf
  fin_cases hf <;> first | exact isPrime_2 | exact isPrime_3 | exact isPrime_13 | exact isPrime_153443

theorem isPrime_281474976710597 : Nat.Prime 281474976710597 := by
  refine pratt_cert 281474976710597 2 [2, 2, 797, 2459, 35905663] ?_ (by norm_num [List.prod_cons, List.prod_nil]) (by decide) (by decide)
  intro f hf
  fin_cases hf <;> first | exact isPrime_2 | exact isPrime_797 | exact isPrime_2459 | exact isPrime_35905663

theorem isPrime_223 : Nat.Prime 223 := by norm_num

theorem isPrime_9587 : Nat.Prime 9587 := by norm_num

theorem isPrime_12539 : Nat.Prime 12539 := by norm_num

theorem isPrime_252443925301 : Nat.Prime 252443925301 := by
  refine pratt_cert 252443925301 10 [2, 2, 3, 5, 5, 7, 9587, 12539] ?_ (by norm_num [List.prod_cons, List.prod_nil]) (by decide) (by decide)
  intro f hf
  fin_cases hf <;> first | exact isPrime_2 | exact isPrime_3 | exact isPrime_5 | exact isPrime_7 | exact isPrime_9587 | exact isPrime_12539

theorem isPrime_562949953421231 : Nat.Prime 562949953421231 := by
  refine pratt_cert 562949953421231 17 [2, 5, 223, 252443925301] ?_ (by norm_num [List.prod_cons, List.prod_nil]) (by decide) (by decide)
  intro f hf
  fin_cases hf <;> first | exact isPrime_2 | exact isPrime_5 | exact isPrime_223 | exact isPrime_252443925301

theorem isPrime_6637 : Nat.Prime 6637 := by norm_num

theorem isPrime_40123 : Nat.Prime 40123 := by norm_num

theorem isPrime_352333 : Nat.Prime 352333 := by norm_num

theorem isPrime_1125899906842597 : Nat.Prime 1125899906842597 := by
  refine pratt_cert 1125899906842597 6 [2, 2, 3, 6637, 40123, 352333] ?_ (by norm_num [List.prod_cons, List.prod_nil]) (by decide) (by decide)
  intro f hf
  fin_cases hf <;> first | exact isPrime_2 | exact isPrime_3 | exact isPrime_6637 | exact isPrime_40123 | exact isPrime_352333

theorem isPrime_701 : Nat.Prime 701 := by norm_num

theorem isPrime_1531 : Nat.Prime 1531 := by norm_num

theorem isPrime_3989 : Nat.Prime 3989 := by norm_num

theorem isPrime_5479 : Nat.Prime 5479 := by norm_num

theorem isPrime_1049075089 : Nat.Prime 1049075089 := by
  refine pratt_cert 1049075089 14 [2, 2, 2, 2, 3, 3989, 5479] ?_ (by norm_num [List.prod_cons, List.prod_nil]) (by decide) (by decide)
  intro f hf
  fin_cases hf <;> first | exact isPrime_2 | exact isPrime_3 | exact isPrime_3989 | exact isPrime_5479

theorem isPrime_2251799813685119 : Nat.Prime 2251799813685119 := by
  refine pratt_cert 2251799813685119 11 [2, 701, 1531, 1049075089] ?_ (by norm_num [List.prod_cons, List.prod_nil]) (by decide) (by decide)
  intro f hf
  fin_cases hf <;> first | exact isPrime_2 | exact isPrime_701 | exact isPrime_1531 | exact isPrime_1049075089

theorem isPrime_167 : Nat.Prime 167 := by norm_num

theorem isPrime_239 : Nat.Prime 239 := by norm_num

theorem isPrime_67 : Nat.Prime 67 := by norm_num

theorem isPrime_956881 : Nat.Prime 956881 := by norm_num

theorem isPrime_641110271 : Nat.Prime 641110271 := by
  refine pratt_cert 641110271 7 [2, 5, 67, 956881] ?_ (by norm_num [List.prod_cons, List.prod_nil]) (by decide) (by decide)
  intro f hf
  fin_cases hf <;> first | exact isPrime_2 | exact isPrime_5 | exact isPrime_67 | exact isPrime_956881

theorem isPrime_4503599627370449 : Nat.Prime 4503599627370449 := by
  refine pratt_cert 4503599627370449 3 [2, 2, 2, 2, 11, 167, 239, 641110271] ?_ (by norm_num [List.prod_cons, List.prod_nil]) (by decide) (by decide)
  intro f hf
  fin_cases hf <;> first | exact isPrime_2 | exact isPrime_11 | exact isPrime_167 | exact isPrime_239 | exact isPrime_641110271

theorem isPrime_23563 : Nat.Prime 23563 := by norm_num

theorem isPrime_557 : Nat.Prime 557 := by norm_num

theorem isPrime_17579 : Nat.Prime 17579 := by norm_num

theorem isPrime_39166013 : Nat.Prime 39166013 := by
  refine pratt_cert 39166013 2 [2, 2, 557, 17579] ?_ (by norm_num [List.prod_cons, List.prod_nil]) (by decide) (by decide)
  intro f hf
  fin_cases hf <;> first | exact isPrime_2 | exact isPrime_557 | exact isPrime_17579

theorem isPrime_78332027 : Nat.Prime 78332027 := by
  refine pratt_cert 78332027 2 [2, 39166013] ?_ (by norm_num [List.prod_cons, List.prod_nil]) (by decide) (by decide)
  intro f hf
  fin_cases hf <;> first | exact isPrime_2 | exact isPrime_39166013

theorem isPrime_9007199254740881 : Nat.Prime 9007199254740881 := by
  refine pratt_cert 9007199254740881 3 [2, 2, 2, 2, 5, 61, 23563, 78332027] ?_ (by norm_num [List.prod_cons, List.prod_nil]) (by decide) (by decide)
  intro f hf
  fin_cases hf <;> first | exact isPrime_2 | exact isPrime_5 | exact isPrime_61 | exact isPrime_23563 | exact isPrime_78332027

theorem isPrime_486391 : Nat.Prime 486391 := by norm_num

theorem isPrime_2239 : Nat.Prime 2239 := by norm_num

theorem isPrime_7877 : Nat.Prime 7877 := by norm_num

theorem isPrime_246912443 : Nat.Prime 246912443 := by
  refine pratt_cert 246912443 2 [2, 7, 2239, 7877] ?_ (by norm_num [List.prod_cons, List.prod_nil]) (by decide) (by decide)
  intro f hf
  fin_cases hf <;> first | exact isPrime_2 | exact isPrime_7 | exact isPrime_2239 | exact isPrime_7877

theorem isPrime_18014398509481951 : Nat.Prime 18014398509481951 := by
  refine pratt_cert 18014398509481951 3 [2, 3, 5, 5, 486391, 246912443] ?_ (by norm_num [List.prod_cons, List.prod_nil]) (by decide) (by decide)
  intro f hf
  fin_cases hf <;> first | exact isPrime_2 | exact isPrime_3 | exact isPrime_5 | exact isPrime_486391 | exact isPrime_246912443

theorem isPrime_709 : Nat.Prime 709 := by norm_num

theorem isPrime_2099 : Nat.Prime 2099 := by norm_num

theorem isPrime_4493 : Nat.Prime 4493 := by norm_num

theorem isPrime_12473 : Nat.Prime 12473 := by norm_num

theorem isPrime_235260911423 : Nat.Prime 235260911423 := by
  refine pratt_cert 235260911423 5 [2, 2099, 4493, 12473] ?_ (by norm_num [List.prod_cons, List.prod_nil]) (by decide) (by decide)
  intro f hf
  fin_cases hf <;> first | exact isPrime_2 | exact isPrime_2099 | exact isPrime_4493 | exact isPrime_12473

theorem isPrime_36028797018963913 : Nat.Prime 36028797018963913 := by
  refine pratt_cert 36028797018963913 7 [2, 2, 2, 3, 3, 3, 709, 235260911423] ?_ (by norm_num [List.prod_cons, List.prod_nil]) (by decide) (by decide)
  intro f hf
  fin_cases hf <;> first | exact isPrime_2 | exact isPrime_3 | exact isPrime_709 | exact isPrime_235260911423

theorem isPrime_1871 : Nat.Prime 1871 := by norm_num

theorem isPrime_2207 : Nat.Prime 2207 := by norm_num

theorem isPrime_2621 : Nat.Prime 2621 := by norm_num

theorem isPrime_665789 : Nat.Prime 665789 := by norm_num

theorem isPrime_72057594037927931 : Nat.Prime 72057594037927931 := by
  refine pratt_cert 72057594037927931 6 [2, 5, 1871, 2207, 2621, 665789] ?_ (by norm_num [List.prod_cons, List.prod_nil]) (by decide) (by decide)
  intro f hf
  fin_cases hf <;> first | exact isPrime_2 | exact isPrime_5 | exact isPrime_1871 | exact isPrime_2207 | exact isPrime_2621 | exact isPrime_665789

theorem isPrime_53 : Nat.Prime 53 := by norm_num

theorem isPrime_157 : Nat.Prime 157 := by norm_num

theorem isPrime_1613 : Nat.Prime 1613 := by norm_num

theorem isPrime_2731 : Nat.Prime 2731 := by norm_num

theorem isPrime_12009599006321321 : Nat.Prime 12009599006321321 := by
  refine pratt_cert 12009599006321321 3 [2, 2, 2, 5, 53, 157, 1613, 2731, 8191] ?_ (by norm_num [List.prod_cons, List.prod_nil]) (by decide) (by decide)
  intro f hf
  fin_cases hf <;> first | exact isPrime_2 | exact isPrime_5 | exact isPrime_53 | exact isPrime_157 | exact isPrime_1613 | exact isPrime_2731 | exact isPrime_8191

theorem isPrime_24019198012642643 : Nat.Prime 24019198012642643 := by
  refine pratt_cert 24019198012642643 2 [2, 12009599006321321] ?_ (by norm_num [List.prod_cons, List.prod_nil]) (by decide) (by decide)
  intro f hf
  fin_cases hf <;> first | exact isPrime_2 | exact isPrime_12009599006321321

theorem isPrime_144115188075855859 : Nat.Prime 144115188075855859 := by
  refine pratt_cert 144115188075855859 2 [2, 3, 24019198012642643] ?_ (by norm_num [List.prod_cons, List.prod_nil]) (by decide) (by decide)
  intro f hf
  fin_cases hf <;> first | exact isPrime_2 | exact isPrime_3 | exact isPrime_24019198012642643

theorem isPrime_288230376151711717 : Nat.Prime 288230376151711717 := by
  refine pratt_cert 288230376151711717 6 [2, 2, 3, 24019198012642643] ?_ (by norm_num [List.prod_cons, List.prod_nil]) (by decide) (by decide)
  intro f hf
  fin_cases hf <;> first | exact isPrime_2 | exact isPrime_3 | exact isPrime_24019198012642643

theorem isPrime_576460752303423433 : Nat.Prime 576460752303423433 := by
  refine pratt_cert 576460752303423433 5 [2, 2, 2, 3, 24019198012642643] ?_ (by norm_num [List.prod_cons, List.prod_nil]) (by decide) (by decide)
  intro f hf
  fin_cases hf <;> first | exact isPrime_2 | exact isPrime_3 | exact isPrime_24019198012642643

theorem isPrime_375983 : Nat.Prime 375983 := by norm_num

theorem isPrime_107 : Nat.Prime 107 := by norm_num

theorem isPrime_719981 : Nat.Prime 719981 := by norm_num

theorem isPrime_16486124939 : Nat.Prime 16486124939 := by
  refine pratt_cert 16486124939 2 [2, 107, 107, 719981] ?_ (by norm_num [List.prod_cons, List.prod_nil]) (by decide) (by decide)
  intro f hf
  fin_cases hf <;> first | exact isPrime_2 | exact isPrime_107 | exact isPrime_719981

theorem isPrime_1152921504606846883 : Nat.Prime 1152921504606846883 := by
  refine pratt_cert 1152921504606846883 2 [2, 3, 31, 375983, 16486124939] ?_ (by norm_num [List.prod_cons, List.prod_nil]) (by decide) (by decide)
  intro f hf
  fin_cases hf <;> first | exact isPrime_2 | exact isPrime_3 | exact isPrime_31 | exact isPrime_375983 | exact isPrime_16486124939

theorem isPrime_41 : Nat.Prime 41 := by norm_num

theorem isPrime_1321 : Nat.Prime 1321 := by norm_num

theorem isPrime_2305843009213693951 : Nat.Prime 2305843009213693951 := by
  refine pratt_cert 2305843009213693951 37 [2, 3, 3, 5, 5, 7, 11, 13, 31, 41, 61, 151, 331, 1321] ?_ (by norm_num [List.prod_cons, List.prod_nil]) (by decide) (by decide)
  intro f hf
  fin_cases hf <;> first | exact isPrime_2 | exact isPrime_3 | exact isPrime_5 | exact isPrime_7 | exact isPrime_11 | exact isPrime_13 | exact isPrime_31 | exact isPrime_41 | exact isPrime_61 | exact isPrime_151 | exact isPrime_331 | exact isPrime_1321

theorem isPrime_1289 : Nat.Prime 1289 := by norm_num

theorem isPrime_659 : Nat.Prime 659 := by norm_num

theorem isPrime_14087 : Nat.Prime 14087 := by norm_num

theorem isPrime_49517298223 : Nat.Prime 49517298223 := by
  refine pratt_cert 49517298223 3 [2, 3, 7, 127, 659, 14087] ?_ (by norm_num [List.prod_cons, List.prod_nil]) (by decide) (by decide)
  intro f hf
  fin_cases hf <;> first | exact isPrime_2 | exact isPrime_3 | exact isPrime_7 | exact isPrime_127 | exact isPrime_659 | exact isPrime_14087

theorem isPrime_198762435067123 : Nat.Prime 198762435067123 := by
  refine pratt_cert 198762435067123 2 [2, 3, 3, 223, 49517298223] ?_ (by norm_num [List.prod_cons, List.prod_nil]) (by decide) (by decide)
  intro f hf
  fin_cases hf <;> first | exact isPrime_2 | exact isPrime_3 | exact isPrime_223 | exact isPrime_49517298223

theorem isPrime_4611686018427387847 : Nat.Prime 4611686018427387847 := by
  refine pratt_cert 4611686018427387847 6 [2, 3, 3, 1289, 198762435067123] ?_ (by norm_num [List.prod_cons, List.prod_nil]) (by decide) (by decide)
  intro f hf
  fin_cases hf <;> first | exact isPrime_2 | exact isPrime_3 | exact isPrime_1289 | exact isPrime_198762435067123

theorem isPrime_319279 : Nat.Prime 319279 := by norm_num

theorem isPrime_1471 : Nat.Prime 1471 := by norm_num

theorem isPrime_51673 : Nat.Prime 51673 := by norm_num

theorem isPrime_456065899 : Nat.Prime 456065899 := by
  refine pratt_cert 456065899 2 [2, 3, 1471, 51673] ?_ (by norm_num [List.prod_cons, List.prod_nil]) (by decide) (by decide)
  intro f hf
  fin_cases hf <;> first | exact isPrime_2 | exact isPrime_3 | exact isPrime_1471 | exact isPrime_51673

theorem isPrime_9223372036854775783 : Nat.Prime 9223372036854775783 := by
  refine pratt_cert 9223372036854775783 3 [2, 3, 3, 3, 3, 17, 23, 319279, 456065899] ?_ (by norm_num [List.prod_cons, List.prod_nil]) (by decide) (by decide)
  intro f hf
  fin_cases hf <;> first | exact isPrime_2 | exact isPrime_3 | exact isPrime_17 | exact isPrime_23 | exact isPrime_319279 | exact isPrime_456065899

/-- The hand-tabulated prime-offset table from io.c. -/
def prime_offset : List Nat :=
  [0, 0, 1, 1, 3, 1, 3, 1, 5, 3, 3, 9, 3, 1, 3, 19, 15, 1, 5, 1, 3, 9, 3, 15, 3, 39, 5, 39, 57, 3, 35, 1, 5, 9, 41, 31, 5, 25, 45, 7, 87, 21, 11, 57, 17, 55, 21, 115, 59, 81, 27, 129, 47, 111, 33, 55, 5, 13, 27, 55, 93, 1, 57, 25]

/-- The bucket count computed in read_files (io.c:1357-1363): floor_log2 is Nat.log2. -/
def read_files_nbuckets (equivs_alloc : Nat) : Nat :=
  let p := if equivs_alloc ≤ 256 * 3 then 9 else Nat.log2 (equivs_alloc / 3) + 1
  2 ^ p - prime_offset.getD p 0

def gapW2 : List Nat := []

def gapW3 : List Nat := []

def gapW4 : List Nat := [2, 3]

def gapW5 : List Nat := []

def gapW6 : List Nat := [2, 3]

def gapW7 : List Nat := []

def gapW8 : List Nat := [2, 11, 2, 3]

def gapW9 : List Nat := [2, 7]

def gapW10 : List Nat := [2, 3]

def gapW11 : List Nat := [2, 13, 2, 3, 2, 5, 2, 23]

def gapW12 : List Nat := [2, 3]

def gapW13 : List Nat := []

def gapW14 : List Nat := [2, 3]

def gapW15 : List Nat := [2, 3, 2, 7, 2, 5, 2, 3, 2, 17, 2, 181, 2, 3, 2, 5, 2, 7]

def gapW16 : List Nat := [2, 3, 2, 5, 2, 7, 2, 3, 2, 19, 2, 13, 2, 3]

def gapW17 : List Nat := []

def gapW18 : List Nat := [2, 11, 2, 3]

def gapW19 : List Nat := []

def gapW20 : List Nat := [2, 3]

def gapW21 : List Nat := [2, 5, 2, 3, 2, 773, 2, 7]

def gapW22 : List Nat := [2, 3]

def gapW23 : List Nat := [2, 5, 2, 3, 2, 17, 2, 13, 2, 3, 2, 5, 2, 47]

def gapW24 : List Nat := [2, 3]

def gapW25 : List Nat := [2, 5, 2, 3, 2, 19, 2, 23, 2, 3, 2, 5, 2, 271, 2, 3, 2, 11, 2, 17, 2, 3, 2, 13, 2, 197, 2, 3, 2, 7, 2, 5, 2, 3, 2, 479, 2, 31]

def gapW26 : List Nat := [2, 37, 2, 3]

def gapW27 : List Nat := [2, 19, 2, 3, 2, 5, 2, 107, 2, 3, 2, 457, 2, 17, 2, 3, 2, 13, 2, 151, 2, 3, 2, 7, 2, 5, 2, 3, 2, 23, 2, 11, 2, 3, 2, 5, 2, 7]

def gapW28 : List Nat := [2, 3, 2, 229, 2, 5, 2, 3, 2, 11, 2, 191, 2, 3, 2, 5, 2, 31, 2, 3, 2, 263, 2, 17, 2, 3, 2, 13, 2, 359, 2, 3, 2, 7, 2, 5, 2, 3, 2, 19, 2, 61, 2, 3, 2, 5, 2, 7, 2, 3, 2, 71, 2, 11, 2, 3]

def gapW29 : List Nat := [2, 233]

def gapW30 : List Nat := [2, 29, 2, 3, 2, 5, 2, 193, 2, 3, 2, 11, 2, 3671, 2, 3, 2, 101, 2, 7, 2, 3, 2, 19, 2, 5, 2, 3, 2, 2969, 2, 23, 2, 3]

def gapW31 : List Nat := []

def gapW32 : List Nat := [2, 9241, 2, 3]

def gapW33 : List Nat := [2, 5, 2, 3, 2, 29, 2, 7]

def gapW34 : List Nat := [2, 5, 2, 3, 2, 29, 2, 45737, 2, 3, 2, 5, 2, 11, 2, 3, 2, 7, 2, 17, 2, 3, 2, 6971, 2, 191, 2, 3, 2, 3457, 2, 5, 2, 3, 2, 11, 2, 5113, 2, 3]

def gapW35 : List Nat := [2, 3, 2, 23, 2, 7, 2, 3, 2, 11, 2, 37, 2, 3, 2, 113, 2, 5, 2, 3, 2, 41, 2, 13, 2, 3, 2, 5, 2, 31]

def gapW36 : List Nat := [2, 242819, 2, 3]

def gapW37 : List Nat := [2, 3, 2, 19, 2, 29, 2, 3, 2, 13, 2, 5507, 2, 3, 2, 7, 2, 5, 2, 3, 2, 47189, 2, 223]

def gapW38 : List Nat := [2, 3, 2, 37, 2, 5, 2, 3, 2, 43, 2, 22613, 2, 3, 2, 5, 2, 173087, 2, 3, 2, 19, 2, 131, 2, 3, 2, 13, 2, 103, 2, 3, 2, 7, 2, 5, 2, 3, 2, 359, 2, 11, 2, 3]

def gapW39 : List Nat := [2, 3, 2, 5, 2, 7]

def gapW40 : List Nat := [2, 3, 2, 41, 2, 5, 2, 3, 2, 358277, 2, 45863, 2, 3, 2, 5, 2, 17, 2, 3, 2, 7, 2, 31, 2, 3, 2, 23, 2, 6277, 2, 3, 2, 37, 2, 5, 2, 3, 2, 2803, 2, 11, 2, 3, 2, 5, 2, 89, 2, 3, 2, 17, 2, 601591, 2, 3, 2, 13, 2, 6311, 2, 3, 2, 7, 2, 5, 2, 3, 2, 59, 2, 19739, 2, 3, 2, 5, 2, 7, 2, 3, 2, 191, 2, 13, 2, 3]

def gapW41 : List Nat := [2, 13, 2, 3, 2, 9311, 2, 11, 2, 3, 2, 137, 2, 5, 2, 3, 2, 23, 2, 13367]

def gapW42 : List Nat := [2, 5, 2, 3, 2, 3061, 2, 47, 2, 3]

def gapW43 : List Nat := [2, 73, 2, 3, 2, 7, 2, 41, 2, 3, 2, 43, 2, 5, 2, 3, 2, 31, 2, 7, 2, 3, 2, 5, 2, 383, 2, 3, 2, 29, 2, 17, 2, 3, 2, 653, 2, 11, 2, 3, 2, 149, 2, 5, 2, 3, 2, 7, 2, 107, 2, 3, 2, 5, 2, 431]

def gapW44 : List Nat := [2, 71, 2, 3, 2, 5, 2, 13, 2, 3, 2, 11, 2, 5927, 2, 3]

def gapW45 : List Nat := [2, 3, 2, 43, 2, 17, 2, 3, 2, 3769453, 2, 7, 2, 3, 2, 9397, 2, 5, 2, 3, 2, 223, 2, 13, 2, 3, 2, 5, 2, 23, 2, 3, 2, 11, 2, 4373, 2, 3, 2, 7, 2, 59, 2, 3, 2, 57719, 2, 5, 2, 3, 2, 2087, 2, 7]

def gapW46 : List Nat := [2, 3, 2, 19, 2, 797, 2, 3, 2, 332207, 2, 5, 2, 3, 2, 131, 2, 227, 2, 3]

def gapW47 : List Nat := [2, 3, 2, 13, 2, 7, 2, 3, 2, 181, 2, 5, 2, 3, 2, 443, 2, 31, 2, 3, 2, 5, 2, 19, 2, 3, 2, 37, 2, 13, 2, 3, 2, 7, 2, 210659, 2, 3, 2, 43, 2, 5, 2, 3, 2, 173, 2, 7, 2, 3, 2, 5, 2, 367, 2, 3, 2, 2903, 2, 29, 2, 3, 2, 11, 2, 47, 2, 3, 2, 28843, 2, 5, 2, 3, 2, 7, 2, 2453747, 2, 3, 2, 5, 2, 23, 2, 3, 2, 159073, 2, 7, 2, 3, 2, 593, 2, 79, 2, 3, 2, 19, 2, 5, 2, 3, 2, 17, 2, 11, 2, 3, 2, 5, 2, 2351]

def gapW48 : List Nat := [2, 7, 2, 3, 2, 13, 2, 5, 2, 3, 2, 11, 2, 59, 2, 3, 2, 5, 2, 23, 2, 3, 2, 17, 2, 149, 2, 3, 2, 7, 2, 13, 2, 3, 2, 29, 2, 5, 2, 3, 2, 1019, 2, 7, 2, 3, 2, 5, 2, 1549, 2, 3, 2, 199, 2, 11, 2, 3]

def gapW49 : List Nat := [2, 7, 2, 3, 2, 29, 2, 53, 2, 3, 2, 383, 2, 5, 2, 3, 2, 89203, 2, 11, 2, 3, 2, 5, 2, 23, 2, 3, 2, 7, 2, 77647, 2, 3, 2, 476279, 2, 32029, 2, 3, 2, 11, 2, 5, 2, 3, 2, 104311, 2, 59, 2, 3, 2, 5, 2, 2615351, 2, 3, 2, 297467, 2, 17, 2, 3, 2, 13, 2, 229, 2, 3, 2, 7, 2, 5, 2, 3, 2, 19, 2, 127]

def gapW50 : List Nat := [2, 3, 2, 11, 2, 17, 2, 3, 2, 13, 2, 1226831, 2, 3, 2, 7, 2, 5, 2, 3, 2, 29, 2, 59, 2, 3]

def gapW51 : List Nat := [2, 7, 2, 3, 2, 5, 2, 41, 2, 3, 2, 191, 2, 149, 2, 3, 2, 11489, 2, 13289281, 2, 3, 2, 23, 2, 5, 2, 3, 2, 7, 2, 29, 2, 3, 2, 5, 2, 80789, 2, 3, 2, 491, 2, 7, 2, 3, 2, 1049, 2, 11, 2, 3, 2, 389, 2, 5, 2, 3, 2, 19, 2, 79, 2, 3, 2, 5, 2, 1931, 2, 3, 2, 7, 2, 83, 2, 3, 2, 181, 2, 313, 2, 3, 2, 563, 2, 5, 2, 3, 2, 29, 2, 137, 2, 3, 2, 5, 2, 19, 2, 3, 2, 53, 2, 17, 2, 3, 2, 13, 2, 577, 2, 3, 2, 7, 2, 5, 2, 3, 2, 599, 2, 17174671, 2, 3, 2, 5, 2, 7]

def gapW52 : List Nat := [2, 311, 2, 3, 2, 5, 2, 557, 2, 3, 2, 31, 2, 17, 2, 3, 2, 13, 2, 83, 2, 3, 2, 7, 2, 5, 2, 3, 2, 47, 2, 11, 2, 3, 2, 5, 2, 7, 2, 3, 2, 19, 2, 13, 2, 3]

def gapW53 : List Nat := [2, 7, 2, 3, 2, 19, 2, 643, 2, 3, 2, 113, 2, 5, 2, 3, 2, 101, 2, 173, 2, 3, 2, 5, 2, 11, 2, 3, 2, 7, 2, 1171, 2, 3, 2, 23, 2, 1109, 2, 3, 2, 29, 2, 5, 2, 3, 2, 11, 2, 10624181, 2, 3, 2, 5, 2, 37, 2, 3, 2, 61, 2, 17, 2, 3, 2, 13, 2, 930491, 2, 3, 2, 7, 2, 5, 2, 3, 2, 41, 2, 79, 2, 3, 2, 5, 2, 7, 2, 3, 2, 14633, 2, 11, 2, 3, 2, 17, 2, 149, 2, 3, 2, 439, 2, 5, 2, 3, 2, 2203, 2, 6361]

def gapW54 : List Nat := [2, 3, 2, 5, 2, 11, 2, 3, 2, 5029469, 2, 47, 2, 3, 2, 20297, 2, 7, 2, 3, 2, 43, 2, 5, 2, 3, 2, 11, 2, 36217, 2, 3]

def gapW55 : List Nat := [2, 3, 2, 7, 2, 311, 2, 3, 2, 79, 2, 5, 2, 3, 2, 593, 2, 7, 2, 3, 2, 5, 2, 97, 2, 3, 2, 283, 2, 3049, 2, 3, 2, 11, 2, 33931, 2, 3, 2, 29, 2, 5, 2, 3, 2, 7, 2, 896723, 2, 3, 2, 5, 2, 23]

def gapW56 : List Nat := [2, 181, 2, 3]

def gapW57 : List Nat := [2, 3, 2, 108669961, 2, 5, 2, 3, 2, 1009, 2, 7]

def gapW58 : List Nat := [2, 3, 2, 7, 2, 17, 2, 3, 2, 1039, 2, 229, 2, 3, 2, 53, 2, 5, 2, 3, 2, 251, 2, 11, 2, 3]

def gapW59 : List Nat := [2, 3, 2, 19, 2, 1063, 2, 3, 2, 197, 2, 5, 2, 3, 2, 7, 2, 29, 2, 3, 2, 5, 2, 61, 2, 3, 2, 269, 2, 7, 2, 3, 2, 41, 2, 137, 2, 3, 2, 2437, 2, 5, 2, 3, 2, 79, 2, 13, 2, 3, 2, 5, 2, 179951]

def gapW60 : List Nat := [2, 3, 2, 11, 2, 101, 2, 3, 2, 19, 2, 5, 2, 3, 2, 1249, 2, 47, 2, 3, 2, 5, 2, 1601, 2, 3, 2, 23203931, 2, 31, 2, 3, 2, 43, 2, 7, 2, 3, 2, 13, 2, 5, 2, 3, 2, 37, 2, 11, 2, 3, 2, 5, 2, 2371, 2, 3, 2, 15739, 2, 17, 2, 3, 2, 7, 2, 13, 2, 3, 2, 11, 2, 5, 2, 3, 2, 223, 2, 7, 2, 3, 2, 5, 2, 23, 2, 3, 2, 409, 2, 1177067, 2, 3]

def gapW61 : List Nat := []

def gapW62 : List Nat := [2, 3, 2, 7, 2, 9604807, 2, 3, 2, 17, 2, 41, 2, 3, 2, 1087, 2, 5, 2, 3, 2, 29, 2, 252449, 2, 3, 2, 5, 2, 343242169, 2, 3, 2, 107, 2, 43, 2, 3, 2, 13, 2, 11, 2, 3, 2, 7, 2, 5, 2, 3, 2, 34421, 2, 37, 2, 3]

def gapW63 : List Nat := [2, 3, 2, 13, 2, 11, 2, 3, 2, 7, 2, 5, 2, 3, 2, 17, 2, 157, 2, 3, 2, 5, 2, 7]

theorem tf2 : Nat.Prime (2 ^ 2 - prime_offset.getD 2 0) ∧
    ∀ q : Nat, 2 ^ 2 - prime_offset.getD 2 0 < q → q < 2 ^ 2 → ¬ Nat.Prime q := by
  have he : (2 : Nat) ^ 2 - prime_offset.getD 2 0 = 3 := by norm_num [prime_offset]
  rw [he]
  refine ⟨isPrime_3, ?_⟩
  intro q h1 h2 hq
  have h2x : q < 4 := by norm_num at h2; exact h2
  have hlen : (gapW2).length = 0 := by rfl
  exact cwOK_spec gapW2 4 (by decide) q (by omega) (by omega) hq

theorem tf3 : Nat.Prime (2 ^ 3 - prime_offset.getD 3 0) ∧
    ∀ q : Nat, 2 ^ 3 - prime_offset.getD 3 0 < q → q < 2 ^ 3 → ¬ Nat.Prime q := by
  have he : (2 : Nat) ^ 3 - prime_offset.getD 3 0 = 7 := by norm_num [prime_offset]
  rw [he]
  refine ⟨isPrime_7, ?_⟩
  intro q h1 h2 hq
  have h2x : q < 8 := by norm_num at h2; exact h2
  have hlen : (gapW3).length = 0 := by rfl
  exact cwOK_spec gapW3 8 (by decide) q (by omega) (by omega) hq

theorem tf4 : Nat.Prime (2 ^ 4 - prime_offset.getD 4 0) ∧
    ∀ q : Nat, 2 ^ 4 - prime_offset.getD 4 0 < q → q < 2 ^ 4 → ¬ Nat.Prime q := by
  have he : (2 : Nat) ^ 4 - prime_offset.getD 4 0 = 13 := by norm_num [prime_offset]
  rw [he]
  refine ⟨isPrime_13, ?_⟩
  intro q h1 h2 hq
  have h2x : q < 16 := by norm_num at h2; exact h2
  have hlen : (gapW4).length = 2 := by rfl
  exact cwOK_spec gapW4 14 (by decide) q (by omega) (by omega) hq

theorem tf5 : Nat.Prime (2 ^ 5 - prime_offset.getD 5 0) ∧
    ∀ q : Nat, 2 ^ 5 - prime_offset.getD 5 0 < q → q < 2 ^ 5 → ¬ Nat.Prime q := by
  have he : (2 : Nat) ^ 5 - prime_offset.getD 5 0 = 31 := by norm_num [prime_offset]
  rw [he]
  refine ⟨isPrime_31, ?_⟩
  intro q h1 h2 hq
  have h2x : q < 32 := by norm_num at h2; exact h2
  have hlen : (gapW5).length = 0 := by rfl
  exact cwOK_spec gapW5 32 (by decide) q (by omega) (by omega) hq

theorem tf6 : Nat.Prime (2 ^ 6 - prime_offset.getD 6 0) ∧
    ∀ q : Nat, 2 ^ 6 - prime_offset.getD 6 0 < q → q < 2 ^ 6 → ¬ Nat.Prime q := by
  have he : (2 : Nat) ^ 6 - prime_offset.getD 6 0 = 61 := by norm_num [prime_offset]
  rw [he]
  refine ⟨isPrime_61, ?_⟩
  intro q h1 h2 hq
  have h2x : q < 64 := by norm_num at h2; exact h2
  have hlen : (gapW6).length = 2 := by rfl
  exact cwOK_spec gapW6 62 (by decide) q (by omega) (by omega) hq

theorem tf7 : Nat.Prime (2 ^ 7 - prime_offset.getD 7 0) ∧
    ∀ q : Nat, 2 ^ 7 - prime_offset.getD 7 0 < q → q < 2 ^ 7 → ¬ Nat.Prime q := by
  have he : (2 : Nat) ^ 7 - prime_offset.getD 7 0 = 127 := by norm_num [prime_offset]
  rw [he]
  refine ⟨isPrime_127, ?_⟩
  intro q h1 h2 hq
  have h2x : q < 128 := by norm_num at h2; exact h2
  have hlen : (gapW7).length = 0 := by rfl
  exact cwOK_spec gapW7 128 (by decide) q (by omega) (by omega) hq

theorem tf8 : Nat.Prime (2 ^ 8 - prime_offset.getD 8 0) ∧
    ∀ q : Nat, 2 ^ 8 - prime_offset.getD 8 0 < q → q < 2 ^ 8 → ¬ Nat.Prime q := by
  have he : (2 : Nat) ^ 8 - prime_offset.getD 8 0 = 251 := by norm_num [prime_offset]
  rw [he]
  refine ⟨isPrime_251, ?_⟩
  intro q h1 h2 hq
  have h2x : q < 256 := by norm_num at h2; exact h2
  have hlen : (gapW8).length = 4 := by rfl
  exact cwOK_spec gapW8 252 (by decide) q (by omega) (by omega) hq

theorem tf9 : Nat.Prime (2 ^ 9 - prime_offset.getD 9 0) ∧
    ∀ q : Nat, 2 ^ 9 - prime_offset.getD 9 0 < q → q < 2 ^ 9 → ¬ Nat.Prime q := by
  have he : (2 : Nat) ^ 9 - prime_offset.getD 9 0 = 509 := by norm_num [prime_offset]
  rw [he]
  refine ⟨isPrime_509, ?_⟩
  intro q h1 h2 hq
  have h2x : q < 512 := by norm_num at h2; exact h2
  have hlen : (gapW9).length = 2 := by rfl
  exact cwOK_spec gapW9 510 (by decide) q (by omega) (by omega) hq

theorem tf10 : Nat.Prime (2 ^ 10 - prime_offset.getD 10 0) ∧
    ∀ q : Nat, 2 ^ 10 - prime_offset.getD 10 0 < q → q < 2 ^ 10 → ¬ Nat.Prime q := by
  have he : (2 : Nat) ^ 10 - prime_offset.getD 10 0 = 1021 := by norm_num [prime_offset]
  rw [he]
  refine ⟨isPrime_1021, ?_⟩
  intro q h1 h2 hq
  have h2x : q < 1024 := by norm_num at h2; exact h2
  have hlen : (gapW10).length = 2 := by rfl
  exact cwOK_spec gapW10 1022 (by decide) q (by omega) (by omega) hq

theorem tf11 : Nat.Prime (2 ^ 11 - prime_offset.getD 11 0) ∧
    ∀ q : Nat, 2 ^ 11 - prime_offset.getD 11 0 < q → q < 2 ^ 11 → ¬ Nat.Prime q := by
  have he : (2 : Nat) ^ 11 - prime_offset.getD 11 0 = 2039 := by norm_num [prime_offset]
  rw [he]
  refine ⟨isPrime_2039, ?_⟩
  intro q h1 h2 hq
  have h2x : q < 2048 := by norm_num at h2; exact h2
  have hlen : (gapW11).length = 8 := by rfl
  exact cwOK_spec gapW11 2040 (by decide) q (by omega) (by omega) hq

theorem tf12 : Nat.Prime (2 ^ 12 - prime_offset.getD 12 0) ∧
    ∀ q : Nat, 2 ^ 12 - prime_offset.getD 12 0 < q → q < 2 ^ 12 → ¬ Nat.Prime q := by
  have he : (2 : Nat) ^ 12 - prime_offset.getD 12 0 = 4093 := by norm_num [prime_offset]
  rw [he]
  refine ⟨isPrime_4093, ?_⟩
  intro q h1 h2 hq
  have h2x : q < 4096 := by norm_num at h2; exact h2
  have hlen : (gapW12).length = 2 := by rfl
  exact cwOK_spec gapW12 4094 (by decide) q (by omega) (by omega) hq

theorem tf13 : Nat.Prime (2 ^ 13 - prime_offset.getD 13 0) ∧
    ∀ q : Nat, 2 ^ 13 - prime_offset.getD 13 0 < q → q < 2 ^ 13 → ¬ Nat.Prime q := by
  have he : (2 : Nat) ^ 13 - prime_offset.getD 13 0 = 8191 := by norm_num [prime_offset]
  rw [he]
  refine ⟨isPrime_8191, ?_⟩
  intro q h1 h2 hq
  have h2x : q < 8192 := by norm_num at h2; exact h2
  have hlen : (gapW13).length = 0 := by rfl
  exact cwOK_spec gapW13 8192 (by decide) q (by omega) (by omega) hq

theorem tf14 : Nat.Prime (2 ^ 14 - prime_offset.getD 14 0) ∧
    ∀ q : Nat, 2 ^ 14 - prime_offset.getD 14 0 < q → q < 2 ^ 14 → ¬ Nat.Prime q := by
  have he : (2 : Nat) ^ 14 - prime_offset.getD 14 0 = 16381 := by norm_num [prime_offset]
  rw [he]
  refine ⟨isPrime_16381, ?_⟩
  intro q h1 h2 hq
  have h2x : q < 16384 := by norm_num at h2; exact h2
  have hlen : (gapW14).length = 2 := by rfl
  exact cwOK_spec gapW14 16382 (by decide) q (by omega) (by omega) hq

theorem tf15 : Nat.Prime (2 ^ 15 - prime_offset.getD 15 0) ∧
    ∀ q : Nat, 2 ^ 15 - prime_offset.getD 15 0 < q → q < 2 ^ 15 → ¬ Nat.Prime q := by
  have he : (2 : Nat) ^ 15 - prime_offset.getD 15 0 = 32749 := by norm_num [prime_offset]
  rw [he]
  refine ⟨isPrime_32749, ?_⟩
  intro q h1 h2 hq
  have h2x : q < 32768 := by norm_num at h2; exact h2
  have hlen : (gapW15).length = 18 := by rfl
  exact cwOK_spec gapW15 32750 (by decide) q (by omega) (by omega) hq

theorem tf16 : Nat.Prime (2 ^ 16 - prime_offset.getD 16 0) ∧
    ∀ q : Nat, 2 ^ 16 - prime_offset.getD 16 0 < q → q < 2 ^ 16 → ¬ Nat.Prime q := by
  have he : (2 : Nat) ^ 16 - prime_offset.getD 16 0 = 65521 := by norm_num [prime_offset]
  rw [he]
  refine ⟨isPrime_65521, ?_⟩
  intro q h1 h2 hq
  have h2x : q < 65536 := by norm_num at h2; exact h2
  have hlen : (gapW16).length = 14 := by rfl
  exact cwOK_spec gapW16 65522 (by decide) q (by omega) (by omega) hq

theorem tf17 : Nat.Prime (2 ^ 17 - prime_offset.getD 17 0) ∧
    ∀ q : Nat, 2 ^ 17 - prime_offset.getD 17 0 < q → q < 2 ^ 17 → ¬ Nat.Prime q := by
  have he : (2 : Nat) ^ 17 - prime_offset.getD 17 0 = 131071 := by norm_num [prime_offset]
  rw [he]
  refine ⟨isPrime_131071, ?_⟩
  intro q h1 h2 hq
  have h2x : q < 131072 := by norm_num at h2; exact h2
  have hlen : (gapW17).length = 0 := by rfl
  exact cwOK_spec gapW17 131072 (by decide) q (by omega) (by omega) hq

theorem tf18 : Nat.Prime (2 ^ 18 - prime_offset.getD 18 0) ∧
    ∀ q : Nat, 2 ^ 18 - prime_offset.getD 18 0 < q → q < 2 ^ 18 → ¬ Nat.Prime q := by
  have he : (2 : Nat) ^ 18 - prime_offset.getD 18 0 = 262139 := by norm_num [prime_offset]
  rw [he]
  refine ⟨isPrime_262139, ?_⟩
  intro q h1 h2 hq
  have h2x : q < 262144 := by norm_num at h2; exact h2
  have hlen : (gapW18).length = 4 := by rfl
  exact cwOK_spec gapW18 262140 (by decide) q (by omega) (by omega) hq

theorem tf19 : Nat.Prime (2 ^ 19 - prime_offset.getD 19 0) ∧
    ∀ q : Nat, 2 ^ 19 - prime_offset.getD 19 0 < q → q < 2 ^ 19 → ¬ Nat.Prime q := by
  have he : (2 : Nat) ^ 19 - prime_offset.getD 19 0 = 524287 := by norm_num [prime_offset]
  rw [he]
  refine ⟨isPrime_524287, ?_⟩
  intro q h1 h2 hq
  have h2x : q < 524288 := by norm_num at h2; exact h2
  have hlen : (gapW19).length = 0 := by rfl
  exact cwOK_spec gapW19 524288 (by decide) q (by omega) (by omega) hq

theorem tf20 : Nat.Prime (2 ^ 20 - prime_offset.getD 20 0) ∧
    ∀ q : Nat, 2 ^ 20 - prime_offset.getD 20 0 < q → q < 2 ^ 20 → ¬ Nat.Prime q := by
  have he : (2 : Nat) ^ 20 - prime_offset.getD 20 0 = 1048573 := by norm_num [prime_offset]
  rw [he]
  refine ⟨isPrime_1048573, ?_⟩
  intro q h1 h2 hq
  have h2x : q < 1048576 := by norm_num at h2; exact h2
  have hlen : (gapW20).length = 2 := by rfl
  exact cwOK_spec gapW20 1048574 (by decide) q (by omega) (by omega) hq

theorem tf21 : Nat.Prime (2 ^ 21 - prime_offset.getD 21 0) ∧
    ∀ q : Nat, 2 ^ 21 - prime_offset.getD 21 0 < q → q < 2 ^ 21 → ¬ Nat.Prime q := by
  have he : (2 : Nat) ^ 21 - prime_offset.getD 21 0 = 2097143 := by norm_num [prime_offset]
  rw [he]
  refine ⟨isPrime_2097143, ?_⟩
  intro q h1 h2 hq
  have h2x : q < 2097152 := by norm_num at h2; exact h2
  have hlen : (gapW21).length = 8 := by rfl
  exact cwOK_spec gapW21 2097144 (by decide) q (by omega) (by omega) hq

theorem tf22 : Nat.Prime (2 ^ 22 - prime_offset.getD 22 0) ∧
    ∀ q : Nat, 2 ^ 22 - prime_offset.getD 22 0 < q → q < 2 ^ 22 → ¬ Nat.Prime q := by
  have he : (2 : Nat) ^ 22 - prime_offset.getD 22 0 = 4194301 := by norm_num [prime_offset]
  rw [he]
  refine ⟨isPrime_4194301, ?_⟩
  intro q h1 h2 hq
  have h2x : q < 4194304 := by norm_num at h2; exact h2
  have hlen : (gapW22).length = 2 := by rfl
  exact cwOK_spec gapW22 4194302 (by decide) q (by omega) (by omega) hq

theorem tf23 : Nat.Prime (2 ^ 23 - prime_offset.getD 23 0) ∧
    ∀ q : Nat, 2 ^ 23 - prime_offset.getD 23 0 < q → q < 2 ^ 23 → ¬ Nat.Prime q := by
  have he : (2 : Nat) ^ 23 - prime_offset.getD 23 0 = 8388593 := by norm_num [prime_offset]
  rw [he]
  refine ⟨isPrime_8388593, ?_⟩
  intro q h1 h2 hq
  have h2x : q < 8388608 := by norm_num at h2; exact h2
  have hlen : (gapW23).length = 14 := by rfl
  exact cwOK_spec gapW23 8388594 (by decide) q (by omega) (by omega) hq

theorem tf24 : Nat.Prime (2 ^ 24 - prime_offset.getD 24 0) ∧
    ∀ q : Nat, 2 ^ 24 - prime_offset.getD 24 0 < q → q < 2 ^ 24 → ¬ Nat.Prime q := by
  have he : (2 : Nat) ^ 24 - prime_offset.getD 24 0 = 16777213 := by norm_num [prime_offset]
  rw [he]
  refine ⟨isPrime_16777213, ?_⟩
  intro q h1 h2 hq
  have h2x : q < 16777216 := by norm_num at h2; exact h2
  have hlen : (gapW24).length = 2 := by rfl
  exact cwOK_spec gapW24 16777214 (by decide) q (by omega) (by omega) hq

theorem tf25 : Nat.Prime (2 ^ 25 - prime_offset.getD 25 0) ∧
    ∀ q : Nat, 2 ^ 25 - prime_offset.getD 25 0 < q → q < 2 ^ 25 → ¬ Nat.Prime q := by
  have he : (2 : Nat) ^ 25 - prime_offset.getD 25 0 = 33554393 := by norm_num [prime_offset]
  rw [he]
  refine ⟨isPrime_33554393, ?_⟩
  intro q h1 h2 hq
  have h2x : q < 33554432 := by norm_num at h2; exact h2
  have hlen : (gapW25).length = 38 := by rfl
  exact cwOK_spec gapW25 33554394 (by decide) q (by omega) (by omega) hq

theorem tf26 : Nat.Prime (2 ^ 26 - prime_offset.getD 26 0) ∧
    ∀ q : Nat, 2 ^ 26 - prime_offset.getD 26 0 < q → q < 2 ^ 26 → ¬ Nat.Prime q := by
  have he : (2 : Nat) ^ 26 - prime_offset.getD 26 0 = 67108859 := by norm_num [prime_offset]
  rw [he]
  refine ⟨isPrime_67108859, ?_⟩
  intro q h1 h2 hq
  have h2x : q < 67108864 := by norm_num at h2; exact h2
  have hlen : (gapW26).length = 4 := by rfl
  exact cwOK_spec gapW26 67108860 (by decide) q (by omega) (by omega) hq

theorem tf27 : Nat.Prime (2 ^ 27 - prime_offset.getD 27 0) ∧
    ∀ q : Nat, 2 ^ 27 - prime_offset.getD 27 0 < q → q < 2 ^ 27 → ¬ Nat.Prime q := by
  have he : (2 : Nat) ^ 27 - prime_offset.getD 27 0 = 134217689 := by norm_num [prime_offset]
  rw [he]
  refine ⟨isPrime_134217689, ?_⟩
  intro q h1 h2 hq
  have h2x : q < 134217728 := by norm_num at h2; exact h2
  have hlen : (gapW27).length = 38 := by rfl
  exact cwOK_spec gapW27 134217690 (by decide) q (by omega) (by omega) hq

theorem tf28 : Nat.Prime (2 ^ 28 - prime_offset.getD 28 0) ∧
    ∀ q : Nat, 2 ^ 28 - prime_offset.getD 28 0 < q → q < 2 ^ 28 → ¬ Nat.Prime q := by
  have he : (2 : Nat) ^ 28 - prime_offset.getD 28 0 = 268435399 := by norm_num [prime_offset]
  rw [he]
  refine ⟨isPrime_268435399, ?_⟩
  intro q h1 h2 hq
  have h2x : q < 268435456 := by norm_num at h2; exact h2
  have hlen : (gapW28).length = 56 := by rfl
  exact cwOK_spec gapW28 268435400 (by decide) q (by omega) (by omega) hq

theorem tf29 : Nat.Prime (2 ^ 29 - prime_offset.getD 29 0) ∧
    ∀ q : Nat, 2 ^ 29 - prime_offset.getD 29 0 < q → q < 2 ^ 29 → ¬ Nat.Prime q := by
  have he : (2 : Nat) ^ 29 - prime_offset.getD 29 0 = 536870909 := by norm_num [prime_offset]
  rw [he]
  refine ⟨isPrime_536870909, ?_⟩
  intro q h1 h2 hq
  have h2x : q < 536870912 := by norm_num at h2; exact h2
  have hlen : (gapW29).length = 2 := by rfl
  exact cwOK_spec gapW29 536870910 (by decide) q (by omega) (by omega) hq

theorem tf30 : Nat.Prime (2 ^ 30 - prime_offset.getD 30 0) ∧
    ∀ q : Nat, 2 ^ 30 - prime_offset.getD 30 0 < q → q < 2 ^ 30 → ¬ Nat.Prime q := by
  have he : (2 : Nat) ^ 30 - prime_offset.getD 30 0 = 1073741789 := by norm_num [prime_offset]
  rw [he]
  refine ⟨isPrime_1073741789, ?_⟩
  intro q h1 h2 hq
  have h2x : q < 1073741824 := by norm_num at h2; exact h2
  have hlen : (gapW30).length = 34 := by rfl
  exact cwOK_spec gapW30 1073741790 (by decide) q (by omega) (by omega) hq

theorem tf31 : Nat.Prime (2 ^ 31 - prime_offset.getD 31 0) ∧
    ∀ q : Nat, 2 ^ 31 - prime_offset.getD 31 0 < q → q < 2 ^ 31 → ¬ Nat.Prime q := by
  have he : (2 : Nat) ^ 31 - prime_offset.getD 31 0 = 2147483647 := by norm_num [prime_offset]
  rw [he]
  refine ⟨isPrime_2147483647, ?_⟩
  intro q h1 h2 hq
  have h2x : q < 2147483648 := by norm_num at h2; exact h2
  have hlen : (gapW31).length = 0 := by rfl
  exact cwOK_spec gapW31 2147483648 (by decide) q (by omega) (by omega) hq

theorem tf32 : Nat.Prime (2 ^ 32 - prime_offset.getD 32 0) ∧
    ∀ q : Nat, 2 ^ 32 - prime_offset.getD 32 0 < q → q < 2 ^ 32 → ¬ Nat.Prime q := by
  have he : (2 : Nat) ^ 32 - prime_offset.getD 32 0 = 4294967291 := by norm_num [prime_offset]
  rw [he]
  refine ⟨isPrime_4294967291, ?_⟩
  intro q h1 h2 hq
  have h2x : q < 4294967296 := by norm_num at h2; exact h2
  have hlen : (gapW32).length = 4 := by rfl
  exact cwOK_spec gapW32 4294967292 (by decide) q (by omega) (by omega) hq

theorem tf33 : Nat.Prime (2 ^ 33 - prime_offset.getD 33 0) ∧
    ∀ q : Nat, 2 ^ 33 - prime_offset.getD 33 0 < q → q < 2 ^ 33 → ¬ Nat.Prime q := by
  have he : (2 : Nat) ^ 33 - prime_offset.getD 33 0 = 8589934583 := by norm_num [prime_offset]
  rw [he]
  refine ⟨isPrime_8589934583, ?_⟩
  intro q h1 h2 hq
  have h2x : q < 8589934592 := by norm_num at h2; exact h2
  have hlen : (gapW33).length = 8 := by rfl
  exact cwOK_spec gapW33 8589934584 (by decide) q (by omega) (by omega) hq

theorem tf34 : Nat.Prime (2 ^ 34 - prime_offset.getD 34 0) ∧
    ∀ q : Nat, 2 ^ 34 - prime_offset.getD 34 0 < q → q < 2 ^ 34 → ¬ Nat.Prime q := by
  have he : (2 : Nat) ^ 34 - prime_offset.getD 34 0 = 17179869143 := by norm_num [prime_offset]
  rw [he]
  refine ⟨isPrime_17179869143, ?_⟩
  intro q h1 h2 hq
  have h2x : q < 17179869184 := by norm_num at h2; exact h2
  have hlen : (gapW34).length = 40 := by rfl
  exact cwOK_spec gapW34 17179869144 (by decide) q (by omega) (by omega) hq

theorem tf35 : Nat.Prime (2 ^ 35 - prime_offset.getD 35 0) ∧
    ∀ q : Nat, 2 ^ 35 - prime_offset.getD 35 0 < q → q < 2 ^ 35 → ¬ Nat.Prime q := by
  have he : (2 : Nat) ^ 35 - prime_offset.getD 35 0 = 34359738337 := by norm_num [prime_offset]
  rw [he]
  refine ⟨isPrime_34359738337, ?_⟩
  intro q h1 h2 hq
  have h2x : q < 34359738368 := by norm_num at h2; exact h2
  have hlen : (gapW35).length = 30 := by rfl
  exact cwOK_spec gapW35 34359738338 (by decide) q (by omega) (by omega) hq

theorem tf36 : Nat.Prime (2 ^ 36 - prime_offset.getD 36 0) ∧
    ∀ q : Nat, 2 ^ 36 - prime_offset.getD 36 0 < q → q < 2 ^ 36 → ¬ Nat.Prime q := by
  have he : (2 : Nat) ^ 36 - prime_offset.getD 36 0 = 68719476731 := by norm_num [prime_offset]
  rw [he]
  refine ⟨isPrime_68719476731, ?_⟩
  intro q h1 h2 hq
  have h2x : q < 68719476736 := by norm_num at h2; exact h2
  have hlen : (gapW36).length = 4 := by rfl
  exact cwOK_spec gapW36 68719476732 (by decide) q (by omega) (by omega) hq

theorem tf37 : Nat.Prime (2 ^ 37 - prime_offset.getD 37 0) ∧
    ∀ q : Nat, 2 ^ 37 - prime_offset.getD 37 0 < q → q < 2 ^ 37 → ¬ Nat.Prime q := by
  have he : (2 : Nat) ^ 37 - prime_offset.getD 37 0 = 137438953447 := by norm_num [prime_offset]
  rw [he]
  refine ⟨isPrime_137438953447, ?_⟩
  intro q h1 h2 hq
  have h2x : q < 137438953472 := by norm_num at h2; exact h2
  have hlen : (gapW37).length = 24 := by rfl
  exact cwOK_spec gapW37 137438953448 (by decide) q (by omega) (by omega) hq

theorem tf38 : Nat.Prime (2 ^ 38 - prime_offset.getD 38 0) ∧
    ∀ q : Nat, 2 ^ 38 - prime_offset.getD 38 0 < q → q < 2 ^ 38 → ¬ Nat.Prime q := by
  have he : (2 : Nat) ^ 38 - prime_offset.getD 38 0 = 274877906899 := by norm_num [prime_offset]
  rw [he]
  refine ⟨isPrime_274877906899, ?_⟩
  intro q h1 h2 hq
  have h2x : q < 274877906944 := by norm_num at h2; exact h2
  have hlen : (gapW38).length = 44 := by rfl
  exact cwOK_spec gapW38 274877906900 (by decide) q (by omega) (by omega) hq

theorem tf39 : Nat.Prime (2 ^ 39 - prime_offset.getD 39 0) ∧
    ∀ q : Nat, 2 ^ 39 - prime_offset.getD 39 0 < q → q < 2 ^ 39 → ¬ Nat.Prime q := by
  have he : (2 : Nat) ^ 39 - prime_offset.getD 39 0 = 549755813881 := by norm_num [prime_offset]
  rw [he]
  refine ⟨isPrime_549755813881, ?_⟩
  intro q h1 h2 hq
  have h2x : q < 549755813888 := by norm_num at h2; exact h2
  have hlen : (gapW39).length = 6 := by rfl
  exact cwOK_spec gapW39 549755813882 (by decide) q (by omega) (by omega) hq

theorem tf40 : Nat.Prime (2 ^ 40 - prime_offset.getD 40 0) ∧
    ∀ q : Nat, 2 ^ 40 - prime_offset.getD 40 0 < q → q < 2 ^ 40 → ¬ Nat.Prime q := by
  have he : (2 : Nat) ^ 40 - prime_offset.getD 40 0 = 1099511627689 := by norm_num [prime_offset]
  rw [he]
  refine ⟨isPrime_1099511627689, ?_⟩
  intro q h1 h2 hq
  have h2x : q < 1099511627776 := by norm_num at h2; exact h2
  have hlen : (gapW40).length = 86 := by rfl
  exact cwOK_spec gapW40 1099511627690 (by decide) q (by omega) (by omega) hq

theorem tf41 : Nat.Prime (2 ^ 41 - prime_offset.getD 41 0) ∧
    ∀ q : Nat, 2 ^ 41 - prime_offset.getD 41 0 < q → q < 2 ^ 41 → ¬ Nat.Prime q := by
  have he : (2 : Nat) ^ 41 - prime_offset.getD 41 0 = 2199023255531 := by norm_num [prime_offset]
  rw [he]
  refine ⟨isPrime_2199023255531, ?_⟩
  intro q h1 h2 hq
  have h2x : q < 2199023255552 := by norm_num at h2; exact h2
  have hlen : (gapW41).length = 20 := by rfl
  exact cwOK_spec gapW41 2199023255532 (by decide) q (by omega) (by omega) hq

theorem tf42 : Nat.Prime (2 ^ 42 - prime_offset.getD 42 0) ∧
    ∀ q : Nat, 2 ^ 42 - prime_offset.getD 42 0 < q → q < 2 ^ 42 → ¬ Nat.Prime q := by
  have he : (2 : Nat) ^ 42 - prime_offset.getD 42 0 = 4398046511093 := by norm_num [prime_offset]
  rw [he]
  refine ⟨isPrime_4398046511093, ?_⟩
  intro q h1 h2 hq
  have h2x : q < 4398046511104 := by norm_num at h2; exact h2
  have hlen : (gapW42).length = 10 := by rfl
  exact cwOK_spec gapW42 4398046511094 (by decide) q (by omega) (by omega) hq

theorem tf43 : Nat.Prime (2 ^ 43 - prime_offset.getD 43 0) ∧
    ∀ q : Nat, 2 ^ 43 - prime_offset.getD 43 0 < q → q < 2 ^ 43 → ¬ Nat.Prime q := by
  have he : (2 : Nat) ^ 43 - prime_offset.getD 43 0 = 8796093022151 := by norm_num [prime_offset]
  rw [he]
  refine ⟨isPrime_8796093022151, ?_⟩
  intro q h1 h2 hq
  have h2x : q < 8796093022208 := by norm_num at h2; exact h2
  have hlen : (gapW43).length = 56 := by rfl
  exact cwOK_spec gapW43 8796093022152 (by decide) q (by omega) (by omega) hq

theorem tf44 : Nat.Prime (2 ^ 44 - prime_offset.getD 44 0) ∧
    ∀ q : Nat, 2 ^ 44 - prime_offset.getD 44 0 < q → q < 2 ^ 44 → ¬ Nat.Prime q := by
  have he : (2 : Nat) ^ 44 - prime_offset.getD 44 0 = 17592186044399 := by norm_num [prime_offset]
  rw [he]
  refine ⟨isPrime_17592186044399, ?_⟩
  intro q h1 h2 hq
  have h2x : q < 17592186044416 := by norm_num at h2; exact h2
  have hlen : (gapW44).length = 16 := by rfl
  exact cwOK_spec gapW44 17592186044400 (by decide) q (by omega) (by omega) hq

theorem tf45 : Nat.Prime (2 ^ 45 - prime_offset.getD 45 0) ∧
    ∀ q : Nat, 2 ^ 45 - prime_offset.getD 45 0 < q → q < 2 ^ 45 → ¬ Nat.Prime q := by
  have he : (2 : Nat) ^ 45 - prime_offset.getD 45 0 = 35184372088777 := by norm_num [prime_offset]
  rw [he]
  refine ⟨isPrime_35184372088777, ?_⟩
  intro q h1 h2 hq
  have h2x : q < 35184372088832 := by norm_num at h2; exact h2
  have hlen : (gapW45).length = 54 := by rfl
  exact cwOK_spec gapW45 35184372088778 (by decide) q (by omega) (by omega) hq

theorem tf46 : Nat.Prime (2 ^ 46 - prime_offset.getD 46 0) ∧
    ∀ q : Nat, 2 ^ 46 - prime_offset.getD 46 0 < q → q < 2 ^ 46 → ¬ Nat.Prime q := by
  have he : (2 : Nat) ^ 46 - prime_offset.getD 46 0 = 70368744177643 := by norm_num [prime_offset]
  rw [he]
  refine ⟨isPrime_70368744177643, ?_⟩
  intro q h1 h2 hq
  have h2x : q < 70368744177664 := by norm_num at h2; exact h2
  have hlen : (gapW46).length = 20 := by rfl
  exact cwOK_spec gapW46 70368744177644 (by decide) q (by omega) (by omega) hq

theorem tf47 : Nat.Prime (2 ^ 47 - prime_offset.getD 47 0) ∧
    ∀ q : Nat, 2 ^ 47 - prime_offset.getD 47 0 < q → q < 2 ^ 47 → ¬ Nat.Prime q := by
  have he : (2 : Nat) ^ 47 - prime_offset.getD 47 0 = 140737488355213 := by norm_num [prime_offset]
  rw [he]
  refine ⟨isPrime_140737488355213, ?_⟩
  intro q h1 h2 hq
  have h2x : q < 140737488355328 := by norm_num at h2; exact h2
  have hlen : (gapW47).length = 114 := by rfl
  exact cwOK_spec gapW47 140737488355214 (by decide) q (by omega) (by omega) hq

theorem tf48 : Nat.Prime (2 ^ 48 - prime_offset.getD 48 0) ∧
    ∀ q : Nat, 2 ^ 48 - prime_offset.getD 48 0 < q → q < 2 ^ 48 → ¬ Nat.Prime q := by
  have he : (2 : Nat) ^ 48 - prime_offset.getD 48 0 = 281474976710597 := by norm_num [prime_offset]
  rw [he]
  refine ⟨isPrime_281474976710597, ?_⟩
  intro q h1 h2 hq
  have h2x : q < 281474976710656 := by norm_num at h2; exact h2
  have hlen : (gapW48).length = 58 := by rfl
  exact cwOK_spec gapW48 281474976710598 (by decide) q (by omega) (by omega) hq

theorem tf49 : Nat.Prime (2 ^ 49 - prime_offset.getD 49 0) ∧
    ∀ q : Nat, 2 ^ 49 - prime_offset.getD 49 0 < q → q < 2 ^ 49 → ¬ Nat.Prime q := by
  have he : (2 : Nat) ^ 49 - prime_offset.getD 49 0 = 562949953421231 := by norm_num [prime_offset]
  rw [he]
  refine ⟨isPrime_562949953421231, ?_⟩
  intro q h1 h2 hq
  have h2x : q < 562949953421312 := by norm_num at h2; exact h2
  have hlen : (gapW49).length = 80 := by rfl
  exact cwOK_spec gapW49 562949953421232 (by decide) q (by omega) (by omega) hq

theorem tf50 : Nat.Prime (2 ^ 50 - prime_offset.getD 50 0) ∧
    ∀ q : Nat, 2 ^ 50 - prime_offset.getD 50 0 < q → q < 2 ^ 50 → ¬ Nat.Prime q := by
  have he : (2 : Nat) ^ 50 - prime_offset.getD 50 0 = 1125899906842597 := by norm_num [prime_offset]
  rw [he]
  refine ⟨isPrime_1125899906842597, ?_⟩
  intro q h1 h2 hq
  have h2x : q < 1125899906842624 := by norm_num at h2; exact h2
  have hlen : (gapW50).length = 26 := by rfl
  exact cwOK_spec gapW50 1125899906842598 (by decide) q (by omega) (by omega) hq

theorem tf51 : Nat.Prime (2 ^ 51 - prime_offset.getD 51 0) ∧
    ∀ q : Nat, 2 ^ 51 - prime_offset.getD 51 0 < q → q < 2 ^ 51 → ¬ Nat.Prime q := by
  have he : (2 : Nat) ^ 51 - prime_offset.getD 51 0 = 2251799813685119 := by norm_num [prime_offset]
  rw [he]
  refine ⟨isPrime_2251799813685119, ?_⟩
  intro q h1 h2 hq
  have h2x : q < 2251799813685248 := by norm_num at h2; exact h2
  have hlen : (gapW51).length = 128 := by rfl
  exact cwOK_spec gapW51 2251799813685120 (by decide) q (by omega) (by omega) hq

theorem tf52 : Nat.Prime (2 ^ 52 - prime_offset.getD 52 0) ∧
    ∀ q : Nat, 2 ^ 52 - prime_offset.getD 52 0 < q → q < 2 ^ 52 → ¬ Nat.Prime q := by
  have he : (2 : Nat) ^ 52 - prime_offset.getD 52 0 = 4503599627370449 := by norm_num [prime_offset]
  rw [he]
  refine ⟨isPrime_4503599627370449, ?_⟩
  intro q h1 h2 hq
  have h2x : q < 4503599627370496 := by norm_num at h2; exact h2
  have hlen : (gapW52).length = 46 := by rfl
  exact cwOK_spec gapW52 4503599627370450 (by decide) q (by omega) (by omega) hq

theorem tf53 : Nat.Prime (2 ^ 53 - prime_offset.getD 53 0) ∧
    ∀ q : Nat, 2 ^ 53 - prime_offset.getD 53 0 < q → q < 2 ^ 53 → ¬ Nat.Prime q := by
  have he : (2 : Nat) ^ 53 - prime_offset.getD 53 0 = 9007199254740881 := by norm_num [prime_offset]
  rw [he]
  refine ⟨isPrime_9007199254740881, ?_⟩
  intro q h1 h2 hq
  have h2x : q < 9007199254740992 := by norm_num at h2; exact h2
  have hlen : (gapW53).length = 110 := by rfl
  exact cwOK_spec gapW53 9007199254740882 (by decide) q (by omega) (by omega) hq

theorem tf54 : Nat.Prime (2 ^ 54 - prime_offset.getD 54 0) ∧
    ∀ q : Nat, 2 ^ 54 - prime_offset.getD 54 0 < q → q < 2 ^ 54 → ¬ Nat.Prime q := by
  have he : (2 : Nat) ^ 54 - prime_offset.getD 54 0 = 18014398509481951 := by norm_num [prime_offset]
  rw [he]
  refine ⟨isPrime_18014398509481951, ?_⟩
  intro q h1 h2 hq
  have h2x : q < 18014398509481984 := by norm_num at h2; exact h2
  have hlen : (gapW54).length = 32 := by rfl
  exact cwOK_spec gapW54 18014398509481952 (by decide) q (by omega) (by omega) hq

theorem tf55 : Nat.Prime (2 ^ 55 - prime_offset.getD 55 0) ∧
    ∀ q : Nat, 2 ^ 55 - prime_offset.getD 55 0 < q → q < 2 ^ 55 → ¬ Nat.Prime q := by
  have he : (2 : Nat) ^ 55 - prime_offset.getD 55 0 = 36028797018963913 := by norm_num [prime_offset]
  rw [he]
  refine ⟨isPrime_36028797018963913, ?_⟩
  intro q h1 h2 hq
  have h2x : q < 36028797018963968 := by norm_num at h2; exact h2
  have hlen : (gapW55).length = 54 := by rfl
  exact cwOK_spec gapW55 36028797018963914 (by decide) q (by omega) (by omega) hq

theorem tf56 : Nat.Prime (2 ^ 56 - prime_offset.getD 56 0) ∧
    ∀ q : Nat, 2 ^ 56 - prime_offset.getD 56 0 < q → q < 2 ^ 56 → ¬ Nat.Prime q := by
  have he : (2 : Nat) ^ 56 - prime_offset.getD 56 0 = 72057594037927931 := by norm_num [prime_offset]
  rw [he]
  refine ⟨isPrime_72057594037927931, ?_⟩
  intro q h1 h2 hq
  have h2x : q < 72057594037927936 := by norm_num at h2; exact h2
  have hlen : (gapW56).length = 4 := by rfl
  exact cwOK_spec gapW56 72057594037927932 (by decide) q (by omega) (by omega) hq

theorem tf57 : Nat.Prime (2 ^ 57 - prime_offset.getD 57 0) ∧
    ∀ q : Nat, 2 ^ 57 - prime_offset.getD 57 0 < q → q < 2 ^ 57 → ¬ Nat.Prime q := by
  have he : (2 : Nat) ^ 57 - prime_offset.getD 57 0 = 144115188075855859 := by norm_num [prime_offset]
  rw [he]
  refine ⟨isPrime_144115188075855859, ?_⟩
  intro q h1 h2 hq
  have h2x : q < 144115188075855872 := by norm_num at h2; exact h2
  have hlen : (gapW57).length = 12 := by rfl
  exact cwOK_spec gapW57 144115188075855860 (by decide) q (by omega) (by omega) hq

theorem tf58 : Nat.Prime (2 ^ 58 - prime_offset.getD 58 0) ∧
    ∀ q : Nat, 2 ^ 58 - prime_offset.getD 58 0 < q → q < 2 ^ 58 → ¬ Nat.Prime q := by
  have he : (2 : Nat) ^ 58 - prime_offset.getD 58 0 = 288230376151711717 := by norm_num [prime_offset]
  rw [he]
  refine ⟨isPrime_288230376151711717, ?_⟩
  intro q h1 h2 hq
  have h2x : q < 288230376151711744 := by norm_num at h2; exact h2
  have hlen : (gapW58).length = 26 := by rfl
  exact cwOK_spec gapW58 288230376151711718 (by decide) q (by omega) (by omega) hq

theorem tf59 : Nat.Prime (2 ^ 59 - prime_offset.getD 59 0) ∧
    ∀ q : Nat, 2 ^ 59 - prime_offset.getD 59 0 < q → q < 2 ^ 59 → ¬ Nat.Prime q := by
  have he : (2 : Nat) ^ 59 - prime_offset.getD 59 0 = 576460752303423433 := by norm_num [prime_offset]
  rw [he]
  refine ⟨isPrime_576460752303423433, ?_⟩
  intro q h1 h2 hq
  have h2x : q < 576460752303423488 := by norm_num at h2; exact h2
  have hlen : (gapW59).length = 54 := by rfl
  exact cwOK_spec gapW59 576460752303423434 (by decide) q (by omega) (by omega) hq

theorem tf60 : Nat.Prime (2 ^ 60 - prime_offset.getD 60 0) ∧
    ∀ q : Nat, 2 ^ 60 - prime_offset.getD 60 0 < q → q < 2 ^ 60 → ¬ Nat.Prime q := by
  have he : (2 : Nat) ^ 60 - prime_offset.getD 60 0 = 1152921504606846883 := by norm_num [prime_offset]
  rw [he]
  refine ⟨isPrime_1152921504606846883, ?_⟩
  intro q h1 h2 hq
  have h2x : q < 1152921504606846976 := by norm_num at h2; exact h2
  have hlen : (gapW60).length = 92 := by rfl
  exact cwOK_spec gapW60 1152921504606846884 (by decide) q (by omega) (by omega) hq

theorem tf61 : Nat.Prime (2 ^ 61 - prime_offset.getD 61 0) ∧
    ∀ q : Nat, 2 ^ 61 - prime_offset.getD 61 0 < q → q < 2 ^ 61 → ¬ Nat.Prime q := by
  have he : (2 : Nat) ^ 61 - prime_offset.getD 61 0 = 2305843009213693951 := by norm_num [prime_offset]
  rw [he]
  refine ⟨isPrime_2305843009213693951, ?_⟩
  intro q h1 h2 hq
  have h2x : q < 2305843009213693952 := by norm_num at h2; exact h2
  have hlen : (gapW61).length = 0 := by rfl
  exact cwOK_spec gapW61 2305843009213693952 (by decide) q (by omega) (by omega) hq

theorem tf62 : Nat.Prime (2 ^ 62 - prime_offset.getD 62 0) ∧
    ∀ q : Nat, 2 ^ 62 - prime_offset.getD 62 0 < q → q < 2 ^ 62 → ¬ Nat.Prime q := by
  have he : (2 : Nat) ^ 62 - prime_offset.getD 62 0 = 4611686018427387847 := by norm_num [prime_offset]
  rw [he]
  refine ⟨isPrime_4611686018427387847, ?_⟩
  intro q h1 h2 hq
  have h2x : q < 4611686018427387904 := by norm_num at h2; exact h2
  have hlen : (gapW62).length = 56 := by rfl
  exact cwOK_spec gapW62 4611686018427387848 (by decide) q (by omega) (by omega) hq

theorem tf63 : Nat.Prime (2 ^ 63 - prime_offset.getD 63 0) ∧
    ∀ q : Nat, 2 ^ 63 - prime_offset.getD 63 0 < q → q < 2 ^ 63 → ¬ Nat.Prime q := by
  have he : (2 : Nat) ^ 63 - prime_offset.getD 63 0 = 9223372036854775783 := by norm_num [prime_offset]
  rw [he]
  refine ⟨isPrime_9223372036854775783, ?_⟩
  intro q h1 h2 hq
  have h2x : q < 9223372036854775808 := by norm_num at h2; exact h2
  have hlen : (gapW63).length = 24 := by rfl
  exact cwOK_spec gapW63 9223372036854775784 (by decide) q (by omega) (by omega) hq

theorem tableFact : ∀ k : Nat, 1 < k → k < 64 →
    Nat.Prime (2 ^ k - prime_offset.getD k 0) ∧
    ∀ q : Nat, 2 ^ k - prime_offset.getD k 0 < q → q < 2 ^ k → ¬ Nat.Prime q := by
  intro k hk1 hk2
  interval_cases k
  · exact tf2
  · exact tf3
  · exact tf4
  · exact tf5
  · exact tf6
  · exact tf7
  · exact tf8
  · exact tf9
  · exact tf10
  · exact tf11
  · exact tf12
  · exact tf13
  · exact tf14
  · exact tf15
  · exact tf16
  · exact tf17
  · exact tf18
  · exact tf19
  · exact tf20
  · exact tf21
  · exact tf22
  · exact tf23
  · exact tf24
  · exact tf25
  · exact tf26
  · exact tf27
  · exact tf28
  · exact tf29
  · exact tf30
  · exact tf31
  · exact tf32
  · exact tf33
  · exact tf34
  · exact tf35
  · exact tf36
  · exact tf37
  · exact tf38
  · exact tf39
  · exact tf40
  · exact tf41
  · exact tf42
  · exact tf43
  · exact tf44
  · exact tf45
  · exact tf46
  · exact tf47
  · exact tf48
  · exact tf49
  · exact tf50
  · exact tf51
  · exact tf52
  · exact tf53
  · exact tf54
  · exact tf55
  · exact tf56
  · exact tf57
  · exact tf58
  · exact tf59
  · exact tf60
  · exact tf61
  · exact tf62
  · exact tf63

/-- C9: for every index k with 1 < k < 64, 2^k - prime_offset[k] is the largest prime
strictly below 2^k (it is prime, and no integer strictly between it and 2^k is prime);
consequently the bucket count nbuckets = (1 << p) - prime_offset[p] computed in
read_files is prime for every positive equivs_alloc representable in ptrdiff_t. -/
theorem C9_prime_offset_table :
    (∀ k : Nat, 1 < k → k < 64 →
        Nat.Prime (2 ^ k - prime_offset.getD k 0) ∧
        ∀ q : Nat, 2 ^ k - prime_offset.getD k 0 < q → q < 2 ^ k → ¬ Nat.Prime q) ∧
    (∀ equivs_alloc : Nat, 0 < equivs_alloc → equivs_alloc ≤ 2 ^ 63 - 1 →
        Nat.Prime (read_files_nbuckets equivs_alloc)) := by
  refine ⟨tableFact, ?_⟩
  intro ea h1 h2
  rw [read_files_nbuckets]
  by_cases hsm : ea ≤ 256 * 3
  · simp only [if_pos hsm]
    exact (tableFact 9 (by norm_num) (by norm_num)).1
  · simp only [if_neg hsm]
    have hne0 : ea / 3 ≠ 0 := by omega
    have hp9 : 8 ≤ Nat.log2 (ea / 3) := (Nat.le_log2 hne0).mpr (by omega)
    have hp62 : Nat.log2 (ea / 3) < 62 := (Nat.log2_lt hne0).mpr (by omega)
    exact (tableFact (Nat.log2 (ea / 3) + 1) (by omega) (by omega)).1

theorem C9_prime_offset_table_witness :
    Nat.Prime (2 ^ 62 - prime_offset.getD 62 0) ∧ Nat.Prime (read_files_nbuckets 3000) :=
  ⟨(C9_prime_offset_table.1 62 (by norm_num) (by norm_num)).1,
   C9_prime_offset_table.2 3000 (by norm_num) (by norm_num)⟩

end GDiff
